import Mathlib

set_option linter.unusedVariables false

/-!
Verification of the norcina 3x3x3 cube kernel and its Kociemba-search support
code against its specification.

The development shallowly embeds the Rust sources:

* bytes are modelled as `Nat` (all packed fields in the source fit in a `u8`;
  masks and shifts are carried over literally, and `% 2^w` is inserted exactly
  where the source's `u8` arithmetic can wrap);
* the 8-corner and 12-edge arrays are `List Nat` of the packed bytes;
* `Face`, `Move`, `Amount` are the packed byte encodings from
  norcina-cube-n/src/face.rs and norcina-cube-n/src/mov.rs
  (face = `axis + (direction <<< 2)`, move = `face + (amount <<< 3)`).

Source files referenced throughout:

* norcina-cube-n/src/piece/corner.rs   (corner byte layout, `corner::move_pieces`)
* norcina-cube-n/src/piece/edge.rs     (edge byte layout, `edge::move_pieces`)
* norcina-cube3/src/cube.rs            (`Cube`, `Cube::mov_single`, `Cube::neighbors`)
* norcina-cube3/src/search/mod.rs      (`search_idastar` successor function)
* norcina-cube3/src/search/kociemba.rs (`G1_MOVES`, `is_in_g1`)
* norcina-cube3/src/search/kociemba/prune_table.rs (the six coordinate subtables)
-/

namespace Norcina

/-- Face accessor `Face::axis`: `self.u8() & 0b011`. -/
def Face.axis (f : Nat) : Nat := f &&& 3

/-- Face accessor `Face::direction`: bit 2 of the face byte. -/
def Face.direction (f : Nat) : Nat := (f >>> 2) &&& 1

/-- Constructor `Face::new(axis, direction)`: `axis + (direction << 2)`. -/
def Face.new (a d : Nat) : Nat := a + (d <<< 2)

/-- Constructor `Move::new(face, amount)`: packed byte `---aafff`. -/
def Move.new (face amount : Nat) : Nat := face + (amount <<< 3)

/-- Accessor `Move::face`: `data & 0b111`. -/
def Move.face (m : Nat) : Nat := m &&& 7

/-- Accessor `Move::amount`: `data >> 3` (1 = Single, 2 = Double, 3 = Reverse). -/
def Move.amount (m : Nat) : Nat := m >>> 3

/-- Accessor `Move::axis`: the axis of the move's face. -/
def Move.axis (m : Nat) : Nat := Face.axis (Move.face m)

/-- Move constant `R` (face R = 0, amount Single = 1). -/
def mR : Nat := Move.new 0 1
/-- Move constant `R2`. -/
def mR2 : Nat := Move.new 0 2
/-- Move constant `R'`. -/
def mRP : Nat := Move.new 0 3
/-- Move constant `U` (face U = 1). -/
def mU : Nat := Move.new 1 1
/-- Move constant `U2`. -/
def mU2 : Nat := Move.new 1 2
/-- Move constant `U'`. -/
def mUP : Nat := Move.new 1 3
/-- Move constant `F` (face F = 2). -/
def mF : Nat := Move.new 2 1
/-- Move constant `F2`. -/
def mF2 : Nat := Move.new 2 2
/-- Move constant `F'`. -/
def mFP : Nat := Move.new 2 3
/-- Move constant `L` (face L = 4). -/
def mL : Nat := Move.new 4 1
/-- Move constant `L2`. -/
def mL2 : Nat := Move.new 4 2
/-- Move constant `L'`. -/
def mLP : Nat := Move.new 4 3
/-- Move constant `D` (face D = 5). -/
def mD : Nat := Move.new 5 1
/-- Move constant `D2`. -/
def mD2 : Nat := Move.new 5 2
/-- Move constant `D'`. -/
def mDP : Nat := Move.new 5 3
/-- Move constant `B` (face B = 6). -/
def mB : Nat := Move.new 6 1
/-- Move constant `B2`. -/
def mB2 : Nat := Move.new 6 2
/-- Move constant `B'`. -/
def mBP : Nat := Move.new 6 3

/-- The 18 moves, in the order of `Move::ALL` (which coincides with the order
produced by `Move::iter`): faces R, U, F, L, D, B, each with amounts
Single, Double, Reverse. -/
def Move.ALL : List Nat :=
  [mR, mR2, mRP, mU, mU2, mUP, mF, mF2, mFP, mL, mL2, mLP, mD, mD2, mDP, mB, mB2, mBP]

/-- The ten moves that stay inside G1, from `G1_MOVES` in
norcina-cube3/src/search/kociemba.rs: `[U, U2, UP, D, D2, DP, R2, L2, F2, B2]`. -/
def G1_MOVES : List Nat := [mU, mU2, mUP, mD, mD2, mDP, mR2, mL2, mF2, mB2]

/-- `CornerPosition::parity`: xor of the three position bits,
`(d ^ (d >> 1) ^ (d >> 2)) & 0b1`. -/
def cornerParity (d : Nat) : Nat := (d ^^^ (d >>> 1) ^^^ (d >>> 2)) &&& 1

/-- `CornerPosition::contains_face`: `(data >> face.axis) & 0b1 == face.direction`. -/
def cornerContainsFace (p f : Nat) : Bool := (p >>> Face.axis f) &&& 1 == Face.direction f

/-- `corner::move_pieces` from norcina-cube-n/src/piece/corner.rs lines 298-351,
translated slot by slot (`array::from_fn`).  The `match (amount, direction)`
is rendered through the boolean `cw`; the final
`(out.data + (orientation_diff << 3)) % (3 << 3)` is `% 24` here (the `u8`
addition cannot wrap for valid corner bytes, which are below 24). -/
def cornerMovePieces (corners : List Nat) (m : Nat) : List Nat :=
  List.ofFn fun iF : Fin 8 =>
    let i := iF.val
    if ¬ cornerContainsFace i (Move.face m) then corners.getD i 0
    else if Move.amount m == 2 then
      corners.getD (i ^^^ (7 ^^^ (1 <<< Move.axis m))) 0
    else
      let cw := (Move.amount m == 1) == (Face.direction (Move.face m) == 0)
      let a := if cw then (Move.axis m + 1) % 3 else (Move.axis m + 2) % 3
      let b := if cw then (Move.axis m + 2) % 3 else (Move.axis m + 1) % 3
      let t := ((i >>> a) ^^^ (i >>> b)) &&& 1
      let j := i ^^^ (((t ^^^ 1) <<< a) ||| (t <<< b))
      let isNotOnY := (Move.axis m &&& 1) ^^^ 1
      let d := isNotOnY <<< (cornerParity i ^^^ (Move.amount m &&& 1) ^^^ (Move.axis m >>> 1))
      (corners.getD j 0 + (d <<< 3)) % 24

/-- `EdgePosition::direction_on_axis`:
`(data >> ((3 - normal + axis) % 3 - 1)) & 0b1`.  Only called with
`axis != normal` (enforced by a debug assertion in the source), in which case
the Nat subtraction cannot truncate. -/
def edgeDirOnAxis (p axis : Nat) : Nat :=
  (p >>> ((3 - ((p >>> 2) &&& 3) + axis) % 3 - 1)) &&& 1

/-- `EdgePosition::from_faces`: normal is `Axis::other(f1.axis, f2.axis)`
(`(2a + 3 - b) mod 3`), then the two direction bits are packed in the order
fixed by `properly_ordered = (f1.axis == normal.next())`. -/
def edgePosFromFaces (f1 f2 : Nat) : Nat :=
  let normal := (2 * Face.axis f1 + 3 - Face.axis f2) % 3
  let po := Face.axis f1 == (normal + 1) % 3
  let a := if po then Face.direction f1 else Face.direction f2
  let b := if po then Face.direction f2 else Face.direction f1
  a + (b <<< 1) + (normal <<< 2)

/-- `edge::move_pieces` from norcina-cube-n/src/piece/edge.rs lines 263-348,
translated slot by slot.  The two early `return edges[i]` branches become the
`none` case and the `dirMov` test; the `Amount::Double` branch indexes the
antipodal slot on the face; quarter turns go through
`EdgePosition::from_faces` and finally xor the orientation bit with
`is_on_z_axis << 4`. -/
def edgeMovePieces (edges : List Nat) (m : Nat) : List Nat :=
  List.ofFn fun iF : Fin 12 =>
    let i := iF.val
    let normal := (i >>> 2) &&& 3
    let sel : Option (Nat × Nat) :=
      if Move.axis m == (normal + 1) % 3 then some (i &&& 1, 1)
      else if Move.axis m == (normal + 2) % 3 then some ((i >>> 1) &&& 1, 0)
      else none
    match sel with
    | none => edges.getD i 0
    | some (dirMov, off) =>
      if dirMov != Face.direction (Move.face m) then edges.getD i 0
      else if Move.amount m == 2 then edges.getD (i ^^^ (1 <<< off)) 0
      else
        let cw := (Move.amount m == 1) == (Face.direction (Move.face m) == 0)
        let a := if cw then (Move.axis m + 1) % 3 else (Move.axis m + 2) % 3
        let b := if cw then (Move.axis m + 2) % 3 else (Move.axis m + 1) % 3
        let otherFace :=
          if a == normal then Face.new a ((edgeDirOnAxis i b) ^^^ 1)
          else Face.new b (edgeDirOnAxis i a)
        let np := edgePosFromFaces otherFace (Move.face m)
        (edges.getD np 0) ^^^ (((Move.axis m) >>> 1) <<< 4)

/-- The full cube state: 8 packed corner bytes and 12 packed edge bytes
(norcina-cube3/src/cube.rs). -/
structure Cube where
  corners : List Nat
  edges : List Nat
deriving DecidableEq

/-- `Cube::SOLVED`: corners `[0..8)` and edges `[0..12)`, all orientations 0. -/
def Cube.SOLVED : Cube := ⟨[0,1,2,3,4,5,6,7], [0,1,2,3,4,5,6,7,8,9,10,11]⟩

/-- `Cube::mov_single`: apply the corner and edge kernels. -/
def Cube.movSingle (c : Cube) (m : Nat) : Cube :=
  ⟨cornerMovePieces c.corners m, edgeMovePieces c.edges m⟩

/-- `Cube::mov`: left fold of `mov_single` over an algorithm. -/
def Cube.mov (c : Cube) (alg : List Nat) : Cube := alg.foldl Cube.movSingle c

/-- `Cube::neighbors`: the 18 pairs `(move, state after the move)`, in the
order of `Move::iter`. -/
def Cube.neighbors (c : Cube) : List (Nat × Cube) :=
  Move.ALL.map fun m => (m, c.movSingle m)

/-- The successor function `search_idastar` hands to the IDA* driver
(norcina-cube3/src/search/mod.rs line 41):
`cube.neighbors().map(|(_mov, state)| (state, 1))`.  Both `solve_to_g1` and
`solve_from_g1` call `search_idastar`, so both phases expand exactly these
successors. -/
def idastarSuccessors (c : Cube) : List (Cube × Nat) :=
  (c.neighbors).map fun p => (p.2, 1)

/-- `is_in_g1` from norcina-cube3/src/search/kociemba.rs lines 55-66:
all corners oriented, all edges oriented, and for every slot the occupant's
position is y-normal exactly when the slot is. -/
def isInG1 (c : Cube) : Bool :=
  (c.corners.all fun d => (d >>> 3) &&& 3 == 0) &&
  (c.edges.all fun d => d &&& 16 == 0) &&
  (c.edges.enum.all fun p =>
    ((((p.1 : Nat) >>> 2) &&& 3 == 1) == (((p.2 &&& 15) >>> 2) &&& 3 == 1)))

/-- Validity of a packed corner byte: the three most significant bits are zero
and the orientation is at most 2 (the invariants documented on `Corner`),
which together say exactly that the byte is below 24. -/
abbrev CornerOk (d : Nat) : Prop := d < 24

/-- Validity of a packed edge byte: bits 5-7 are zero (`d < 32`) and the
normal-axis field is a valid axis (`d % 16 < 12`, i.e. the position bits
name one of the twelve edge positions). -/
abbrev EdgeOk (d : Nat) : Prop := d < 32 ∧ d % 16 < 12

/-- A structurally valid cube: correct array lengths and per-piece byte
invariants. -/
def Cube.Valid (c : Cube) : Prop :=
  c.corners.length = 8 ∧ c.edges.length = 12 ∧
    (∀ d ∈ c.corners, CornerOk d) ∧ (∀ d ∈ c.edges, EdgeOk d)

theorem solved_valid : Cube.Valid Cube.SOLVED := by
  refine ⟨rfl, rfl, ?_, ?_⟩ <;> · intro d hd; fin_cases hd <;> simp [CornerOk, EdgeOk]

theorem exists_list8 (l : List Nat) (h : l.length = 8) :
    ∃ a0 a1 a2 a3 a4 a5 a6 a7, l = [a0,a1,a2,a3,a4,a5,a6,a7] := by
  match l, h with
  | [a0,a1,a2,a3,a4,a5,a6,a7], _ => exact ⟨a0,a1,a2,a3,a4,a5,a6,a7, rfl⟩

theorem exists_list12 (l : List Nat) (h : l.length = 12) :
    ∃ a0 a1 a2 a3 a4 a5 a6 a7 a8 a9 a10 a11,
      l = [a0,a1,a2,a3,a4,a5,a6,a7,a8,a9,a10,a11] := by
  match l, h with
  | [a0,a1,a2,a3,a4,a5,a6,a7,a8,a9,a10,a11], _ =>
    exact ⟨a0,a1,a2,a3,a4,a5,a6,a7,a8,a9,a10,a11, rfl⟩

/-! Slot-level normal forms of the two move kernels, one lemma per move.
Each is proved by `rfl`: with the move concrete, every branch condition in
the kernel is closed, so the definition reduces and only the byte contents
stay symbolic.  In the corner lemmas `(x + k) % 24` records the twist
delta `k/8` added to the byte moved in from the source slot; entries written
plainly are slots the move does not touch (or, for half turns, plain copies).
In the edge lemmas `^^^ 16` records an orientation flip and `^^^ 0` a moved
slot without flip. -/

theorem cornerNF_R (c0 c1 c2 c3 c4 c5 c6 c7 : Nat) :
    cornerMovePieces [c0,c1,c2,c3,c4,c5,c6,c7] mR =
      [(c2+16)%24, c1, (c6+8)%24, c3, (c0+8)%24, c5, (c4+16)%24, c7] := rfl

theorem cornerNF_R2 (c0 c1 c2 c3 c4 c5 c6 c7 : Nat) :
    cornerMovePieces [c0,c1,c2,c3,c4,c5,c6,c7] mR2 =
      [c6, c1, c4, c3, c2, c5, c0, c7] := rfl

theorem cornerNF_RP (c0 c1 c2 c3 c4 c5 c6 c7 : Nat) :
    cornerMovePieces [c0,c1,c2,c3,c4,c5,c6,c7] mRP =
      [(c4+16)%24, c1, (c0+8)%24, c3, (c6+8)%24, c5, (c2+16)%24, c7] := rfl

theorem cornerNF_U (c0 c1 c2 c3 c4 c5 c6 c7 : Nat) :
    cornerMovePieces [c0,c1,c2,c3,c4,c5,c6,c7] mU =
      [c4%24, c0%24, c2, c3, c5%24, c1%24, c6, c7] := rfl

theorem cornerNF_U2 (c0 c1 c2 c3 c4 c5 c6 c7 : Nat) :
    cornerMovePieces [c0,c1,c2,c3,c4,c5,c6,c7] mU2 =
      [c5, c4, c2, c3, c1, c0, c6, c7] := rfl

theorem cornerNF_UP (c0 c1 c2 c3 c4 c5 c6 c7 : Nat) :
    cornerMovePieces [c0,c1,c2,c3,c4,c5,c6,c7] mUP =
      [c1%24, c5%24, c2, c3, c0%24, c4%24, c6, c7] := rfl

theorem cornerNF_F (c0 c1 c2 c3 c4 c5 c6 c7 : Nat) :
    cornerMovePieces [c0,c1,c2,c3,c4,c5,c6,c7] mF =
      [(c1+8)%24, (c3+16)%24, (c0+16)%24, (c2+8)%24, c4, c5, c6, c7] := rfl

theorem cornerNF_F2 (c0 c1 c2 c3 c4 c5 c6 c7 : Nat) :
    cornerMovePieces [c0,c1,c2,c3,c4,c5,c6,c7] mF2 =
      [c3, c2, c1, c0, c4, c5, c6, c7] := rfl

theorem cornerNF_FP (c0 c1 c2 c3 c4 c5 c6 c7 : Nat) :
    cornerMovePieces [c0,c1,c2,c3,c4,c5,c6,c7] mFP =
      [(c2+8)%24, (c0+16)%24, (c3+16)%24, (c1+8)%24, c4, c5, c6, c7] := rfl

theorem cornerNF_L (c0 c1 c2 c3 c4 c5 c6 c7 : Nat) :
    cornerMovePieces [c0,c1,c2,c3,c4,c5,c6,c7] mL =
      [c0, (c5+8)%24, c2, (c1+16)%24, c4, (c7+16)%24, c6, (c3+8)%24] := rfl

theorem cornerNF_L2 (c0 c1 c2 c3 c4 c5 c6 c7 : Nat) :
    cornerMovePieces [c0,c1,c2,c3,c4,c5,c6,c7] mL2 =
      [c0, c7, c2, c5, c4, c3, c6, c1] := rfl

theorem cornerNF_LP (c0 c1 c2 c3 c4 c5 c6 c7 : Nat) :
    cornerMovePieces [c0,c1,c2,c3,c4,c5,c6,c7] mLP =
      [c0, (c3+8)%24, c2, (c7+16)%24, c4, (c1+16)%24, c6, (c5+8)%24] := rfl

theorem cornerNF_D (c0 c1 c2 c3 c4 c5 c6 c7 : Nat) :
    cornerMovePieces [c0,c1,c2,c3,c4,c5,c6,c7] mD =
      [c0, c1, c3%24, c7%24, c4, c5, c2%24, c6%24] := rfl

theorem cornerNF_D2 (c0 c1 c2 c3 c4 c5 c6 c7 : Nat) :
    cornerMovePieces [c0,c1,c2,c3,c4,c5,c6,c7] mD2 =
      [c0, c1, c7, c6, c4, c5, c3, c2] := rfl

theorem cornerNF_DP (c0 c1 c2 c3 c4 c5 c6 c7 : Nat) :
    cornerMovePieces [c0,c1,c2,c3,c4,c5,c6,c7] mDP =
      [c0, c1, c6%24, c2%24, c4, c5, c7%24, c3%24] := rfl

theorem cornerNF_B (c0 c1 c2 c3 c4 c5 c6 c7 : Nat) :
    cornerMovePieces [c0,c1,c2,c3,c4,c5,c6,c7] mB =
      [c0, c1, c2, c3, (c6+16)%24, (c4+8)%24, (c7+8)%24, (c5+16)%24] := rfl

theorem cornerNF_B2 (c0 c1 c2 c3 c4 c5 c6 c7 : Nat) :
    cornerMovePieces [c0,c1,c2,c3,c4,c5,c6,c7] mB2 =
      [c0, c1, c2, c3, c7, c6, c5, c4] := rfl

theorem cornerNF_BP (c0 c1 c2 c3 c4 c5 c6 c7 : Nat) :
    cornerMovePieces [c0,c1,c2,c3,c4,c5,c6,c7] mBP =
      [c0, c1, c2, c3, (c5+16)%24, (c7+8)%24, (c4+8)%24, (c6+16)%24] := rfl

theorem edgeNF_R (e0 e1 e2 e3 e4 e5 e6 e7 e8 e9 e10 e11 : Nat) :
    edgeMovePieces [e0,e1,e2,e3,e4,e5,e6,e7,e8,e9,e10,e11] mR =
      [e0, e1, e2, e3, e10^^^0, e8^^^0, e6, e7, e4^^^0, e9, e5^^^0, e11] := rfl

theorem edgeNF_R2 (e0 e1 e2 e3 e4 e5 e6 e7 e8 e9 e10 e11 : Nat) :
    edgeMovePieces [e0,e1,e2,e3,e4,e5,e6,e7,e8,e9,e10,e11] mR2 =
      [e0, e1, e2, e3, e5, e4, e6, e7, e10, e9, e8, e11] := rfl

theorem edgeNF_RP (e0 e1 e2 e3 e4 e5 e6 e7 e8 e9 e10 e11 : Nat) :
    edgeMovePieces [e0,e1,e2,e3,e4,e5,e6,e7,e8,e9,e10,e11] mRP =
      [e0, e1, e2, e3, e8^^^0, e10^^^0, e6, e7, e5^^^0, e9, e4^^^0, e11] := rfl

theorem edgeNF_U (e0 e1 e2 e3 e4 e5 e6 e7 e8 e9 e10 e11 : Nat) :
    edgeMovePieces [e0,e1,e2,e3,e4,e5,e6,e7,e8,e9,e10,e11] mU =
      [e8^^^0, e1, e9^^^0, e3, e4, e5, e6, e7, e2^^^0, e0^^^0, e10, e11] := rfl

theorem edgeNF_U2 (e0 e1 e2 e3 e4 e5 e6 e7 e8 e9 e10 e11 : Nat) :
    edgeMovePieces [e0,e1,e2,e3,e4,e5,e6,e7,e8,e9,e10,e11] mU2 =
      [e2, e1, e0, e3, e4, e5, e6, e7, e9, e8, e10, e11] := rfl

theorem edgeNF_UP (e0 e1 e2 e3 e4 e5 e6 e7 e8 e9 e10 e11 : Nat) :
    edgeMovePieces [e0,e1,e2,e3,e4,e5,e6,e7,e8,e9,e10,e11] mUP =
      [e9^^^0, e1, e8^^^0, e3, e4, e5, e6, e7, e0^^^0, e2^^^0, e10, e11] := rfl

theorem edgeNF_F (e0 e1 e2 e3 e4 e5 e6 e7 e8 e9 e10 e11 : Nat) :
    edgeMovePieces [e0,e1,e2,e3,e4,e5,e6,e7,e8,e9,e10,e11] mF =
      [e6^^^16, e4^^^16, e2, e3, e0^^^16, e5, e1^^^16, e7, e8, e9, e10, e11] := rfl

theorem edgeNF_F2 (e0 e1 e2 e3 e4 e5 e6 e7 e8 e9 e10 e11 : Nat) :
    edgeMovePieces [e0,e1,e2,e3,e4,e5,e6,e7,e8,e9,e10,e11] mF2 =
      [e1, e0, e2, e3, e6, e5, e4, e7, e8, e9, e10, e11] := rfl

theorem edgeNF_FP (e0 e1 e2 e3 e4 e5 e6 e7 e8 e9 e10 e11 : Nat) :
    edgeMovePieces [e0,e1,e2,e3,e4,e5,e6,e7,e8,e9,e10,e11] mFP =
      [e4^^^16, e6^^^16, e2, e3, e1^^^16, e5, e0^^^16, e7, e8, e9, e10, e11] := rfl

theorem edgeNF_L (e0 e1 e2 e3 e4 e5 e6 e7 e8 e9 e10 e11 : Nat) :
    edgeMovePieces [e0,e1,e2,e3,e4,e5,e6,e7,e8,e9,e10,e11] mL =
      [e0, e1, e2, e3, e4, e5, e9^^^0, e11^^^0, e8, e7^^^0, e10, e6^^^0] := rfl

theorem edgeNF_L2 (e0 e1 e2 e3 e4 e5 e6 e7 e8 e9 e10 e11 : Nat) :
    edgeMovePieces [e0,e1,e2,e3,e4,e5,e6,e7,e8,e9,e10,e11] mL2 =
      [e0, e1, e2, e3, e4, e5, e7, e6, e8, e11, e10, e9] := rfl

theorem edgeNF_LP (e0 e1 e2 e3 e4 e5 e6 e7 e8 e9 e10 e11 : Nat) :
    edgeMovePieces [e0,e1,e2,e3,e4,e5,e6,e7,e8,e9,e10,e11] mLP =
      [e0, e1, e2, e3, e4, e5, e11^^^0, e9^^^0, e8, e6^^^0, e10, e7^^^0] := rfl

theorem edgeNF_D (e0 e1 e2 e3 e4 e5 e6 e7 e8 e9 e10 e11 : Nat) :
    edgeMovePieces [e0,e1,e2,e3,e4,e5,e6,e7,e8,e9,e10,e11] mD =
      [e0, e11^^^0, e2, e10^^^0, e4, e5, e6, e7, e8, e9, e1^^^0, e3^^^0] := rfl

theorem edgeNF_D2 (e0 e1 e2 e3 e4 e5 e6 e7 e8 e9 e10 e11 : Nat) :
    edgeMovePieces [e0,e1,e2,e3,e4,e5,e6,e7,e8,e9,e10,e11] mD2 =
      [e0, e3, e2, e1, e4, e5, e6, e7, e8, e9, e11, e10] := rfl

theorem edgeNF_DP (e0 e1 e2 e3 e4 e5 e6 e7 e8 e9 e10 e11 : Nat) :
    edgeMovePieces [e0,e1,e2,e3,e4,e5,e6,e7,e8,e9,e10,e11] mDP =
      [e0, e10^^^0, e2, e11^^^0, e4, e5, e6, e7, e8, e9, e3^^^0, e1^^^0] := rfl

theorem edgeNF_B (e0 e1 e2 e3 e4 e5 e6 e7 e8 e9 e10 e11 : Nat) :
    edgeMovePieces [e0,e1,e2,e3,e4,e5,e6,e7,e8,e9,e10,e11] mB =
      [e0, e1, e5^^^16, e7^^^16, e4, e3^^^16, e6, e2^^^16, e8, e9, e10, e11] := rfl

theorem edgeNF_B2 (e0 e1 e2 e3 e4 e5 e6 e7 e8 e9 e10 e11 : Nat) :
    edgeMovePieces [e0,e1,e2,e3,e4,e5,e6,e7,e8,e9,e10,e11] mB2 =
      [e0, e1, e3, e2, e4, e7, e6, e5, e8, e9, e10, e11] := rfl

theorem edgeNF_BP (e0 e1 e2 e3 e4 e5 e6 e7 e8 e9 e10 e11 : Nat) :
    edgeMovePieces [e0,e1,e2,e3,e4,e5,e6,e7,e8,e9,e10,e11] mBP =
      [e0, e1, e7^^^16, e5^^^16, e4, e2^^^16, e6, e3^^^16, e8, e9, e10, e11] := rfl
/-! Small arithmetic helpers used to hand bit expressions to `omega`. -/

theorem and7_eq (x : Nat) : x &&& 7 = x % 8 := Nat.and_pow_two_sub_one_eq_mod x 3

theorem and15_eq (x : Nat) : x &&& 15 = x % 16 := Nat.and_pow_two_sub_one_eq_mod x 4

theorem and3_eq (x : Nat) : x &&& 3 = x % 4 := Nat.and_pow_two_sub_one_eq_mod x 2

theorem and1_eq (x : Nat) : x &&& 1 = x % 2 := Nat.and_one_is_mod x

theorem shr3_eq (x : Nat) : x >>> 3 = x / 8 := by
  rw [Nat.shiftRight_eq_div_pow]

theorem shr4_eq (x : Nat) : x >>> 4 = x / 16 := by
  rw [Nat.shiftRight_eq_div_pow]

theorem xor16_facts :
    ∀ d < 32, (d ^^^ 16) < 32 ∧ (d ^^^ 16) % 16 = d % 16 ∧ (d ^^^ 16) / 16 = 1 - d / 16 := by
  decide

theorem corner_bounds {c0 c1 c2 c3 c4 c5 c6 c7 : Nat}
    (h : ∀ d ∈ [c0,c1,c2,c3,c4,c5,c6,c7], CornerOk d) :
    c0 < 24 ∧ c1 < 24 ∧ c2 < 24 ∧ c3 < 24 ∧ c4 < 24 ∧ c5 < 24 ∧ c6 < 24 ∧ c7 < 24 := by
  refine ⟨?_, ?_, ?_, ?_, ?_, ?_, ?_, ?_⟩ <;> exact h _ (by simp)

theorem edge_bounds {e0 e1 e2 e3 e4 e5 e6 e7 e8 e9 e10 e11 : Nat}
    (h : ∀ d ∈ [e0,e1,e2,e3,e4,e5,e6,e7,e8,e9,e10,e11], EdgeOk d) :
    (e0 < 32 ∧ e0 % 16 < 12) ∧ (e1 < 32 ∧ e1 % 16 < 12) ∧ (e2 < 32 ∧ e2 % 16 < 12) ∧
    (e3 < 32 ∧ e3 % 16 < 12) ∧ (e4 < 32 ∧ e4 % 16 < 12) ∧ (e5 < 32 ∧ e5 % 16 < 12) ∧
    (e6 < 32 ∧ e6 % 16 < 12) ∧ (e7 < 32 ∧ e7 % 16 < 12) ∧ (e8 < 32 ∧ e8 % 16 < 12) ∧
    (e9 < 32 ∧ e9 % 16 < 12) ∧ (e10 < 32 ∧ e10 % 16 < 12) ∧ (e11 < 32 ∧ e11 % 16 < 12) := by
  refine ⟨?_, ?_, ?_, ?_, ?_, ?_, ?_, ?_, ?_, ?_, ?_, ?_⟩ <;> exact h _ (by simp)

/-- C9: for every valid cube state and every face, the face's quarter turn has
order dividing 4 and its half turn has order dividing 2: applying the single
move four times, or the double move twice, returns the original state.
The six pairs below are exactly (single, double) for faces R, U, F, L, D, B. -/
theorem c9_face_move_orders (c : Cube) (h : c.Valid) (s t : Nat)
    (hf : (s, t) ∈ [(mR, mR2), (mU, mU2), (mF, mF2), (mL, mL2), (mD, mD2), (mB, mB2)]) :
    c.mov [s, s, s, s] = c ∧ c.mov [t, t] = c := by
  obtain ⟨cor, ed⟩ := c
  obtain ⟨h8, h12, hc, he⟩ := h
  obtain ⟨c0,c1,c2,c3,c4,c5,c6,c7, rfl⟩ := exists_list8 cor h8
  obtain ⟨e0,e1,e2,e3,e4,e5,e6,e7,e8,e9,e10,e11, rfl⟩ := exists_list12 ed h12
  obtain ⟨b0,b1,b2,b3,b4,b5,b6,b7⟩ := corner_bounds hc
  fin_cases hf
  · constructor
    · simp only [Cube.mov, List.foldl_cons, List.foldl_nil, Cube.movSingle]
      rw [cornerNF_R, cornerNF_R, cornerNF_R, cornerNF_R,
          edgeNF_R, edgeNF_R, edgeNF_R, edgeNF_R]
      simp only [Cube.mk.injEq, List.cons.injEq, and_true, true_and, Nat.xor_zero]
      omega
    · rfl
  · constructor
    · simp only [Cube.mov, List.foldl_cons, List.foldl_nil, Cube.movSingle]
      rw [cornerNF_U, cornerNF_U, cornerNF_U, cornerNF_U,
          edgeNF_U, edgeNF_U, edgeNF_U, edgeNF_U]
      simp only [Cube.mk.injEq, List.cons.injEq, and_true, true_and, Nat.xor_zero]
      omega
    · rfl
  · constructor
    · simp only [Cube.mov, List.foldl_cons, List.foldl_nil, Cube.movSingle]
      rw [cornerNF_F, cornerNF_F, cornerNF_F, cornerNF_F,
          edgeNF_F, edgeNF_F, edgeNF_F, edgeNF_F]
      simp only [Cube.mk.injEq, List.cons.injEq, and_true, true_and, Nat.xor_assoc,
        Nat.xor_self, Nat.xor_zero, and_self]
      omega
    · rfl
  · constructor
    · simp only [Cube.mov, List.foldl_cons, List.foldl_nil, Cube.movSingle]
      rw [cornerNF_L, cornerNF_L, cornerNF_L, cornerNF_L,
          edgeNF_L, edgeNF_L, edgeNF_L, edgeNF_L]
      simp only [Cube.mk.injEq, List.cons.injEq, and_true, true_and, Nat.xor_zero]
      omega
    · rfl
  · constructor
    · simp only [Cube.mov, List.foldl_cons, List.foldl_nil, Cube.movSingle]
      rw [cornerNF_D, cornerNF_D, cornerNF_D, cornerNF_D,
          edgeNF_D, edgeNF_D, edgeNF_D, edgeNF_D]
      simp only [Cube.mk.injEq, List.cons.injEq, and_true, true_and, Nat.xor_zero]
      omega
    · rfl
  · constructor
    · simp only [Cube.mov, List.foldl_cons, List.foldl_nil, Cube.movSingle]
      rw [cornerNF_B, cornerNF_B, cornerNF_B, cornerNF_B,
          edgeNF_B, edgeNF_B, edgeNF_B, edgeNF_B]
      simp only [Cube.mk.injEq, List.cons.injEq, and_true, true_and, Nat.xor_assoc,
        Nat.xor_self, Nat.xor_zero, and_self]
      omega
    · rfl

/-- Witness for C9 at the solved cube and face R. -/
theorem c9_face_move_orders_witness :
    Cube.SOLVED.mov [mR, mR, mR, mR] = Cube.SOLVED ∧
    Cube.SOLVED.mov [mR2, mR2] = Cube.SOLVED :=
  c9_face_move_orders Cube.SOLVED solved_valid mR mR2 (by simp)

/-- C2 counterexample: the IDA* driver's successor function (the one closure
`search_idastar` builds from `Cube::neighbors`, used by phase 1 and phase 2
alike) expands 18 successors at the solved state, not 10; in particular the
move `R`, which is not in `G1_MOVES`, is expanded, and the state it leads to
is not reachable by any single G1 move. -/
theorem c2_counterexample :
    (idastarSuccessors Cube.SOLVED).length = 18 ∧
    (Cube.neighbors Cube.SOLVED).map Prod.fst = Move.ALL ∧
    mR ∈ (Cube.neighbors Cube.SOLVED).map Prod.fst ∧ mR ∉ G1_MOVES ∧
    Cube.SOLVED.movSingle mR ∉ G1_MOVES.map (Cube.SOLVED.movSingle) := by
  refine ⟨rfl, rfl, by decide, by decide, by decide⟩

/-- C2 amended: both the phase 1 and the phase 2 searches expand all 18 moves
at every node: `search_idastar` (called by `solve_to_g1` and `solve_from_g1`)
always passes `cube.neighbors()`, whose move component is `Move::ALL`;
the 10-move G1 set plays no role in neighbor expansion. -/
theorem c2_amended (c : Cube) :
    (idastarSuccessors c).length = 18 ∧ (Cube.neighbors c).map Prod.fst = Move.ALL :=
  ⟨rfl, rfl⟩

/-- Source slot of the edge byte that the kernel writes into slot `i` under
move `m`, read off from the kernel's own action on the identity arrangement
`[0..12)` (the orientation bit of the marker is stripped). -/
def edgeSrc (m i : Nat) : Nat :=
  (edgeMovePieces [0,1,2,3,4,5,6,7,8,9,10,11] m).getD i 0 &&& 15

/-- Whether move `m` moves the edge slot `i`: the slot is on the moved face.
This is the complement of the two early `return edges[i]` conditions of
`edge::move_pieces` (the slot's normal is not the move's axis, and the slot's
direction bit along the move's axis equals the face's direction). -/
def edgeMovedSlot (m i : Nat) : Bool :=
  let normal := (i >>> 2) &&& 3
  (Move.axis m == (normal + 1) % 3 && ((i &&& 1) == Face.direction (Move.face m))) ||
  (Move.axis m == (normal + 2) % 3 && (((i >>> 1) &&& 1) == Face.direction (Move.face m)))

/-- C7: the edge kernel's full behaviour on arbitrary 12-edge arrays.
Moved slots receive the source slot's byte with `is_on_z_axis = move.axis >> 1`
xored into bit 4 (the orientation bit) - so F-family and B-family quarter
turns flip the orientation of every edge they move while R, L, U, D quarter
turns change no orientation bit - except that double turns copy the source
byte unchanged (they never flip); slots not moved by `m` keep their own byte
(`edgeSrc m i = i`), hence their orientation bit, in every case. -/
theorem c7_edge_orientation_rule (l : List Nat) (hl : l.length = 12)
    (m : Nat) (hm : m ∈ Move.ALL) :
    edgeMovePieces l m
      = (List.range 12).map (fun i =>
          if edgeMovedSlot m i = true ∧ Move.amount m ≠ 2
          then l.getD (edgeSrc m i) 0 ^^^ ((Move.axis m >>> 1) <<< 4)
          else l.getD (edgeSrc m i) 0)
    ∧ (∀ i < 12, edgeMovedSlot m i = false → edgeSrc m i = i) := by
  obtain ⟨e0,e1,e2,e3,e4,e5,e6,e7,e8,e9,e10,e11, rfl⟩ := exists_list12 l hl
  fin_cases hm <;> exact ⟨rfl, by decide⟩

/-- Witness for C7 at the solved edge arrangement and the move `F`. -/
theorem c7_edge_orientation_rule_witness :
    edgeMovePieces [0,1,2,3,4,5,6,7,8,9,10,11] mF
      = (List.range 12).map (fun i =>
          if edgeMovedSlot mF i = true ∧ Move.amount mF ≠ 2
          then [0,1,2,3,4,5,6,7,8,9,10,11].getD (edgeSrc mF i) 0 ^^^ ((Move.axis mF >>> 1) <<< 4)
          else [0,1,2,3,4,5,6,7,8,9,10,11].getD (edgeSrc mF i) 0)
    ∧ (∀ i < 12, edgeMovedSlot mF i = false → edgeSrc mF i = i) :=
  c7_edge_orientation_rule [0,1,2,3,4,5,6,7,8,9,10,11] rfl mF (by decide)

/-- C8: the solved cube is in G1, and applying any move from `G1_MOVES` to a
valid cube in G1 keeps it in G1. -/
theorem c8_g1_membership :
    isInG1 Cube.SOLVED = true ∧
    ∀ c : Cube, c.Valid → isInG1 c = true →
      ∀ m ∈ G1_MOVES, isInG1 (c.movSingle m) = true := by
  constructor
  · decide
  · intro c hv h m hm
    obtain ⟨cor, ed⟩ := c
    obtain ⟨h8, h12, hc, he⟩ := hv
    obtain ⟨c0,c1,c2,c3,c4,c5,c6,c7, rfl⟩ := exists_list8 cor h8
    obtain ⟨e0,e1,e2,e3,e4,e5,e6,e7,e8,e9,e10,e11, rfl⟩ := exists_list12 ed h12
    obtain ⟨b0,b1,b2,b3,b4,b5,b6,b7⟩ := corner_bounds hc
    simp only [isInG1, List.all_cons, List.all_nil, List.enum, List.enumFrom,
      Bool.and_eq_true, beq_iff_eq, and_true] at h
    obtain ⟨⟨⟨a0,a1,a2,a3,a4,a5,a6,a7⟩, d0,d1,d2,d3,d4,d5,d6,d7,d8,d9,d10,d11⟩,
      s0,s1,s2,s3,s4,s5,s6,s7,s8,s9,s10,s11⟩ := h
    fin_cases hm
    · simp only [Cube.movSingle]
      rw [cornerNF_U, edgeNF_U]
      rw [Nat.mod_eq_of_lt b0, Nat.mod_eq_of_lt b1, Nat.mod_eq_of_lt b4, Nat.mod_eq_of_lt b5]
      simp only [Nat.xor_zero, isInG1, List.all_cons, List.all_nil, List.enum,
        List.enumFrom, Bool.and_eq_true, beq_iff_eq, and_true]
      refine ⟨⟨⟨?_,?_,?_,?_,?_,?_,?_,?_⟩,?_,?_,?_,?_,?_,?_,?_,?_,?_,?_,?_,?_⟩,
      ?_,?_,?_,?_,?_,?_,?_,?_,?_,?_,?_,?_⟩ <;> assumption
    · simp only [Cube.movSingle]
      rw [cornerNF_U2, edgeNF_U2]
      simp only [Nat.xor_zero, isInG1, List.all_cons, List.all_nil, List.enum,
        List.enumFrom, Bool.and_eq_true, beq_iff_eq, and_true]
      refine ⟨⟨⟨?_,?_,?_,?_,?_,?_,?_,?_⟩,?_,?_,?_,?_,?_,?_,?_,?_,?_,?_,?_,?_⟩,
      ?_,?_,?_,?_,?_,?_,?_,?_,?_,?_,?_,?_⟩ <;> assumption
    · simp only [Cube.movSingle]
      rw [cornerNF_UP, edgeNF_UP]
      rw [Nat.mod_eq_of_lt b0, Nat.mod_eq_of_lt b1, Nat.mod_eq_of_lt b4, Nat.mod_eq_of_lt b5]
      simp only [Nat.xor_zero, isInG1, List.all_cons, List.all_nil, List.enum,
        List.enumFrom, Bool.and_eq_true, beq_iff_eq, and_true]
      refine ⟨⟨⟨?_,?_,?_,?_,?_,?_,?_,?_⟩,?_,?_,?_,?_,?_,?_,?_,?_,?_,?_,?_,?_⟩,
      ?_,?_,?_,?_,?_,?_,?_,?_,?_,?_,?_,?_⟩ <;> assumption
    · simp only [Cube.movSingle]
      rw [cornerNF_D, edgeNF_D]
      rw [Nat.mod_eq_of_lt b2, Nat.mod_eq_of_lt b3, Nat.mod_eq_of_lt b6, Nat.mod_eq_of_lt b7]
      simp only [Nat.xor_zero, isInG1, List.all_cons, List.all_nil, List.enum,
        List.enumFrom, Bool.and_eq_true, beq_iff_eq, and_true]
      refine ⟨⟨⟨?_,?_,?_,?_,?_,?_,?_,?_⟩,?_,?_,?_,?_,?_,?_,?_,?_,?_,?_,?_,?_⟩,
      ?_,?_,?_,?_,?_,?_,?_,?_,?_,?_,?_,?_⟩ <;> assumption
    · simp only [Cube.movSingle]
      rw [cornerNF_D2, edgeNF_D2]
      simp only [Nat.xor_zero, isInG1, List.all_cons, List.all_nil, List.enum,
        List.enumFrom, Bool.and_eq_true, beq_iff_eq, and_true]
      refine ⟨⟨⟨?_,?_,?_,?_,?_,?_,?_,?_⟩,?_,?_,?_,?_,?_,?_,?_,?_,?_,?_,?_,?_⟩,
      ?_,?_,?_,?_,?_,?_,?_,?_,?_,?_,?_,?_⟩ <;> assumption
    · simp only [Cube.movSingle]
      rw [cornerNF_DP, edgeNF_DP]
      rw [Nat.mod_eq_of_lt b2, Nat.mod_eq_of_lt b3, Nat.mod_eq_of_lt b6, Nat.mod_eq_of_lt b7]
      simp only [Nat.xor_zero, isInG1, List.all_cons, List.all_nil, List.enum,
        List.enumFrom, Bool.and_eq_true, beq_iff_eq, and_true]
      refine ⟨⟨⟨?_,?_,?_,?_,?_,?_,?_,?_⟩,?_,?_,?_,?_,?_,?_,?_,?_,?_,?_,?_,?_⟩,
      ?_,?_,?_,?_,?_,?_,?_,?_,?_,?_,?_,?_⟩ <;> assumption
    · simp only [Cube.movSingle]
      rw [cornerNF_R2, edgeNF_R2]
      simp only [Nat.xor_zero, isInG1, List.all_cons, List.all_nil, List.enum,
        List.enumFrom, Bool.and_eq_true, beq_iff_eq, and_true]
      refine ⟨⟨⟨?_,?_,?_,?_,?_,?_,?_,?_⟩,?_,?_,?_,?_,?_,?_,?_,?_,?_,?_,?_,?_⟩,
      ?_,?_,?_,?_,?_,?_,?_,?_,?_,?_,?_,?_⟩ <;> assumption
    · simp only [Cube.movSingle]
      rw [cornerNF_L2, edgeNF_L2]
      simp only [Nat.xor_zero, isInG1, List.all_cons, List.all_nil, List.enum,
        List.enumFrom, Bool.and_eq_true, beq_iff_eq, and_true]
      refine ⟨⟨⟨?_,?_,?_,?_,?_,?_,?_,?_⟩,?_,?_,?_,?_,?_,?_,?_,?_,?_,?_,?_,?_⟩,
      ?_,?_,?_,?_,?_,?_,?_,?_,?_,?_,?_,?_⟩ <;> assumption
    · simp only [Cube.movSingle]
      rw [cornerNF_F2, edgeNF_F2]
      simp only [Nat.xor_zero, isInG1, List.all_cons, List.all_nil, List.enum,
        List.enumFrom, Bool.and_eq_true, beq_iff_eq, and_true]
      refine ⟨⟨⟨?_,?_,?_,?_,?_,?_,?_,?_⟩,?_,?_,?_,?_,?_,?_,?_,?_,?_,?_,?_,?_⟩,
      ?_,?_,?_,?_,?_,?_,?_,?_,?_,?_,?_,?_⟩ <;> assumption
    · simp only [Cube.movSingle]
      rw [cornerNF_B2, edgeNF_B2]
      simp only [Nat.xor_zero, isInG1, List.all_cons, List.all_nil, List.enum,
        List.enumFrom, Bool.and_eq_true, beq_iff_eq, and_true]
      refine ⟨⟨⟨?_,?_,?_,?_,?_,?_,?_,?_⟩,?_,?_,?_,?_,?_,?_,?_,?_,?_,?_,?_,?_⟩,
      ?_,?_,?_,?_,?_,?_,?_,?_,?_,?_,?_,?_⟩ <;> assumption

/-- Witness for C8: applying U to the solved cube stays in G1. -/
theorem c8_g1_membership_witness : isInG1 (Cube.SOLVED.movSingle mU) = true :=
  c8_g1_membership.2 Cube.SOLVED solved_valid c8_g1_membership.1 mU (by decide)

/-- Modelled from the source `Corner::random` (norcina-cube-n/src/piece/corner.rs
lines 107-123) with the rng represented by its outputs: `perm` is the shuffled
solved array and `oris` the seven values drawn from `random_range(0..3)`.
The last byte mirrors `out[7].data += ((-(orientation_sum as i8) % 3) << 3) as u8`
literally: Rust `%` on `i8` is truncated division remainder (`Int.tmod`),
`<< 3` is multiplication by 8 (no `i8` overflow for sums up to 14), the
`as u8` cast takes the value modulo 256, and the `u8` `+=` wraps modulo 256. -/
def cornerRandom (perm oris : List Nat) : List Nat :=
  let withOris := (List.range 7).foldl
    (fun arr k => arr.set k (arr.getD k 0 + ((oris.getD k 0) <<< 3))) perm
  let s : Nat := (List.range 7).foldl (fun acc k => acc + oris.getD k 0) 0
  let adj : Nat := ((((-(s : Int)).tmod 3) * 8) % 256).toNat
  withOris.set 7 ((withOris.getD 7 0 + adj) % 256)

/-- Modelled from the source `Edge::random` (norcina-cube-n/src/piece/edge.rs
lines 76-93) with the rng represented by its outputs: `perm` is the shuffled
solved array and `oris` the eleven orientation bits (0 or 1) drawn from
`random_bool`.  Note the source adds `(orientation as u8) << 3` - shift by 3,
not 4 - to the first eleven bytes, and `(final_orientation as u8) << 3` to the
last one, even though the orientation bit of the edge byte `---onnba` is
bit 4. -/
def edgeRandom (perm oris : List Nat) : List Nat :=
  let withOris := (List.range 11).foldl
    (fun arr k => arr.set k (arr.getD k 0 + ((oris.getD k 0) <<< 3))) perm
  let fin := (List.range 11).foldl (fun acc k => acc ^^^ oris.getD k 0) 0
  withOris.set 11 (withOris.getD 11 0 + (fin <<< 3))

/-- C6 fails on the code: with the identity shuffle and corner orientations
`[1,0,0,0,0,0,0]`, `Corner::random` adjusts the eighth byte by
`(-1 % 3) << 3` cast to `u8`, i.e. adds 248, producing the byte 255 - its
high bits are not zero, its orientation field reads 3, and the orientation
sum is not 0 mod 3.  With the identity shuffle and edge orientation bits
`[1,0,...,0]`, `Edge::random` adds `1 << 3` to byte 0 (turning position 0
into position 8) and `1 << 3` to byte 11 (turning 11 into 19): the twelve
positions are no longer a permutation and the orientation-bit sum is odd. -/
theorem c6_random_pieces_bug :
    (cornerRandom [0,1,2,3,4,5,6,7] [1,0,0,0,0,0,0] = [8,1,2,3,4,5,6,255] ∧
     ¬ (∀ d ∈ cornerRandom [0,1,2,3,4,5,6,7] [1,0,0,0,0,0,0], CornerOk d) ∧
     ((cornerRandom [0,1,2,3,4,5,6,7] [1,0,0,0,0,0,0]).map
        (fun d => (d >>> 3) &&& 3)).sum % 3 ≠ 0) ∧
    (edgeRandom [0,1,2,3,4,5,6,7,8,9,10,11] [1,0,0,0,0,0,0,0,0,0,0]
        = [8,1,2,3,4,5,6,7,8,9,10,19] ∧
     ¬ ((edgeRandom [0,1,2,3,4,5,6,7,8,9,10,11] [1,0,0,0,0,0,0,0,0,0,0]).map
          (fun d => d &&& 15)).Perm (List.range 12) ∧
     ((edgeRandom [0,1,2,3,4,5,6,7,8,9,10,11] [1,0,0,0,0,0,0,0,0,0,0]).map
        (fun d => (d >>> 4) &&& 1)).sum % 2 ≠ 0) := by
  refine ⟨⟨by decide, by decide, by decide⟩, ⟨by decide, by decide, by decide⟩⟩

/-- `CORNER_POSITION.index` (prune_table.rs lines 257-270): Lehmer code of the
eight corner positions, most significant slot first; the inner loop counts the
later slots holding a smaller position. -/
def cornerPositionIndex (corners : List Nat) : Nat :=
  (List.range 8).foldl
    (fun idx i => idx * (8 - i)
      + ((corners.drop (i+1)).countP (fun c2 => (c2 &&& 7) < (corners.getD i 0 &&& 7)))) 0

/-- `Y_SLICE_POSITION.index` (prune_table.rs lines 292-308): Lehmer code of the
eight edges in slots `[0..4) ++ [8..12)` (the chained iterator
`edges[..4].chain(edges[8..])`). -/
def ySlicePositionIndex (edges : List Nat) : Nat :=
  let ch := edges.take 4 ++ edges.drop 8
  (List.range 8).foldl
    (fun idx i => idx * (8 - i)
      + ((ch.drop (i+1)).countP (fun e2 => (e2 &&& 15) < (ch.getD i 0 &&& 15)))) 0

/-- `NON_Y_SLICE_POSITION.index` (prune_table.rs lines 337-353): Lehmer code
of the four edges in slots `[4..8)` (`&edges[4..8]`). -/
def nonYSlicePositionIndex (edges : List Nat) : Nat :=
  let ch := (edges.drop 4).take 4
  (List.range 4).foldl
    (fun idx i => idx * (4 - i)
      + ((ch.drop (i+1)).countP (fun e2 => (e2 &&& 15) < (ch.getD i 0 &&& 15)))) 0

/-- Accumulator bound for a mixed-radix Lehmer fold: if every digit is below
its radix, the fold stays below the product of the radices. -/
theorem lehmer_fold_bound (n : Nat) (cnt : Nat → Nat) (h : ∀ i < n, cnt i ≤ n - 1 - i) :
    ∀ k, k ≤ n →
      (List.range k).foldl (fun idx i => idx * (n - i) + cnt i) 0 + 1
        ≤ (List.range k).foldl (fun a i => a * (n - i)) 1 := by
  intro k
  induction k with
  | zero => intro _; simp
  | succ k ih =>
    intro hk
    have hkn : k < n := hk
    have hik := ih (Nat.le_of_lt hkn)
    rw [List.range_succ, List.foldl_append, List.foldl_append]
    simp only [List.foldl_cons, List.foldl_nil]
    have hc : cnt k + 1 ≤ n - k := by have := h k hkn; omega
    have step1 :
        (List.range k).foldl (fun idx i => idx * (n - i) + cnt i) 0 * (n - k) + cnt k + 1
          ≤ ((List.range k).foldl (fun idx i => idx * (n - i) + cnt i) 0 + 1) * (n - k) := by
      rw [Nat.add_mul, Nat.one_mul, Nat.add_assoc]
      exact Nat.add_le_add_left hc _
    have step2 :
        ((List.range k).foldl (fun idx i => idx * (n - i) + cnt i) 0 + 1) * (n - k)
          ≤ (List.range k).foldl (fun a i => a * (n - i)) 1 * (n - k) :=
      Nat.mul_le_mul_right _ hik
    exact le_trans step1 step2

theorem cornerPositionIndex_lt (l : List Nat) (hl : l.length = 8) :
    cornerPositionIndex l < 40320 := by
  have h := lehmer_fold_bound 8
    (fun i => (l.drop (i+1)).countP (fun c2 => (c2 &&& 7) < (l.getD i 0 &&& 7)))
    (fun i _ => by
      show (l.drop (i+1)).countP (fun c2 => decide ((c2 &&& 7) < (l.getD i 0 &&& 7))) ≤ 8 - 1 - i
      have hle := List.countP_le_length
        (fun c2 => decide ((c2 &&& 7) < (l.getD i 0 &&& 7))) (l := l.drop (i+1))
      have hlen : (l.drop (i+1)).length = 8 - (i+1) := by rw [List.length_drop, hl]
      omega) 8 le_rfl
  exact h

theorem ySlicePositionIndex_lt (l : List Nat) (hl : l.length = 12) :
    ySlicePositionIndex l < 40320 := by
  have hch : (l.take 4 ++ l.drop 8).length = 8 := by
    rw [List.length_append, List.length_take, List.length_drop, hl]; omega
  have h := lehmer_fold_bound 8
    (fun i => ((l.take 4 ++ l.drop 8).drop (i+1)).countP
      (fun e2 => (e2 &&& 15) < ((l.take 4 ++ l.drop 8).getD i 0 &&& 15)))
    (fun i _ => by
      show ((l.take 4 ++ l.drop 8).drop (i+1)).countP
        (fun e2 => decide ((e2 &&& 15) < ((l.take 4 ++ l.drop 8).getD i 0 &&& 15))) ≤ 8 - 1 - i
      have hle := List.countP_le_length
        (fun e2 => decide ((e2 &&& 15) < ((l.take 4 ++ l.drop 8).getD i 0 &&& 15)))
        (l := (l.take 4 ++ l.drop 8).drop (i+1))
      have hlen : ((l.take 4 ++ l.drop 8).drop (i+1)).length = 8 - (i+1) := by
        rw [List.length_drop, hch]
      omega) 8 le_rfl
  exact h

theorem nonYSlicePositionIndex_lt (l : List Nat) (hl : l.length = 12) :
    nonYSlicePositionIndex l < 24 := by
  have hch : ((l.drop 4).take 4).length = 4 := by
    rw [List.length_take, List.length_drop, hl]; omega
  have h := lehmer_fold_bound 4
    (fun i => (((l.drop 4).take 4).drop (i+1)).countP
      (fun e2 => (e2 &&& 15) < (((l.drop 4).take 4).getD i 0 &&& 15)))
    (fun i _ => by
      show (((l.drop 4).take 4).drop (i+1)).countP
        (fun e2 => decide ((e2 &&& 15) < (((l.drop 4).take 4).getD i 0 &&& 15))) ≤ 4 - 1 - i
      have hle := List.countP_le_length
        (fun e2 => decide ((e2 &&& 15) < (((l.drop 4).take 4).getD i 0 &&& 15)))
        (l := ((l.drop 4).take 4).drop (i+1))
      have hlen : (((l.drop 4).take 4).drop (i+1)).length = 4 - (i+1) := by
        rw [List.length_drop, hch]
      omega) 4 le_rfl
  exact h

/-- C10: for every cube state whose 8 corner bytes hold 8 distinct valid
positions and whose 12 edge bytes hold 12 distinct valid positions - G1
membership is not assumed - the three coordinate values the phase 2 heuristic
uses to index its subtables are in bounds: `CORNER_POSITION.index` is below
40320, `Y_SLICE_POSITION.index` below 40320, `NON_Y_SLICE_POSITION.index`
below 24 (the sizes of the three subtable buffers). -/
theorem c10_phase2_heuristic_index_bounds (c : Cube) (hv : c.Valid)
    (hcd : (c.corners.map (fun d => d &&& 7)).Nodup)
    (hed : (c.edges.map (fun d => d &&& 15)).Nodup) :
    cornerPositionIndex c.corners < 40320 ∧
    ySlicePositionIndex c.edges < 40320 ∧
    nonYSlicePositionIndex c.edges < 24 :=
  ⟨cornerPositionIndex_lt c.corners hv.1,
   ySlicePositionIndex_lt c.edges hv.2.1,
   nonYSlicePositionIndex_lt c.edges hv.2.1⟩

/-- Witness for C10 at the solved cube. -/
theorem c10_phase2_heuristic_index_bounds_witness :
    cornerPositionIndex Cube.SOLVED.corners < 40320 ∧
    ySlicePositionIndex Cube.SOLVED.edges < 40320 ∧
    nonYSlicePositionIndex Cube.SOLVED.edges < 24 :=
  c10_phase2_heuristic_index_bounds Cube.SOLVED solved_valid (by decide) (by decide)

/-! Infrastructure for claim C3: position lists, inversion counts, and how a
single adjacent transposition changes them. -/

/-- Number of inversions of a list: pairs appearing in decreasing order.  Its
parity is the sign of the permutation the list represents. -/
def invCount : List Nat → Nat
  | [] => 0
  | a :: t => t.countP (fun b => decide (b < a)) + invCount t

theorem countP_swap_mid (p : Nat → Bool) (l1 l2 : List Nat) (x y : Nat) :
    (l1 ++ x :: y :: l2).countP p = (l1 ++ y :: x :: l2).countP p := by
  simp only [List.countP_append, List.countP_cons]
  ring

theorem invCount_swap_adj_aux (l1 l2 : List Nat) (x y : Nat) :
    invCount (l1 ++ x :: y :: l2) + (if x < y then 1 else 0)
      = invCount (l1 ++ y :: x :: l2) + (if y < x then 1 else 0) := by
  induction l1 with
  | nil =>
    simp only [List.nil_append, invCount, List.countP_cons, decide_eq_true_eq]
    ring
  | cons h t ih =>
    simp only [List.cons_append, invCount, List.append_eq]
    rw [countP_swap_mid, Nat.add_assoc, Nat.add_assoc, ih, ← Nat.add_assoc]

/-- Swapping two adjacent distinct entries flips the parity of the inversion
count. -/
theorem invCount_swap_adj (l1 l2 : List Nat) (x y : Nat) (hxy : x ≠ y) :
    invCount (l1 ++ x :: y :: l2) % 2 = (invCount (l1 ++ y :: x :: l2) + 1) % 2 := by
  have h := invCount_swap_adj_aux l1 l2 x y
  rcases Nat.lt_or_ge x y with hlt | hge
  · rw [if_pos hlt, if_neg (by omega)] at h; omega
  · have hlt : y < x := by omega
    rw [if_neg (by omega), if_pos hlt] at h; omega

theorem xor16_and15 (d : Nat) : (d ^^^ 16) &&& 15 = d &&& 15 := by
  rw [Nat.and_xor_distrib_right, show ((16:Nat) &&& 15) = 0 from rfl, Nat.xor_zero]

theorem edgeOk_xor16 {d : Nat} (h : EdgeOk d) : EdgeOk (d ^^^ 16) :=
  ⟨(xor16_facts d h.1).1, by rw [(xor16_facts d h.1).2.1]; exact h.2⟩

theorem forall_mem_list8 {P : Nat → Prop} {a0 a1 a2 a3 a4 a5 a6 a7 : Nat} :
    (∀ d ∈ [a0,a1,a2,a3,a4,a5,a6,a7], P d) ↔
      (P a0 ∧ P a1 ∧ P a2 ∧ P a3 ∧ P a4 ∧ P a5 ∧ P a6 ∧ P a7) := by
  constructor
  · intro h
    exact ⟨h _ (by simp), h _ (by simp), h _ (by simp), h _ (by simp),
      h _ (by simp), h _ (by simp), h _ (by simp), h _ (by simp)⟩
  · rintro ⟨p0,p1,p2,p3,p4,p5,p6,p7⟩ d hd
    fin_cases hd <;> assumption

theorem forall_mem_list12 {P : Nat → Prop} {a0 a1 a2 a3 a4 a5 a6 a7 a8 a9 a10 a11 : Nat} :
    (∀ d ∈ [a0,a1,a2,a3,a4,a5,a6,a7,a8,a9,a10,a11], P d) ↔
      (P a0 ∧ P a1 ∧ P a2 ∧ P a3 ∧ P a4 ∧ P a5 ∧ P a6 ∧ P a7 ∧ P a8 ∧ P a9 ∧ P a10 ∧ P a11) := by
  constructor
  · intro h
    exact ⟨h _ (by simp), h _ (by simp), h _ (by simp), h _ (by simp),
      h _ (by simp), h _ (by simp), h _ (by simp), h _ (by simp),
      h _ (by simp), h _ (by simp), h _ (by simp), h _ (by simp)⟩
  · rintro ⟨p0,p1,p2,p3,p4,p5,p6,p7,p8,p9,p10,p11⟩ d hd
    fin_cases hd <;> assumption

/-- The eight corner home positions currently materialised in the corner
array: `Corner::position` (`data & 0b00111`) applied to every byte. -/
def cornerPositions (c : Cube) : List Nat := c.corners.map (fun d => d &&& 7)

/-- The twelve edge positions in the edge array: `Edge::position`
(`data & 0b01111`) applied to every byte. -/
def edgePositions (c : Cube) : List Nat := c.edges.map (fun d => d &&& 15)

/-- The group-level cube invariants of claim C3: the corner orientation sum is
0 mod 3, the sum (equivalently the xor) of the twelve edge orientation bits is
even, the corner and edge positions are permutations of the home positions,
and the two permutations have equal parity (inversion-count parity of the
position lists). -/
def CubeInv (c : Cube) : Prop :=
  (c.corners.map (fun d => (d >>> 3) &&& 3)).sum % 3 = 0 ∧
  (c.edges.map (fun d => (d >>> 4) &&& 1)).sum % 2 = 0 ∧
  (cornerPositions c).Perm (List.range 8) ∧
  (edgePositions c).Perm (List.range 12) ∧
  invCount (cornerPositions c) % 2 = invCount (edgePositions c) % 2


theorem cposStepR {p0 p1 p2 p3 p4 p5 p6 p7 : Nat}
    (hp : List.Perm [p0, p1, p2, p3, p4, p5, p6, p7] (List.range 8)) :
    List.Perm [p2, p1, p6, p3, p0, p5, p4, p7] (List.range 8) ∧
    invCount [p2, p1, p6, p3, p0, p5, p4, p7] % 2 = (invCount [p0, p1, p2, p3, p4, p5, p6, p7] + 1) % 2 := by
  have hnd := hp.symm.nodup (List.nodup_range 8)
  simp only [List.nodup_cons, List.mem_cons, List.not_mem_nil, not_or, List.nodup_nil,
    and_true, or_false] at hnd
  obtain ⟨⟨n0x1,n0x2,n0x3,n0x4,n0x5,n0x6,n0x7⟩, ⟨n1x2,n1x3,n1x4,n1x5,n1x6,n1x7⟩, ⟨n2x3,n2x4,n2x5,n2x6,n2x7⟩, ⟨n3x4,n3x5,n3x6,n3x7⟩, ⟨n4x5,n4x6,n4x7⟩, ⟨n5x6,n5x7⟩, n6x7, _⟩ := hnd
  have sp0 : invCount [p2, p1, p6, p3, p0, p5, p4, p7] % 2 = (invCount [p1, p2, p6, p3, p0, p5, p4, p7] + 1) % 2 :=
    invCount_swap_adj [] [p6, p3, p0, p5, p4, p7] p2 p1 (Ne.symm n1x2)
  have sp1 : invCount [p1, p2, p6, p3, p0, p5, p4, p7] % 2 = (invCount [p1, p2, p3, p6, p0, p5, p4, p7] + 1) % 2 :=
    invCount_swap_adj [p1, p2] [p0, p5, p4, p7] p6 p3 (Ne.symm n3x6)
  have sp2 : invCount [p1, p2, p3, p6, p0, p5, p4, p7] % 2 = (invCount [p1, p2, p3, p0, p6, p5, p4, p7] + 1) % 2 :=
    invCount_swap_adj [p1, p2, p3] [p5, p4, p7] p6 p0 (Ne.symm n0x6)
  have sp3 : invCount [p1, p2, p3, p0, p6, p5, p4, p7] % 2 = (invCount [p1, p2, p3, p0, p5, p6, p4, p7] + 1) % 2 :=
    invCount_swap_adj [p1, p2, p3, p0] [p4, p7] p6 p5 (Ne.symm n5x6)
  have sp4 : invCount [p1, p2, p3, p0, p5, p6, p4, p7] % 2 = (invCount [p1, p2, p3, p0, p5, p4, p6, p7] + 1) % 2 :=
    invCount_swap_adj [p1, p2, p3, p0, p5] [p7] p6 p4 (Ne.symm n4x6)
  have sp5 : invCount [p1, p2, p3, p0, p5, p4, p6, p7] % 2 = (invCount [p1, p2, p0, p3, p5, p4, p6, p7] + 1) % 2 :=
    invCount_swap_adj [p1, p2] [p5, p4, p6, p7] p3 p0 (Ne.symm n0x3)
  have sp6 : invCount [p1, p2, p0, p3, p5, p4, p6, p7] % 2 = (invCount [p1, p2, p0, p3, p4, p5, p6, p7] + 1) % 2 :=
    invCount_swap_adj [p1, p2, p0, p3] [p6, p7] p5 p4 (Ne.symm n4x5)
  have sp7 : invCount [p1, p2, p0, p3, p4, p5, p6, p7] % 2 = (invCount [p1, p0, p2, p3, p4, p5, p6, p7] + 1) % 2 :=
    invCount_swap_adj [p1] [p3, p4, p5, p6, p7] p2 p0 (Ne.symm n0x2)
  have sp8 : invCount [p1, p0, p2, p3, p4, p5, p6, p7] % 2 = (invCount [p0, p1, p2, p3, p4, p5, p6, p7] + 1) % 2 :=
    invCount_swap_adj [] [p2, p3, p4, p5, p6, p7] p1 p0 (Ne.symm n0x1)
  have sq0 : List.Perm [p2, p1, p6, p3, p0, p5, p4, p7] [p1, p2, p6, p3, p0, p5, p4, p7] :=
    List.Perm.append_left [] (List.Perm.swap p1 p2 [p6, p3, p0, p5, p4, p7])
  have sq1 : List.Perm [p1, p2, p6, p3, p0, p5, p4, p7] [p1, p2, p3, p6, p0, p5, p4, p7] :=
    List.Perm.append_left [p1, p2] (List.Perm.swap p3 p6 [p0, p5, p4, p7])
  have sq2 : List.Perm [p1, p2, p3, p6, p0, p5, p4, p7] [p1, p2, p3, p0, p6, p5, p4, p7] :=
    List.Perm.append_left [p1, p2, p3] (List.Perm.swap p0 p6 [p5, p4, p7])
  have sq3 : List.Perm [p1, p2, p3, p0, p6, p5, p4, p7] [p1, p2, p3, p0, p5, p6, p4, p7] :=
    List.Perm.append_left [p1, p2, p3, p0] (List.Perm.swap p5 p6 [p4, p7])
  have sq4 : List.Perm [p1, p2, p3, p0, p5, p6, p4, p7] [p1, p2, p3, p0, p5, p4, p6, p7] :=
    List.Perm.append_left [p1, p2, p3, p0, p5] (List.Perm.swap p4 p6 [p7])
  have sq5 : List.Perm [p1, p2, p3, p0, p5, p4, p6, p7] [p1, p2, p0, p3, p5, p4, p6, p7] :=
    List.Perm.append_left [p1, p2] (List.Perm.swap p0 p3 [p5, p4, p6, p7])
  have sq6 : List.Perm [p1, p2, p0, p3, p5, p4, p6, p7] [p1, p2, p0, p3, p4, p5, p6, p7] :=
    List.Perm.append_left [p1, p2, p0, p3] (List.Perm.swap p4 p5 [p6, p7])
  have sq7 : List.Perm [p1, p2, p0, p3, p4, p5, p6, p7] [p1, p0, p2, p3, p4, p5, p6, p7] :=
    List.Perm.append_left [p1] (List.Perm.swap p0 p2 [p3, p4, p5, p6, p7])
  have sq8 : List.Perm [p1, p0, p2, p3, p4, p5, p6, p7] [p0, p1, p2, p3, p4, p5, p6, p7] :=
    List.Perm.append_left [] (List.Perm.swap p0 p1 [p2, p3, p4, p5, p6, p7])
  refine ⟨((sq0.trans (sq1.trans (sq2.trans (sq3.trans (sq4.trans (sq5.trans (sq6.trans (sq7.trans sq8))))))))).trans hp, ?_⟩
  omega


theorem eposStepR {p0 p1 p2 p3 p4 p5 p6 p7 p8 p9 p10 p11 : Nat}
    (hp : List.Perm [p0, p1, p2, p3, p4, p5, p6, p7, p8, p9, p10, p11] (List.range 12)) :
    List.Perm [p0, p1, p2, p3, p10, p8, p6, p7, p4, p9, p5, p11] (List.range 12) ∧
    invCount [p0, p1, p2, p3, p10, p8, p6, p7, p4, p9, p5, p11] % 2 = (invCount [p0, p1, p2, p3, p4, p5, p6, p7, p8, p9, p10, p11] + 1) % 2 := by
  have hnd := hp.symm.nodup (List.nodup_range 12)
  simp only [List.nodup_cons, List.mem_cons, List.not_mem_nil, not_or, List.nodup_nil,
    and_true, or_false] at hnd
  obtain ⟨⟨n0x1,n0x2,n0x3,n0x4,n0x5,n0x6,n0x7,n0x8,n0x9,n0x10,n0x11⟩, ⟨n1x2,n1x3,n1x4,n1x5,n1x6,n1x7,n1x8,n1x9,n1x10,n1x11⟩, ⟨n2x3,n2x4,n2x5,n2x6,n2x7,n2x8,n2x9,n2x10,n2x11⟩, ⟨n3x4,n3x5,n3x6,n3x7,n3x8,n3x9,n3x10,n3x11⟩, ⟨n4x5,n4x6,n4x7,n4x8,n4x9,n4x10,n4x11⟩, ⟨n5x6,n5x7,n5x8,n5x9,n5x10,n5x11⟩, ⟨n6x7,n6x8,n6x9,n6x10,n6x11⟩, ⟨n7x8,n7x9,n7x10,n7x11⟩, ⟨n8x9,n8x10,n8x11⟩, ⟨n9x10,n9x11⟩, n10x11, _⟩ := hnd
  have sp0 : invCount [p0, p1, p2, p3, p10, p8, p6, p7, p4, p9, p5, p11] % 2 = (invCount [p0, p1, p2, p3, p8, p10, p6, p7, p4, p9, p5, p11] + 1) % 2 :=
    invCount_swap_adj [p0, p1, p2, p3] [p6, p7, p4, p9, p5, p11] p10 p8 (Ne.symm n8x10)
  have sp1 : invCount [p0, p1, p2, p3, p8, p10, p6, p7, p4, p9, p5, p11] % 2 = (invCount [p0, p1, p2, p3, p8, p6, p10, p7, p4, p9, p5, p11] + 1) % 2 :=
    invCount_swap_adj [p0, p1, p2, p3, p8] [p7, p4, p9, p5, p11] p10 p6 (Ne.symm n6x10)
  have sp2 : invCount [p0, p1, p2, p3, p8, p6, p10, p7, p4, p9, p5, p11] % 2 = (invCount [p0, p1, p2, p3, p8, p6, p7, p10, p4, p9, p5, p11] + 1) % 2 :=
    invCount_swap_adj [p0, p1, p2, p3, p8, p6] [p4, p9, p5, p11] p10 p7 (Ne.symm n7x10)
  have sp3 : invCount [p0, p1, p2, p3, p8, p6, p7, p10, p4, p9, p5, p11] % 2 = (invCount [p0, p1, p2, p3, p8, p6, p7, p4, p10, p9, p5, p11] + 1) % 2 :=
    invCount_swap_adj [p0, p1, p2, p3, p8, p6, p7] [p9, p5, p11] p10 p4 (Ne.symm n4x10)
  have sp4 : invCount [p0, p1, p2, p3, p8, p6, p7, p4, p10, p9, p5, p11] % 2 = (invCount [p0, p1, p2, p3, p8, p6, p7, p4, p9, p10, p5, p11] + 1) % 2 :=
    invCount_swap_adj [p0, p1, p2, p3, p8, p6, p7, p4] [p5, p11] p10 p9 (Ne.symm n9x10)
  have sp5 : invCount [p0, p1, p2, p3, p8, p6, p7, p4, p9, p10, p5, p11] % 2 = (invCount [p0, p1, p2, p3, p8, p6, p7, p4, p9, p5, p10, p11] + 1) % 2 :=
    invCount_swap_adj [p0, p1, p2, p3, p8, p6, p7, p4, p9] [p11] p10 p5 (Ne.symm n5x10)
  have sp6 : invCount [p0, p1, p2, p3, p8, p6, p7, p4, p9, p5, p10, p11] % 2 = (invCount [p0, p1, p2, p3, p6, p8, p7, p4, p9, p5, p10, p11] + 1) % 2 :=
    invCount_swap_adj [p0, p1, p2, p3] [p7, p4, p9, p5, p10, p11] p8 p6 (Ne.symm n6x8)
  have sp7 : invCount [p0, p1, p2, p3, p6, p8, p7, p4, p9, p5, p10, p11] % 2 = (invCount [p0, p1, p2, p3, p6, p7, p8, p4, p9, p5, p10, p11] + 1) % 2 :=
    invCount_swap_adj [p0, p1, p2, p3, p6] [p4, p9, p5, p10, p11] p8 p7 (Ne.symm n7x8)
  have sp8 : invCount [p0, p1, p2, p3, p6, p7, p8, p4, p9, p5, p10, p11] % 2 = (invCount [p0, p1, p2, p3, p6, p7, p4, p8, p9, p5, p10, p11] + 1) % 2 :=
    invCount_swap_adj [p0, p1, p2, p3, p6, p7] [p9, p5, p10, p11] p8 p4 (Ne.symm n4x8)
  have sp9 : invCount [p0, p1, p2, p3, p6, p7, p4, p8, p9, p5, p10, p11] % 2 = (invCount [p0, p1, p2, p3, p6, p7, p4, p8, p5, p9, p10, p11] + 1) % 2 :=
    invCount_swap_adj [p0, p1, p2, p3, p6, p7, p4, p8] [p10, p11] p9 p5 (Ne.symm n5x9)
  have sp10 : invCount [p0, p1, p2, p3, p6, p7, p4, p8, p5, p9, p10, p11] % 2 = (invCount [p0, p1, p2, p3, p6, p4, p7, p8, p5, p9, p10, p11] + 1) % 2 :=
    invCount_swap_adj [p0, p1, p2, p3, p6] [p8, p5, p9, p10, p11] p7 p4 (Ne.symm n4x7)
  have sp11 : invCount [p0, p1, p2, p3, p6, p4, p7, p8, p5, p9, p10, p11] % 2 = (invCount [p0, p1, p2, p3, p6, p4, p7, p5, p8, p9, p10, p11] + 1) % 2 :=
    invCount_swap_adj [p0, p1, p2, p3, p6, p4, p7] [p9, p10, p11] p8 p5 (Ne.symm n5x8)
  have sp12 : invCount [p0, p1, p2, p3, p6, p4, p7, p5, p8, p9, p10, p11] % 2 = (invCount [p0, p1, p2, p3, p4, p6, p7, p5, p8, p9, p10, p11] + 1) % 2 :=
    invCount_swap_adj [p0, p1, p2, p3] [p7, p5, p8, p9, p10, p11] p6 p4 (Ne.symm n4x6)
  have sp13 : invCount [p0, p1, p2, p3, p4, p6, p7, p5, p8, p9, p10, p11] % 2 = (invCount [p0, p1, p2, p3, p4, p6, p5, p7, p8, p9, p10, p11] + 1) % 2 :=
    invCount_swap_adj [p0, p1, p2, p3, p4, p6] [p8, p9, p10, p11] p7 p5 (Ne.symm n5x7)
  have sp14 : invCount [p0, p1, p2, p3, p4, p6, p5, p7, p8, p9, p10, p11] % 2 = (invCount [p0, p1, p2, p3, p4, p5, p6, p7, p8, p9, p10, p11] + 1) % 2 :=
    invCount_swap_adj [p0, p1, p2, p3, p4] [p7, p8, p9, p10, p11] p6 p5 (Ne.symm n5x6)
  have sq0 : List.Perm [p0, p1, p2, p3, p10, p8, p6, p7, p4, p9, p5, p11] [p0, p1, p2, p3, p8, p10, p6, p7, p4, p9, p5, p11] :=
    List.Perm.append_left [p0, p1, p2, p3] (List.Perm.swap p8 p10 [p6, p7, p4, p9, p5, p11])
  have sq1 : List.Perm [p0, p1, p2, p3, p8, p10, p6, p7, p4, p9, p5, p11] [p0, p1, p2, p3, p8, p6, p10, p7, p4, p9, p5, p11] :=
    List.Perm.append_left [p0, p1, p2, p3, p8] (List.Perm.swap p6 p10 [p7, p4, p9, p5, p11])
  have sq2 : List.Perm [p0, p1, p2, p3, p8, p6, p10, p7, p4, p9, p5, p11] [p0, p1, p2, p3, p8, p6, p7, p10, p4, p9, p5, p11] :=
    List.Perm.append_left [p0, p1, p2, p3, p8, p6] (List.Perm.swap p7 p10 [p4, p9, p5, p11])
  have sq3 : List.Perm [p0, p1, p2, p3, p8, p6, p7, p10, p4, p9, p5, p11] [p0, p1, p2, p3, p8, p6, p7, p4, p10, p9, p5, p11] :=
    List.Perm.append_left [p0, p1, p2, p3, p8, p6, p7] (List.Perm.swap p4 p10 [p9, p5, p11])
  have sq4 : List.Perm [p0, p1, p2, p3, p8, p6, p7, p4, p10, p9, p5, p11] [p0, p1, p2, p3, p8, p6, p7, p4, p9, p10, p5, p11] :=
    List.Perm.append_left [p0, p1, p2, p3, p8, p6, p7, p4] (List.Perm.swap p9 p10 [p5, p11])
  have sq5 : List.Perm [p0, p1, p2, p3, p8, p6, p7, p4, p9, p10, p5, p11] [p0, p1, p2, p3, p8, p6, p7, p4, p9, p5, p10, p11] :=
    List.Perm.append_left [p0, p1, p2, p3, p8, p6, p7, p4, p9] (List.Perm.swap p5 p10 [p11])
  have sq6 : List.Perm [p0, p1, p2, p3, p8, p6, p7, p4, p9, p5, p10, p11] [p0, p1, p2, p3, p6, p8, p7, p4, p9, p5, p10, p11] :=
    List.Perm.append_left [p0, p1, p2, p3] (List.Perm.swap p6 p8 [p7, p4, p9, p5, p10, p11])
  have sq7 : List.Perm [p0, p1, p2, p3, p6, p8, p7, p4, p9, p5, p10, p11] [p0, p1, p2, p3, p6, p7, p8, p4, p9, p5, p10, p11] :=
    List.Perm.append_left [p0, p1, p2, p3, p6] (List.Perm.swap p7 p8 [p4, p9, p5, p10, p11])
  have sq8 : List.Perm [p0, p1, p2, p3, p6, p7, p8, p4, p9, p5, p10, p11] [p0, p1, p2, p3, p6, p7, p4, p8, p9, p5, p10, p11] :=
    List.Perm.append_left [p0, p1, p2, p3, p6, p7] (List.Perm.swap p4 p8 [p9, p5, p10, p11])
  have sq9 : List.Perm [p0, p1, p2, p3, p6, p7, p4, p8, p9, p5, p10, p11] [p0, p1, p2, p3, p6, p7, p4, p8, p5, p9, p10, p11] :=
    List.Perm.append_left [p0, p1, p2, p3, p6, p7, p4, p8] (List.Perm.swap p5 p9 [p10, p11])
  have sq10 : List.Perm [p0, p1, p2, p3, p6, p7, p4, p8, p5, p9, p10, p11] [p0, p1, p2, p3, p6, p4, p7, p8, p5, p9, p10, p11] :=
    List.Perm.append_left [p0, p1, p2, p3, p6] (List.Perm.swap p4 p7 [p8, p5, p9, p10, p11])
  have sq11 : List.Perm [p0, p1, p2, p3, p6, p4, p7, p8, p5, p9, p10, p11] [p0, p1, p2, p3, p6, p4, p7, p5, p8, p9, p10, p11] :=
    List.Perm.append_left [p0, p1, p2, p3, p6, p4, p7] (List.Perm.swap p5 p8 [p9, p10, p11])
  have sq12 : List.Perm [p0, p1, p2, p3, p6, p4, p7, p5, p8, p9, p10, p11] [p0, p1, p2, p3, p4, p6, p7, p5, p8, p9, p10, p11] :=
    List.Perm.append_left [p0, p1, p2, p3] (List.Perm.swap p4 p6 [p7, p5, p8, p9, p10, p11])
  have sq13 : List.Perm [p0, p1, p2, p3, p4, p6, p7, p5, p8, p9, p10, p11] [p0, p1, p2, p3, p4, p6, p5, p7, p8, p9, p10, p11] :=
    List.Perm.append_left [p0, p1, p2, p3, p4, p6] (List.Perm.swap p5 p7 [p8, p9, p10, p11])
  have sq14 : List.Perm [p0, p1, p2, p3, p4, p6, p5, p7, p8, p9, p10, p11] [p0, p1, p2, p3, p4, p5, p6, p7, p8, p9, p10, p11] :=
    List.Perm.append_left [p0, p1, p2, p3, p4] (List.Perm.swap p5 p6 [p7, p8, p9, p10, p11])
  refine ⟨((sq0.trans (sq1.trans (sq2.trans (sq3.trans (sq4.trans (sq5.trans (sq6.trans (sq7.trans (sq8.trans (sq9.trans (sq10.trans (sq11.trans (sq12.trans (sq13.trans sq14))))))))))))))).trans hp, ?_⟩
  omega


theorem cposStepU {p0 p1 p2 p3 p4 p5 p6 p7 : Nat}
    (hp : List.Perm [p0, p1, p2, p3, p4, p5, p6, p7] (List.range 8)) :
    List.Perm [p4, p0, p2, p3, p5, p1, p6, p7] (List.range 8) ∧
    invCount [p4, p0, p2, p3, p5, p1, p6, p7] % 2 = (invCount [p0, p1, p2, p3, p4, p5, p6, p7] + 1) % 2 := by
  have hnd := hp.symm.nodup (List.nodup_range 8)
  simp only [List.nodup_cons, List.mem_cons, List.not_mem_nil, not_or, List.nodup_nil,
    and_true, or_false] at hnd
  obtain ⟨⟨n0x1,n0x2,n0x3,n0x4,n0x5,n0x6,n0x7⟩, ⟨n1x2,n1x3,n1x4,n1x5,n1x6,n1x7⟩, ⟨n2x3,n2x4,n2x5,n2x6,n2x7⟩, ⟨n3x4,n3x5,n3x6,n3x7⟩, ⟨n4x5,n4x6,n4x7⟩, ⟨n5x6,n5x7⟩, n6x7, _⟩ := hnd
  have sp0 : invCount [p4, p0, p2, p3, p5, p1, p6, p7] % 2 = (invCount [p0, p4, p2, p3, p5, p1, p6, p7] + 1) % 2 :=
    invCount_swap_adj [] [p2, p3, p5, p1, p6, p7] p4 p0 (Ne.symm n0x4)
  have sp1 : invCount [p0, p4, p2, p3, p5, p1, p6, p7] % 2 = (invCount [p0, p2, p4, p3, p5, p1, p6, p7] + 1) % 2 :=
    invCount_swap_adj [p0] [p3, p5, p1, p6, p7] p4 p2 (Ne.symm n2x4)
  have sp2 : invCount [p0, p2, p4, p3, p5, p1, p6, p7] % 2 = (invCount [p0, p2, p3, p4, p5, p1, p6, p7] + 1) % 2 :=
    invCount_swap_adj [p0, p2] [p5, p1, p6, p7] p4 p3 (Ne.symm n3x4)
  have sp3 : invCount [p0, p2, p3, p4, p5, p1, p6, p7] % 2 = (invCount [p0, p2, p3, p4, p1, p5, p6, p7] + 1) % 2 :=
    invCount_swap_adj [p0, p2, p3, p4] [p6, p7] p5 p1 (Ne.symm n1x5)
  have sp4 : invCount [p0, p2, p3, p4, p1, p5, p6, p7] % 2 = (invCount [p0, p2, p3, p1, p4, p5, p6, p7] + 1) % 2 :=
    invCount_swap_adj [p0, p2, p3] [p5, p6, p7] p4 p1 (Ne.symm n1x4)
  have sp5 : invCount [p0, p2, p3, p1, p4, p5, p6, p7] % 2 = (invCount [p0, p2, p1, p3, p4, p5, p6, p7] + 1) % 2 :=
    invCount_swap_adj [p0, p2] [p4, p5, p6, p7] p3 p1 (Ne.symm n1x3)
  have sp6 : invCount [p0, p2, p1, p3, p4, p5, p6, p7] % 2 = (invCount [p0, p1, p2, p3, p4, p5, p6, p7] + 1) % 2 :=
    invCount_swap_adj [p0] [p3, p4, p5, p6, p7] p2 p1 (Ne.symm n1x2)
  have sq0 : List.Perm [p4, p0, p2, p3, p5, p1, p6, p7] [p0, p4, p2, p3, p5, p1, p6, p7] :=
    List.Perm.append_left [] (List.Perm.swap p0 p4 [p2, p3, p5, p1, p6, p7])
  have sq1 : List.Perm [p0, p4, p2, p3, p5, p1, p6, p7] [p0, p2, p4, p3, p5, p1, p6, p7] :=
    List.Perm.append_left [p0] (List.Perm.swap p2 p4 [p3, p5, p1, p6, p7])
  have sq2 : List.Perm [p0, p2, p4, p3, p5, p1, p6, p7] [p0, p2, p3, p4, p5, p1, p6, p7] :=
    List.Perm.append_left [p0, p2] (List.Perm.swap p3 p4 [p5, p1, p6, p7])
  have sq3 : List.Perm [p0, p2, p3, p4, p5, p1, p6, p7] [p0, p2, p3, p4, p1, p5, p6, p7] :=
    List.Perm.append_left [p0, p2, p3, p4] (List.Perm.swap p1 p5 [p6, p7])
  have sq4 : List.Perm [p0, p2, p3, p4, p1, p5, p6, p7] [p0, p2, p3, p1, p4, p5, p6, p7] :=
    List.Perm.append_left [p0, p2, p3] (List.Perm.swap p1 p4 [p5, p6, p7])
  have sq5 : List.Perm [p0, p2, p3, p1, p4, p5, p6, p7] [p0, p2, p1, p3, p4, p5, p6, p7] :=
    List.Perm.append_left [p0, p2] (List.Perm.swap p1 p3 [p4, p5, p6, p7])
  have sq6 : List.Perm [p0, p2, p1, p3, p4, p5, p6, p7] [p0, p1, p2, p3, p4, p5, p6, p7] :=
    List.Perm.append_left [p0] (List.Perm.swap p1 p2 [p3, p4, p5, p6, p7])
  refine ⟨((sq0.trans (sq1.trans (sq2.trans (sq3.trans (sq4.trans (sq5.trans sq6))))))).trans hp, ?_⟩
  omega


theorem eposStepU {p0 p1 p2 p3 p4 p5 p6 p7 p8 p9 p10 p11 : Nat}
    (hp : List.Perm [p0, p1, p2, p3, p4, p5, p6, p7, p8, p9, p10, p11] (List.range 12)) :
    List.Perm [p8, p1, p9, p3, p4, p5, p6, p7, p2, p0, p10, p11] (List.range 12) ∧
    invCount [p8, p1, p9, p3, p4, p5, p6, p7, p2, p0, p10, p11] % 2 = (invCount [p0, p1, p2, p3, p4, p5, p6, p7, p8, p9, p10, p11] + 1) % 2 := by
  have hnd := hp.symm.nodup (List.nodup_range 12)
  simp only [List.nodup_cons, List.mem_cons, List.not_mem_nil, not_or, List.nodup_nil,
    and_true, or_false] at hnd
  obtain ⟨⟨n0x1,n0x2,n0x3,n0x4,n0x5,n0x6,n0x7,n0x8,n0x9,n0x10,n0x11⟩, ⟨n1x2,n1x3,n1x4,n1x5,n1x6,n1x7,n1x8,n1x9,n1x10,n1x11⟩, ⟨n2x3,n2x4,n2x5,n2x6,n2x7,n2x8,n2x9,n2x10,n2x11⟩, ⟨n3x4,n3x5,n3x6,n3x7,n3x8,n3x9,n3x10,n3x11⟩, ⟨n4x5,n4x6,n4x7,n4x8,n4x9,n4x10,n4x11⟩, ⟨n5x6,n5x7,n5x8,n5x9,n5x10,n5x11⟩, ⟨n6x7,n6x8,n6x9,n6x10,n6x11⟩, ⟨n7x8,n7x9,n7x10,n7x11⟩, ⟨n8x9,n8x10,n8x11⟩, ⟨n9x10,n9x11⟩, n10x11, _⟩ := hnd
  have sp0 : invCount [p8, p1, p9, p3, p4, p5, p6, p7, p2, p0, p10, p11] % 2 = (invCount [p1, p8, p9, p3, p4, p5, p6, p7, p2, p0, p10, p11] + 1) % 2 :=
    invCount_swap_adj [] [p9, p3, p4, p5, p6, p7, p2, p0, p10, p11] p8 p1 (Ne.symm n1x8)
  have sp1 : invCount [p1, p8, p9, p3, p4, p5, p6, p7, p2, p0, p10, p11] % 2 = (invCount [p1, p8, p3, p9, p4, p5, p6, p7, p2, p0, p10, p11] + 1) % 2 :=
    invCount_swap_adj [p1, p8] [p4, p5, p6, p7, p2, p0, p10, p11] p9 p3 (Ne.symm n3x9)
  have sp2 : invCount [p1, p8, p3, p9, p4, p5, p6, p7, p2, p0, p10, p11] % 2 = (invCount [p1, p8, p3, p4, p9, p5, p6, p7, p2, p0, p10, p11] + 1) % 2 :=
    invCount_swap_adj [p1, p8, p3] [p5, p6, p7, p2, p0, p10, p11] p9 p4 (Ne.symm n4x9)
  have sp3 : invCount [p1, p8, p3, p4, p9, p5, p6, p7, p2, p0, p10, p11] % 2 = (invCount [p1, p8, p3, p4, p5, p9, p6, p7, p2, p0, p10, p11] + 1) % 2 :=
    invCount_swap_adj [p1, p8, p3, p4] [p6, p7, p2, p0, p10, p11] p9 p5 (Ne.symm n5x9)
  have sp4 : invCount [p1, p8, p3, p4, p5, p9, p6, p7, p2, p0, p10, p11] % 2 = (invCount [p1, p8, p3, p4, p5, p6, p9, p7, p2, p0, p10, p11] + 1) % 2 :=
    invCount_swap_adj [p1, p8, p3, p4, p5] [p7, p2, p0, p10, p11] p9 p6 (Ne.symm n6x9)
  have sp5 : invCount [p1, p8, p3, p4, p5, p6, p9, p7, p2, p0, p10, p11] % 2 = (invCount [p1, p8, p3, p4, p5, p6, p7, p9, p2, p0, p10, p11] + 1) % 2 :=
    invCount_swap_adj [p1, p8, p3, p4, p5, p6] [p2, p0, p10, p11] p9 p7 (Ne.symm n7x9)
  have sp6 : invCount [p1, p8, p3, p4, p5, p6, p7, p9, p2, p0, p10, p11] % 2 = (invCount [p1, p8, p3, p4, p5, p6, p7, p2, p9, p0, p10, p11] + 1) % 2 :=
    invCount_swap_adj [p1, p8, p3, p4, p5, p6, p7] [p0, p10, p11] p9 p2 (Ne.symm n2x9)
  have sp7 : invCount [p1, p8, p3, p4, p5, p6, p7, p2, p9, p0, p10, p11] % 2 = (invCount [p1, p8, p3, p4, p5, p6, p7, p2, p0, p9, p10, p11] + 1) % 2 :=
    invCount_swap_adj [p1, p8, p3, p4, p5, p6, p7, p2] [p10, p11] p9 p0 (Ne.symm n0x9)
  have sp8 : invCount [p1, p8, p3, p4, p5, p6, p7, p2, p0, p9, p10, p11] % 2 = (invCount [p1, p3, p8, p4, p5, p6, p7, p2, p0, p9, p10, p11] + 1) % 2 :=
    invCount_swap_adj [p1] [p4, p5, p6, p7, p2, p0, p9, p10, p11] p8 p3 (Ne.symm n3x8)
  have sp9 : invCount [p1, p3, p8, p4, p5, p6, p7, p2, p0, p9, p10, p11] % 2 = (invCount [p1, p3, p4, p8, p5, p6, p7, p2, p0, p9, p10, p11] + 1) % 2 :=
    invCount_swap_adj [p1, p3] [p5, p6, p7, p2, p0, p9, p10, p11] p8 p4 (Ne.symm n4x8)
  have sp10 : invCount [p1, p3, p4, p8, p5, p6, p7, p2, p0, p9, p10, p11] % 2 = (invCount [p1, p3, p4, p5, p8, p6, p7, p2, p0, p9, p10, p11] + 1) % 2 :=
    invCount_swap_adj [p1, p3, p4] [p6, p7, p2, p0, p9, p10, p11] p8 p5 (Ne.symm n5x8)
  have sp11 : invCount [p1, p3, p4, p5, p8, p6, p7, p2, p0, p9, p10, p11] % 2 = (invCount [p1, p3, p4, p5, p6, p8, p7, p2, p0, p9, p10, p11] + 1) % 2 :=
    invCount_swap_adj [p1, p3, p4, p5] [p7, p2, p0, p9, p10, p11] p8 p6 (Ne.symm n6x8)
  have sp12 : invCount [p1, p3, p4, p5, p6, p8, p7, p2, p0, p9, p10, p11] % 2 = (invCount [p1, p3, p4, p5, p6, p7, p8, p2, p0, p9, p10, p11] + 1) % 2 :=
    invCount_swap_adj [p1, p3, p4, p5, p6] [p2, p0, p9, p10, p11] p8 p7 (Ne.symm n7x8)
  have sp13 : invCount [p1, p3, p4, p5, p6, p7, p8, p2, p0, p9, p10, p11] % 2 = (invCount [p1, p3, p4, p5, p6, p7, p2, p8, p0, p9, p10, p11] + 1) % 2 :=
    invCount_swap_adj [p1, p3, p4, p5, p6, p7] [p0, p9, p10, p11] p8 p2 (Ne.symm n2x8)
  have sp14 : invCount [p1, p3, p4, p5, p6, p7, p2, p8, p0, p9, p10, p11] % 2 = (invCount [p1, p3, p4, p5, p6, p7, p2, p0, p8, p9, p10, p11] + 1) % 2 :=
    invCount_swap_adj [p1, p3, p4, p5, p6, p7, p2] [p9, p10, p11] p8 p0 (Ne.symm n0x8)
  have sp15 : invCount [p1, p3, p4, p5, p6, p7, p2, p0, p8, p9, p10, p11] % 2 = (invCount [p1, p3, p4, p5, p6, p2, p7, p0, p8, p9, p10, p11] + 1) % 2 :=
    invCount_swap_adj [p1, p3, p4, p5, p6] [p0, p8, p9, p10, p11] p7 p2 (Ne.symm n2x7)
  have sp16 : invCount [p1, p3, p4, p5, p6, p2, p7, p0, p8, p9, p10, p11] % 2 = (invCount [p1, p3, p4, p5, p6, p2, p0, p7, p8, p9, p10, p11] + 1) % 2 :=
    invCount_swap_adj [p1, p3, p4, p5, p6, p2] [p8, p9, p10, p11] p7 p0 (Ne.symm n0x7)
  have sp17 : invCount [p1, p3, p4, p5, p6, p2, p0, p7, p8, p9, p10, p11] % 2 = (invCount [p1, p3, p4, p5, p2, p6, p0, p7, p8, p9, p10, p11] + 1) % 2 :=
    invCount_swap_adj [p1, p3, p4, p5] [p0, p7, p8, p9, p10, p11] p6 p2 (Ne.symm n2x6)
  have sp18 : invCount [p1, p3, p4, p5, p2, p6, p0, p7, p8, p9, p10, p11] % 2 = (invCount [p1, p3, p4, p5, p2, p0, p6, p7, p8, p9, p10, p11] + 1) % 2 :=
    invCount_swap_adj [p1, p3, p4, p5, p2] [p7, p8, p9, p10, p11] p6 p0 (Ne.symm n0x6)
  have sp19 : invCount [p1, p3, p4, p5, p2, p0, p6, p7, p8, p9, p10, p11] % 2 = (invCount [p1, p3, p4, p2, p5, p0, p6, p7, p8, p9, p10, p11] + 1) % 2 :=
    invCount_swap_adj [p1, p3, p4] [p0, p6, p7, p8, p9, p10, p11] p5 p2 (Ne.symm n2x5)
  have sp20 : invCount [p1, p3, p4, p2, p5, p0, p6, p7, p8, p9, p10, p11] % 2 = (invCount [p1, p3, p4, p2, p0, p5, p6, p7, p8, p9, p10, p11] + 1) % 2 :=
    invCount_swap_adj [p1, p3, p4, p2] [p6, p7, p8, p9, p10, p11] p5 p0 (Ne.symm n0x5)
  have sp21 : invCount [p1, p3, p4, p2, p0, p5, p6, p7, p8, p9, p10, p11] % 2 = (invCount [p1, p3, p2, p4, p0, p5, p6, p7, p8, p9, p10, p11] + 1) % 2 :=
    invCount_swap_adj [p1, p3] [p0, p5, p6, p7, p8, p9, p10, p11] p4 p2 (Ne.symm n2x4)
  have sp22 : invCount [p1, p3, p2, p4, p0, p5, p6, p7, p8, p9, p10, p11] % 2 = (invCount [p1, p3, p2, p0, p4, p5, p6, p7, p8, p9, p10, p11] + 1) % 2 :=
    invCount_swap_adj [p1, p3, p2] [p5, p6, p7, p8, p9, p10, p11] p4 p0 (Ne.symm n0x4)
  have sp23 : invCount [p1, p3, p2, p0, p4, p5, p6, p7, p8, p9, p10, p11] % 2 = (invCount [p1, p2, p3, p0, p4, p5, p6, p7, p8, p9, p10, p11] + 1) % 2 :=
    invCount_swap_adj [p1] [p0, p4, p5, p6, p7, p8, p9, p10, p11] p3 p2 (Ne.symm n2x3)
  have sp24 : invCount [p1, p2, p3, p0, p4, p5, p6, p7, p8, p9, p10, p11] % 2 = (invCount [p1, p2, p0, p3, p4, p5, p6, p7, p8, p9, p10, p11] + 1) % 2 :=
    invCount_swap_adj [p1, p2] [p4, p5, p6, p7, p8, p9, p10, p11] p3 p0 (Ne.symm n0x3)
  have sp25 : invCount [p1, p2, p0, p3, p4, p5, p6, p7, p8, p9, p10, p11] % 2 = (invCount [p1, p0, p2, p3, p4, p5, p6, p7, p8, p9, p10, p11] + 1) % 2 :=
    invCount_swap_adj [p1] [p3, p4, p5, p6, p7, p8, p9, p10, p11] p2 p0 (Ne.symm n0x2)
  have sp26 : invCount [p1, p0, p2, p3, p4, p5, p6, p7, p8, p9, p10, p11] % 2 = (invCount [p0, p1, p2, p3, p4, p5, p6, p7, p8, p9, p10, p11] + 1) % 2 :=
    invCount_swap_adj [] [p2, p3, p4, p5, p6, p7, p8, p9, p10, p11] p1 p0 (Ne.symm n0x1)
  have sq0 : List.Perm [p8, p1, p9, p3, p4, p5, p6, p7, p2, p0, p10, p11] [p1, p8, p9, p3, p4, p5, p6, p7, p2, p0, p10, p11] :=
    List.Perm.append_left [] (List.Perm.swap p1 p8 [p9, p3, p4, p5, p6, p7, p2, p0, p10, p11])
  have sq1 : List.Perm [p1, p8, p9, p3, p4, p5, p6, p7, p2, p0, p10, p11] [p1, p8, p3, p9, p4, p5, p6, p7, p2, p0, p10, p11] :=
    List.Perm.append_left [p1, p8] (List.Perm.swap p3 p9 [p4, p5, p6, p7, p2, p0, p10, p11])
  have sq2 : List.Perm [p1, p8, p3, p9, p4, p5, p6, p7, p2, p0, p10, p11] [p1, p8, p3, p4, p9, p5, p6, p7, p2, p0, p10, p11] :=
    List.Perm.append_left [p1, p8, p3] (List.Perm.swap p4 p9 [p5, p6, p7, p2, p0, p10, p11])
  have sq3 : List.Perm [p1, p8, p3, p4, p9, p5, p6, p7, p2, p0, p10, p11] [p1, p8, p3, p4, p5, p9, p6, p7, p2, p0, p10, p11] :=
    List.Perm.append_left [p1, p8, p3, p4] (List.Perm.swap p5 p9 [p6, p7, p2, p0, p10, p11])
  have sq4 : List.Perm [p1, p8, p3, p4, p5, p9, p6, p7, p2, p0, p10, p11] [p1, p8, p3, p4, p5, p6, p9, p7, p2, p0, p10, p11] :=
    List.Perm.append_left [p1, p8, p3, p4, p5] (List.Perm.swap p6 p9 [p7, p2, p0, p10, p11])
  have sq5 : List.Perm [p1, p8, p3, p4, p5, p6, p9, p7, p2, p0, p10, p11] [p1, p8, p3, p4, p5, p6, p7, p9, p2, p0, p10, p11] :=
    List.Perm.append_left [p1, p8, p3, p4, p5, p6] (List.Perm.swap p7 p9 [p2, p0, p10, p11])
  have sq6 : List.Perm [p1, p8, p3, p4, p5, p6, p7, p9, p2, p0, p10, p11] [p1, p8, p3, p4, p5, p6, p7, p2, p9, p0, p10, p11] :=
    List.Perm.append_left [p1, p8, p3, p4, p5, p6, p7] (List.Perm.swap p2 p9 [p0, p10, p11])
  have sq7 : List.Perm [p1, p8, p3, p4, p5, p6, p7, p2, p9, p0, p10, p11] [p1, p8, p3, p4, p5, p6, p7, p2, p0, p9, p10, p11] :=
    List.Perm.append_left [p1, p8, p3, p4, p5, p6, p7, p2] (List.Perm.swap p0 p9 [p10, p11])
  have sq8 : List.Perm [p1, p8, p3, p4, p5, p6, p7, p2, p0, p9, p10, p11] [p1, p3, p8, p4, p5, p6, p7, p2, p0, p9, p10, p11] :=
    List.Perm.append_left [p1] (List.Perm.swap p3 p8 [p4, p5, p6, p7, p2, p0, p9, p10, p11])
  have sq9 : List.Perm [p1, p3, p8, p4, p5, p6, p7, p2, p0, p9, p10, p11] [p1, p3, p4, p8, p5, p6, p7, p2, p0, p9, p10, p11] :=
    List.Perm.append_left [p1, p3] (List.Perm.swap p4 p8 [p5, p6, p7, p2, p0, p9, p10, p11])
  have sq10 : List.Perm [p1, p3, p4, p8, p5, p6, p7, p2, p0, p9, p10, p11] [p1, p3, p4, p5, p8, p6, p7, p2, p0, p9, p10, p11] :=
    List.Perm.append_left [p1, p3, p4] (List.Perm.swap p5 p8 [p6, p7, p2, p0, p9, p10, p11])
  have sq11 : List.Perm [p1, p3, p4, p5, p8, p6, p7, p2, p0, p9, p10, p11] [p1, p3, p4, p5, p6, p8, p7, p2, p0, p9, p10, p11] :=
    List.Perm.append_left [p1, p3, p4, p5] (List.Perm.swap p6 p8 [p7, p2, p0, p9, p10, p11])
  have sq12 : List.Perm [p1, p3, p4, p5, p6, p8, p7, p2, p0, p9, p10, p11] [p1, p3, p4, p5, p6, p7, p8, p2, p0, p9, p10, p11] :=
    List.Perm.append_left [p1, p3, p4, p5, p6] (List.Perm.swap p7 p8 [p2, p0, p9, p10, p11])
  have sq13 : List.Perm [p1, p3, p4, p5, p6, p7, p8, p2, p0, p9, p10, p11] [p1, p3, p4, p5, p6, p7, p2, p8, p0, p9, p10, p11] :=
    List.Perm.append_left [p1, p3, p4, p5, p6, p7] (List.Perm.swap p2 p8 [p0, p9, p10, p11])
  have sq14 : List.Perm [p1, p3, p4, p5, p6, p7, p2, p8, p0, p9, p10, p11] [p1, p3, p4, p5, p6, p7, p2, p0, p8, p9, p10, p11] :=
    List.Perm.append_left [p1, p3, p4, p5, p6, p7, p2] (List.Perm.swap p0 p8 [p9, p10, p11])
  have sq15 : List.Perm [p1, p3, p4, p5, p6, p7, p2, p0, p8, p9, p10, p11] [p1, p3, p4, p5, p6, p2, p7, p0, p8, p9, p10, p11] :=
    List.Perm.append_left [p1, p3, p4, p5, p6] (List.Perm.swap p2 p7 [p0, p8, p9, p10, p11])
  have sq16 : List.Perm [p1, p3, p4, p5, p6, p2, p7, p0, p8, p9, p10, p11] [p1, p3, p4, p5, p6, p2, p0, p7, p8, p9, p10, p11] :=
    List.Perm.append_left [p1, p3, p4, p5, p6, p2] (List.Perm.swap p0 p7 [p8, p9, p10, p11])
  have sq17 : List.Perm [p1, p3, p4, p5, p6, p2, p0, p7, p8, p9, p10, p11] [p1, p3, p4, p5, p2, p6, p0, p7, p8, p9, p10, p11] :=
    List.Perm.append_left [p1, p3, p4, p5] (List.Perm.swap p2 p6 [p0, p7, p8, p9, p10, p11])
  have sq18 : List.Perm [p1, p3, p4, p5, p2, p6, p0, p7, p8, p9, p10, p11] [p1, p3, p4, p5, p2, p0, p6, p7, p8, p9, p10, p11] :=
    List.Perm.append_left [p1, p3, p4, p5, p2] (List.Perm.swap p0 p6 [p7, p8, p9, p10, p11])
  have sq19 : List.Perm [p1, p3, p4, p5, p2, p0, p6, p7, p8, p9, p10, p11] [p1, p3, p4, p2, p5, p0, p6, p7, p8, p9, p10, p11] :=
    List.Perm.append_left [p1, p3, p4] (List.Perm.swap p2 p5 [p0, p6, p7, p8, p9, p10, p11])
  have sq20 : List.Perm [p1, p3, p4, p2, p5, p0, p6, p7, p8, p9, p10, p11] [p1, p3, p4, p2, p0, p5, p6, p7, p8, p9, p10, p11] :=
    List.Perm.append_left [p1, p3, p4, p2] (List.Perm.swap p0 p5 [p6, p7, p8, p9, p10, p11])
  have sq21 : List.Perm [p1, p3, p4, p2, p0, p5, p6, p7, p8, p9, p10, p11] [p1, p3, p2, p4, p0, p5, p6, p7, p8, p9, p10, p11] :=
    List.Perm.append_left [p1, p3] (List.Perm.swap p2 p4 [p0, p5, p6, p7, p8, p9, p10, p11])
  have sq22 : List.Perm [p1, p3, p2, p4, p0, p5, p6, p7, p8, p9, p10, p11] [p1, p3, p2, p0, p4, p5, p6, p7, p8, p9, p10, p11] :=
    List.Perm.append_left [p1, p3, p2] (List.Perm.swap p0 p4 [p5, p6, p7, p8, p9, p10, p11])
  have sq23 : List.Perm [p1, p3, p2, p0, p4, p5, p6, p7, p8, p9, p10, p11] [p1, p2, p3, p0, p4, p5, p6, p7, p8, p9, p10, p11] :=
    List.Perm.append_left [p1] (List.Perm.swap p2 p3 [p0, p4, p5, p6, p7, p8, p9, p10, p11])
  have sq24 : List.Perm [p1, p2, p3, p0, p4, p5, p6, p7, p8, p9, p10, p11] [p1, p2, p0, p3, p4, p5, p6, p7, p8, p9, p10, p11] :=
    List.Perm.append_left [p1, p2] (List.Perm.swap p0 p3 [p4, p5, p6, p7, p8, p9, p10, p11])
  have sq25 : List.Perm [p1, p2, p0, p3, p4, p5, p6, p7, p8, p9, p10, p11] [p1, p0, p2, p3, p4, p5, p6, p7, p8, p9, p10, p11] :=
    List.Perm.append_left [p1] (List.Perm.swap p0 p2 [p3, p4, p5, p6, p7, p8, p9, p10, p11])
  have sq26 : List.Perm [p1, p0, p2, p3, p4, p5, p6, p7, p8, p9, p10, p11] [p0, p1, p2, p3, p4, p5, p6, p7, p8, p9, p10, p11] :=
    List.Perm.append_left [] (List.Perm.swap p0 p1 [p2, p3, p4, p5, p6, p7, p8, p9, p10, p11])
  refine ⟨((sq0.trans (sq1.trans (sq2.trans (sq3.trans (sq4.trans (sq5.trans (sq6.trans (sq7.trans (sq8.trans (sq9.trans (sq10.trans (sq11.trans (sq12.trans (sq13.trans (sq14.trans (sq15.trans (sq16.trans (sq17.trans (sq18.trans (sq19.trans (sq20.trans (sq21.trans (sq22.trans (sq23.trans (sq24.trans (sq25.trans sq26))))))))))))))))))))))))))).trans hp, ?_⟩
  omega


theorem cposStepF {p0 p1 p2 p3 p4 p5 p6 p7 : Nat}
    (hp : List.Perm [p0, p1, p2, p3, p4, p5, p6, p7] (List.range 8)) :
    List.Perm [p1, p3, p0, p2, p4, p5, p6, p7] (List.range 8) ∧
    invCount [p1, p3, p0, p2, p4, p5, p6, p7] % 2 = (invCount [p0, p1, p2, p3, p4, p5, p6, p7] + 1) % 2 := by
  have hnd := hp.symm.nodup (List.nodup_range 8)
  simp only [List.nodup_cons, List.mem_cons, List.not_mem_nil, not_or, List.nodup_nil,
    and_true, or_false] at hnd
  obtain ⟨⟨n0x1,n0x2,n0x3,n0x4,n0x5,n0x6,n0x7⟩, ⟨n1x2,n1x3,n1x4,n1x5,n1x6,n1x7⟩, ⟨n2x3,n2x4,n2x5,n2x6,n2x7⟩, ⟨n3x4,n3x5,n3x6,n3x7⟩, ⟨n4x5,n4x6,n4x7⟩, ⟨n5x6,n5x7⟩, n6x7, _⟩ := hnd
  have sp0 : invCount [p1, p3, p0, p2, p4, p5, p6, p7] % 2 = (invCount [p1, p0, p3, p2, p4, p5, p6, p7] + 1) % 2 :=
    invCount_swap_adj [p1] [p2, p4, p5, p6, p7] p3 p0 (Ne.symm n0x3)
  have sp1 : invCount [p1, p0, p3, p2, p4, p5, p6, p7] % 2 = (invCount [p1, p0, p2, p3, p4, p5, p6, p7] + 1) % 2 :=
    invCount_swap_adj [p1, p0] [p4, p5, p6, p7] p3 p2 (Ne.symm n2x3)
  have sp2 : invCount [p1, p0, p2, p3, p4, p5, p6, p7] % 2 = (invCount [p0, p1, p2, p3, p4, p5, p6, p7] + 1) % 2 :=
    invCount_swap_adj [] [p2, p3, p4, p5, p6, p7] p1 p0 (Ne.symm n0x1)
  have sq0 : List.Perm [p1, p3, p0, p2, p4, p5, p6, p7] [p1, p0, p3, p2, p4, p5, p6, p7] :=
    List.Perm.append_left [p1] (List.Perm.swap p0 p3 [p2, p4, p5, p6, p7])
  have sq1 : List.Perm [p1, p0, p3, p2, p4, p5, p6, p7] [p1, p0, p2, p3, p4, p5, p6, p7] :=
    List.Perm.append_left [p1, p0] (List.Perm.swap p2 p3 [p4, p5, p6, p7])
  have sq2 : List.Perm [p1, p0, p2, p3, p4, p5, p6, p7] [p0, p1, p2, p3, p4, p5, p6, p7] :=
    List.Perm.append_left [] (List.Perm.swap p0 p1 [p2, p3, p4, p5, p6, p7])
  refine ⟨((sq0.trans (sq1.trans sq2))).trans hp, ?_⟩
  omega


theorem eposStepF {p0 p1 p2 p3 p4 p5 p6 p7 p8 p9 p10 p11 : Nat}
    (hp : List.Perm [p0, p1, p2, p3, p4, p5, p6, p7, p8, p9, p10, p11] (List.range 12)) :
    List.Perm [p6, p4, p2, p3, p0, p5, p1, p7, p8, p9, p10, p11] (List.range 12) ∧
    invCount [p6, p4, p2, p3, p0, p5, p1, p7, p8, p9, p10, p11] % 2 = (invCount [p0, p1, p2, p3, p4, p5, p6, p7, p8, p9, p10, p11] + 1) % 2 := by
  have hnd := hp.symm.nodup (List.nodup_range 12)
  simp only [List.nodup_cons, List.mem_cons, List.not_mem_nil, not_or, List.nodup_nil,
    and_true, or_false] at hnd
  obtain ⟨⟨n0x1,n0x2,n0x3,n0x4,n0x5,n0x6,n0x7,n0x8,n0x9,n0x10,n0x11⟩, ⟨n1x2,n1x3,n1x4,n1x5,n1x6,n1x7,n1x8,n1x9,n1x10,n1x11⟩, ⟨n2x3,n2x4,n2x5,n2x6,n2x7,n2x8,n2x9,n2x10,n2x11⟩, ⟨n3x4,n3x5,n3x6,n3x7,n3x8,n3x9,n3x10,n3x11⟩, ⟨n4x5,n4x6,n4x7,n4x8,n4x9,n4x10,n4x11⟩, ⟨n5x6,n5x7,n5x8,n5x9,n5x10,n5x11⟩, ⟨n6x7,n6x8,n6x9,n6x10,n6x11⟩, ⟨n7x8,n7x9,n7x10,n7x11⟩, ⟨n8x9,n8x10,n8x11⟩, ⟨n9x10,n9x11⟩, n10x11, _⟩ := hnd
  have sp0 : invCount [p6, p4, p2, p3, p0, p5, p1, p7, p8, p9, p10, p11] % 2 = (invCount [p4, p6, p2, p3, p0, p5, p1, p7, p8, p9, p10, p11] + 1) % 2 :=
    invCount_swap_adj [] [p2, p3, p0, p5, p1, p7, p8, p9, p10, p11] p6 p4 (Ne.symm n4x6)
  have sp1 : invCount [p4, p6, p2, p3, p0, p5, p1, p7, p8, p9, p10, p11] % 2 = (invCount [p4, p2, p6, p3, p0, p5, p1, p7, p8, p9, p10, p11] + 1) % 2 :=
    invCount_swap_adj [p4] [p3, p0, p5, p1, p7, p8, p9, p10, p11] p6 p2 (Ne.symm n2x6)
  have sp2 : invCount [p4, p2, p6, p3, p0, p5, p1, p7, p8, p9, p10, p11] % 2 = (invCount [p4, p2, p3, p6, p0, p5, p1, p7, p8, p9, p10, p11] + 1) % 2 :=
    invCount_swap_adj [p4, p2] [p0, p5, p1, p7, p8, p9, p10, p11] p6 p3 (Ne.symm n3x6)
  have sp3 : invCount [p4, p2, p3, p6, p0, p5, p1, p7, p8, p9, p10, p11] % 2 = (invCount [p4, p2, p3, p0, p6, p5, p1, p7, p8, p9, p10, p11] + 1) % 2 :=
    invCount_swap_adj [p4, p2, p3] [p5, p1, p7, p8, p9, p10, p11] p6 p0 (Ne.symm n0x6)
  have sp4 : invCount [p4, p2, p3, p0, p6, p5, p1, p7, p8, p9, p10, p11] % 2 = (invCount [p4, p2, p3, p0, p5, p6, p1, p7, p8, p9, p10, p11] + 1) % 2 :=
    invCount_swap_adj [p4, p2, p3, p0] [p1, p7, p8, p9, p10, p11] p6 p5 (Ne.symm n5x6)
  have sp5 : invCount [p4, p2, p3, p0, p5, p6, p1, p7, p8, p9, p10, p11] % 2 = (invCount [p4, p2, p3, p0, p5, p1, p6, p7, p8, p9, p10, p11] + 1) % 2 :=
    invCount_swap_adj [p4, p2, p3, p0, p5] [p7, p8, p9, p10, p11] p6 p1 (Ne.symm n1x6)
  have sp6 : invCount [p4, p2, p3, p0, p5, p1, p6, p7, p8, p9, p10, p11] % 2 = (invCount [p2, p4, p3, p0, p5, p1, p6, p7, p8, p9, p10, p11] + 1) % 2 :=
    invCount_swap_adj [] [p3, p0, p5, p1, p6, p7, p8, p9, p10, p11] p4 p2 (Ne.symm n2x4)
  have sp7 : invCount [p2, p4, p3, p0, p5, p1, p6, p7, p8, p9, p10, p11] % 2 = (invCount [p2, p3, p4, p0, p5, p1, p6, p7, p8, p9, p10, p11] + 1) % 2 :=
    invCount_swap_adj [p2] [p0, p5, p1, p6, p7, p8, p9, p10, p11] p4 p3 (Ne.symm n3x4)
  have sp8 : invCount [p2, p3, p4, p0, p5, p1, p6, p7, p8, p9, p10, p11] % 2 = (invCount [p2, p3, p0, p4, p5, p1, p6, p7, p8, p9, p10, p11] + 1) % 2 :=
    invCount_swap_adj [p2, p3] [p5, p1, p6, p7, p8, p9, p10, p11] p4 p0 (Ne.symm n0x4)
  have sp9 : invCount [p2, p3, p0, p4, p5, p1, p6, p7, p8, p9, p10, p11] % 2 = (invCount [p2, p3, p0, p4, p1, p5, p6, p7, p8, p9, p10, p11] + 1) % 2 :=
    invCount_swap_adj [p2, p3, p0, p4] [p6, p7, p8, p9, p10, p11] p5 p1 (Ne.symm n1x5)
  have sp10 : invCount [p2, p3, p0, p4, p1, p5, p6, p7, p8, p9, p10, p11] % 2 = (invCount [p2, p0, p3, p4, p1, p5, p6, p7, p8, p9, p10, p11] + 1) % 2 :=
    invCount_swap_adj [p2] [p4, p1, p5, p6, p7, p8, p9, p10, p11] p3 p0 (Ne.symm n0x3)
  have sp11 : invCount [p2, p0, p3, p4, p1, p5, p6, p7, p8, p9, p10, p11] % 2 = (invCount [p2, p0, p3, p1, p4, p5, p6, p7, p8, p9, p10, p11] + 1) % 2 :=
    invCount_swap_adj [p2, p0, p3] [p5, p6, p7, p8, p9, p10, p11] p4 p1 (Ne.symm n1x4)
  have sp12 : invCount [p2, p0, p3, p1, p4, p5, p6, p7, p8, p9, p10, p11] % 2 = (invCount [p0, p2, p3, p1, p4, p5, p6, p7, p8, p9, p10, p11] + 1) % 2 :=
    invCount_swap_adj [] [p3, p1, p4, p5, p6, p7, p8, p9, p10, p11] p2 p0 (Ne.symm n0x2)
  have sp13 : invCount [p0, p2, p3, p1, p4, p5, p6, p7, p8, p9, p10, p11] % 2 = (invCount [p0, p2, p1, p3, p4, p5, p6, p7, p8, p9, p10, p11] + 1) % 2 :=
    invCount_swap_adj [p0, p2] [p4, p5, p6, p7, p8, p9, p10, p11] p3 p1 (Ne.symm n1x3)
  have sp14 : invCount [p0, p2, p1, p3, p4, p5, p6, p7, p8, p9, p10, p11] % 2 = (invCount [p0, p1, p2, p3, p4, p5, p6, p7, p8, p9, p10, p11] + 1) % 2 :=
    invCount_swap_adj [p0] [p3, p4, p5, p6, p7, p8, p9, p10, p11] p2 p1 (Ne.symm n1x2)
  have sq0 : List.Perm [p6, p4, p2, p3, p0, p5, p1, p7, p8, p9, p10, p11] [p4, p6, p2, p3, p0, p5, p1, p7, p8, p9, p10, p11] :=
    List.Perm.append_left [] (List.Perm.swap p4 p6 [p2, p3, p0, p5, p1, p7, p8, p9, p10, p11])
  have sq1 : List.Perm [p4, p6, p2, p3, p0, p5, p1, p7, p8, p9, p10, p11] [p4, p2, p6, p3, p0, p5, p1, p7, p8, p9, p10, p11] :=
    List.Perm.append_left [p4] (List.Perm.swap p2 p6 [p3, p0, p5, p1, p7, p8, p9, p10, p11])
  have sq2 : List.Perm [p4, p2, p6, p3, p0, p5, p1, p7, p8, p9, p10, p11] [p4, p2, p3, p6, p0, p5, p1, p7, p8, p9, p10, p11] :=
    List.Perm.append_left [p4, p2] (List.Perm.swap p3 p6 [p0, p5, p1, p7, p8, p9, p10, p11])
  have sq3 : List.Perm [p4, p2, p3, p6, p0, p5, p1, p7, p8, p9, p10, p11] [p4, p2, p3, p0, p6, p5, p1, p7, p8, p9, p10, p11] :=
    List.Perm.append_left [p4, p2, p3] (List.Perm.swap p0 p6 [p5, p1, p7, p8, p9, p10, p11])
  have sq4 : List.Perm [p4, p2, p3, p0, p6, p5, p1, p7, p8, p9, p10, p11] [p4, p2, p3, p0, p5, p6, p1, p7, p8, p9, p10, p11] :=
    List.Perm.append_left [p4, p2, p3, p0] (List.Perm.swap p5 p6 [p1, p7, p8, p9, p10, p11])
  have sq5 : List.Perm [p4, p2, p3, p0, p5, p6, p1, p7, p8, p9, p10, p11] [p4, p2, p3, p0, p5, p1, p6, p7, p8, p9, p10, p11] :=
    List.Perm.append_left [p4, p2, p3, p0, p5] (List.Perm.swap p1 p6 [p7, p8, p9, p10, p11])
  have sq6 : List.Perm [p4, p2, p3, p0, p5, p1, p6, p7, p8, p9, p10, p11] [p2, p4, p3, p0, p5, p1, p6, p7, p8, p9, p10, p11] :=
    List.Perm.append_left [] (List.Perm.swap p2 p4 [p3, p0, p5, p1, p6, p7, p8, p9, p10, p11])
  have sq7 : List.Perm [p2, p4, p3, p0, p5, p1, p6, p7, p8, p9, p10, p11] [p2, p3, p4, p0, p5, p1, p6, p7, p8, p9, p10, p11] :=
    List.Perm.append_left [p2] (List.Perm.swap p3 p4 [p0, p5, p1, p6, p7, p8, p9, p10, p11])
  have sq8 : List.Perm [p2, p3, p4, p0, p5, p1, p6, p7, p8, p9, p10, p11] [p2, p3, p0, p4, p5, p1, p6, p7, p8, p9, p10, p11] :=
    List.Perm.append_left [p2, p3] (List.Perm.swap p0 p4 [p5, p1, p6, p7, p8, p9, p10, p11])
  have sq9 : List.Perm [p2, p3, p0, p4, p5, p1, p6, p7, p8, p9, p10, p11] [p2, p3, p0, p4, p1, p5, p6, p7, p8, p9, p10, p11] :=
    List.Perm.append_left [p2, p3, p0, p4] (List.Perm.swap p1 p5 [p6, p7, p8, p9, p10, p11])
  have sq10 : List.Perm [p2, p3, p0, p4, p1, p5, p6, p7, p8, p9, p10, p11] [p2, p0, p3, p4, p1, p5, p6, p7, p8, p9, p10, p11] :=
    List.Perm.append_left [p2] (List.Perm.swap p0 p3 [p4, p1, p5, p6, p7, p8, p9, p10, p11])
  have sq11 : List.Perm [p2, p0, p3, p4, p1, p5, p6, p7, p8, p9, p10, p11] [p2, p0, p3, p1, p4, p5, p6, p7, p8, p9, p10, p11] :=
    List.Perm.append_left [p2, p0, p3] (List.Perm.swap p1 p4 [p5, p6, p7, p8, p9, p10, p11])
  have sq12 : List.Perm [p2, p0, p3, p1, p4, p5, p6, p7, p8, p9, p10, p11] [p0, p2, p3, p1, p4, p5, p6, p7, p8, p9, p10, p11] :=
    List.Perm.append_left [] (List.Perm.swap p0 p2 [p3, p1, p4, p5, p6, p7, p8, p9, p10, p11])
  have sq13 : List.Perm [p0, p2, p3, p1, p4, p5, p6, p7, p8, p9, p10, p11] [p0, p2, p1, p3, p4, p5, p6, p7, p8, p9, p10, p11] :=
    List.Perm.append_left [p0, p2] (List.Perm.swap p1 p3 [p4, p5, p6, p7, p8, p9, p10, p11])
  have sq14 : List.Perm [p0, p2, p1, p3, p4, p5, p6, p7, p8, p9, p10, p11] [p0, p1, p2, p3, p4, p5, p6, p7, p8, p9, p10, p11] :=
    List.Perm.append_left [p0] (List.Perm.swap p1 p2 [p3, p4, p5, p6, p7, p8, p9, p10, p11])
  refine ⟨((sq0.trans (sq1.trans (sq2.trans (sq3.trans (sq4.trans (sq5.trans (sq6.trans (sq7.trans (sq8.trans (sq9.trans (sq10.trans (sq11.trans (sq12.trans (sq13.trans sq14))))))))))))))).trans hp, ?_⟩
  omega


theorem cposStepL {p0 p1 p2 p3 p4 p5 p6 p7 : Nat}
    (hp : List.Perm [p0, p1, p2, p3, p4, p5, p6, p7] (List.range 8)) :
    List.Perm [p0, p5, p2, p1, p4, p7, p6, p3] (List.range 8) ∧
    invCount [p0, p5, p2, p1, p4, p7, p6, p3] % 2 = (invCount [p0, p1, p2, p3, p4, p5, p6, p7] + 1) % 2 := by
  have hnd := hp.symm.nodup (List.nodup_range 8)
  simp only [List.nodup_cons, List.mem_cons, List.not_mem_nil, not_or, List.nodup_nil,
    and_true, or_false] at hnd
  obtain ⟨⟨n0x1,n0x2,n0x3,n0x4,n0x5,n0x6,n0x7⟩, ⟨n1x2,n1x3,n1x4,n1x5,n1x6,n1x7⟩, ⟨n2x3,n2x4,n2x5,n2x6,n2x7⟩, ⟨n3x4,n3x5,n3x6,n3x7⟩, ⟨n4x5,n4x6,n4x7⟩, ⟨n5x6,n5x7⟩, n6x7, _⟩ := hnd
  have sp0 : invCount [p0, p5, p2, p1, p4, p7, p6, p3] % 2 = (invCount [p0, p2, p5, p1, p4, p7, p6, p3] + 1) % 2 :=
    invCount_swap_adj [p0] [p1, p4, p7, p6, p3] p5 p2 (Ne.symm n2x5)
  have sp1 : invCount [p0, p2, p5, p1, p4, p7, p6, p3] % 2 = (invCount [p0, p2, p1, p5, p4, p7, p6, p3] + 1) % 2 :=
    invCount_swap_adj [p0, p2] [p4, p7, p6, p3] p5 p1 (Ne.symm n1x5)
  have sp2 : invCount [p0, p2, p1, p5, p4, p7, p6, p3] % 2 = (invCount [p0, p2, p1, p4, p5, p7, p6, p3] + 1) % 2 :=
    invCount_swap_adj [p0, p2, p1] [p7, p6, p3] p5 p4 (Ne.symm n4x5)
  have sp3 : invCount [p0, p2, p1, p4, p5, p7, p6, p3] % 2 = (invCount [p0, p2, p1, p4, p5, p6, p7, p3] + 1) % 2 :=
    invCount_swap_adj [p0, p2, p1, p4, p5] [p3] p7 p6 (Ne.symm n6x7)
  have sp4 : invCount [p0, p2, p1, p4, p5, p6, p7, p3] % 2 = (invCount [p0, p2, p1, p4, p5, p6, p3, p7] + 1) % 2 :=
    invCount_swap_adj [p0, p2, p1, p4, p5, p6] [] p7 p3 (Ne.symm n3x7)
  have sp5 : invCount [p0, p2, p1, p4, p5, p6, p3, p7] % 2 = (invCount [p0, p1, p2, p4, p5, p6, p3, p7] + 1) % 2 :=
    invCount_swap_adj [p0] [p4, p5, p6, p3, p7] p2 p1 (Ne.symm n1x2)
  have sp6 : invCount [p0, p1, p2, p4, p5, p6, p3, p7] % 2 = (invCount [p0, p1, p2, p4, p5, p3, p6, p7] + 1) % 2 :=
    invCount_swap_adj [p0, p1, p2, p4, p5] [p7] p6 p3 (Ne.symm n3x6)
  have sp7 : invCount [p0, p1, p2, p4, p5, p3, p6, p7] % 2 = (invCount [p0, p1, p2, p4, p3, p5, p6, p7] + 1) % 2 :=
    invCount_swap_adj [p0, p1, p2, p4] [p6, p7] p5 p3 (Ne.symm n3x5)
  have sp8 : invCount [p0, p1, p2, p4, p3, p5, p6, p7] % 2 = (invCount [p0, p1, p2, p3, p4, p5, p6, p7] + 1) % 2 :=
    invCount_swap_adj [p0, p1, p2] [p5, p6, p7] p4 p3 (Ne.symm n3x4)
  have sq0 : List.Perm [p0, p5, p2, p1, p4, p7, p6, p3] [p0, p2, p5, p1, p4, p7, p6, p3] :=
    List.Perm.append_left [p0] (List.Perm.swap p2 p5 [p1, p4, p7, p6, p3])
  have sq1 : List.Perm [p0, p2, p5, p1, p4, p7, p6, p3] [p0, p2, p1, p5, p4, p7, p6, p3] :=
    List.Perm.append_left [p0, p2] (List.Perm.swap p1 p5 [p4, p7, p6, p3])
  have sq2 : List.Perm [p0, p2, p1, p5, p4, p7, p6, p3] [p0, p2, p1, p4, p5, p7, p6, p3] :=
    List.Perm.append_left [p0, p2, p1] (List.Perm.swap p4 p5 [p7, p6, p3])
  have sq3 : List.Perm [p0, p2, p1, p4, p5, p7, p6, p3] [p0, p2, p1, p4, p5, p6, p7, p3] :=
    List.Perm.append_left [p0, p2, p1, p4, p5] (List.Perm.swap p6 p7 [p3])
  have sq4 : List.Perm [p0, p2, p1, p4, p5, p6, p7, p3] [p0, p2, p1, p4, p5, p6, p3, p7] :=
    List.Perm.append_left [p0, p2, p1, p4, p5, p6] (List.Perm.swap p3 p7 [])
  have sq5 : List.Perm [p0, p2, p1, p4, p5, p6, p3, p7] [p0, p1, p2, p4, p5, p6, p3, p7] :=
    List.Perm.append_left [p0] (List.Perm.swap p1 p2 [p4, p5, p6, p3, p7])
  have sq6 : List.Perm [p0, p1, p2, p4, p5, p6, p3, p7] [p0, p1, p2, p4, p5, p3, p6, p7] :=
    List.Perm.append_left [p0, p1, p2, p4, p5] (List.Perm.swap p3 p6 [p7])
  have sq7 : List.Perm [p0, p1, p2, p4, p5, p3, p6, p7] [p0, p1, p2, p4, p3, p5, p6, p7] :=
    List.Perm.append_left [p0, p1, p2, p4] (List.Perm.swap p3 p5 [p6, p7])
  have sq8 : List.Perm [p0, p1, p2, p4, p3, p5, p6, p7] [p0, p1, p2, p3, p4, p5, p6, p7] :=
    List.Perm.append_left [p0, p1, p2] (List.Perm.swap p3 p4 [p5, p6, p7])
  refine ⟨((sq0.trans (sq1.trans (sq2.trans (sq3.trans (sq4.trans (sq5.trans (sq6.trans (sq7.trans sq8))))))))).trans hp, ?_⟩
  omega


theorem eposStepL {p0 p1 p2 p3 p4 p5 p6 p7 p8 p9 p10 p11 : Nat}
    (hp : List.Perm [p0, p1, p2, p3, p4, p5, p6, p7, p8, p9, p10, p11] (List.range 12)) :
    List.Perm [p0, p1, p2, p3, p4, p5, p9, p11, p8, p7, p10, p6] (List.range 12) ∧
    invCount [p0, p1, p2, p3, p4, p5, p9, p11, p8, p7, p10, p6] % 2 = (invCount [p0, p1, p2, p3, p4, p5, p6, p7, p8, p9, p10, p11] + 1) % 2 := by
  have hnd := hp.symm.nodup (List.nodup_range 12)
  simp only [List.nodup_cons, List.mem_cons, List.not_mem_nil, not_or, List.nodup_nil,
    and_true, or_false] at hnd
  obtain ⟨⟨n0x1,n0x2,n0x3,n0x4,n0x5,n0x6,n0x7,n0x8,n0x9,n0x10,n0x11⟩, ⟨n1x2,n1x3,n1x4,n1x5,n1x6,n1x7,n1x8,n1x9,n1x10,n1x11⟩, ⟨n2x3,n2x4,n2x5,n2x6,n2x7,n2x8,n2x9,n2x10,n2x11⟩, ⟨n3x4,n3x5,n3x6,n3x7,n3x8,n3x9,n3x10,n3x11⟩, ⟨n4x5,n4x6,n4x7,n4x8,n4x9,n4x10,n4x11⟩, ⟨n5x6,n5x7,n5x8,n5x9,n5x10,n5x11⟩, ⟨n6x7,n6x8,n6x9,n6x10,n6x11⟩, ⟨n7x8,n7x9,n7x10,n7x11⟩, ⟨n8x9,n8x10,n8x11⟩, ⟨n9x10,n9x11⟩, n10x11, _⟩ := hnd
  have sp0 : invCount [p0, p1, p2, p3, p4, p5, p9, p11, p8, p7, p10, p6] % 2 = (invCount [p0, p1, p2, p3, p4, p5, p9, p8, p11, p7, p10, p6] + 1) % 2 :=
    invCount_swap_adj [p0, p1, p2, p3, p4, p5, p9] [p7, p10, p6] p11 p8 (Ne.symm n8x11)
  have sp1 : invCount [p0, p1, p2, p3, p4, p5, p9, p8, p11, p7, p10, p6] % 2 = (invCount [p0, p1, p2, p3, p4, p5, p9, p8, p7, p11, p10, p6] + 1) % 2 :=
    invCount_swap_adj [p0, p1, p2, p3, p4, p5, p9, p8] [p10, p6] p11 p7 (Ne.symm n7x11)
  have sp2 : invCount [p0, p1, p2, p3, p4, p5, p9, p8, p7, p11, p10, p6] % 2 = (invCount [p0, p1, p2, p3, p4, p5, p9, p8, p7, p10, p11, p6] + 1) % 2 :=
    invCount_swap_adj [p0, p1, p2, p3, p4, p5, p9, p8, p7] [p6] p11 p10 (Ne.symm n10x11)
  have sp3 : invCount [p0, p1, p2, p3, p4, p5, p9, p8, p7, p10, p11, p6] % 2 = (invCount [p0, p1, p2, p3, p4, p5, p9, p8, p7, p10, p6, p11] + 1) % 2 :=
    invCount_swap_adj [p0, p1, p2, p3, p4, p5, p9, p8, p7, p10] [] p11 p6 (Ne.symm n6x11)
  have sp4 : invCount [p0, p1, p2, p3, p4, p5, p9, p8, p7, p10, p6, p11] % 2 = (invCount [p0, p1, p2, p3, p4, p5, p8, p9, p7, p10, p6, p11] + 1) % 2 :=
    invCount_swap_adj [p0, p1, p2, p3, p4, p5] [p7, p10, p6, p11] p9 p8 (Ne.symm n8x9)
  have sp5 : invCount [p0, p1, p2, p3, p4, p5, p8, p9, p7, p10, p6, p11] % 2 = (invCount [p0, p1, p2, p3, p4, p5, p8, p7, p9, p10, p6, p11] + 1) % 2 :=
    invCount_swap_adj [p0, p1, p2, p3, p4, p5, p8] [p10, p6, p11] p9 p7 (Ne.symm n7x9)
  have sp6 : invCount [p0, p1, p2, p3, p4, p5, p8, p7, p9, p10, p6, p11] % 2 = (invCount [p0, p1, p2, p3, p4, p5, p8, p7, p9, p6, p10, p11] + 1) % 2 :=
    invCount_swap_adj [p0, p1, p2, p3, p4, p5, p8, p7, p9] [p11] p10 p6 (Ne.symm n6x10)
  have sp7 : invCount [p0, p1, p2, p3, p4, p5, p8, p7, p9, p6, p10, p11] % 2 = (invCount [p0, p1, p2, p3, p4, p5, p7, p8, p9, p6, p10, p11] + 1) % 2 :=
    invCount_swap_adj [p0, p1, p2, p3, p4, p5] [p9, p6, p10, p11] p8 p7 (Ne.symm n7x8)
  have sp8 : invCount [p0, p1, p2, p3, p4, p5, p7, p8, p9, p6, p10, p11] % 2 = (invCount [p0, p1, p2, p3, p4, p5, p7, p8, p6, p9, p10, p11] + 1) % 2 :=
    invCount_swap_adj [p0, p1, p2, p3, p4, p5, p7, p8] [p10, p11] p9 p6 (Ne.symm n6x9)
  have sp9 : invCount [p0, p1, p2, p3, p4, p5, p7, p8, p6, p9, p10, p11] % 2 = (invCount [p0, p1, p2, p3, p4, p5, p7, p6, p8, p9, p10, p11] + 1) % 2 :=
    invCount_swap_adj [p0, p1, p2, p3, p4, p5, p7] [p9, p10, p11] p8 p6 (Ne.symm n6x8)
  have sp10 : invCount [p0, p1, p2, p3, p4, p5, p7, p6, p8, p9, p10, p11] % 2 = (invCount [p0, p1, p2, p3, p4, p5, p6, p7, p8, p9, p10, p11] + 1) % 2 :=
    invCount_swap_adj [p0, p1, p2, p3, p4, p5] [p8, p9, p10, p11] p7 p6 (Ne.symm n6x7)
  have sq0 : List.Perm [p0, p1, p2, p3, p4, p5, p9, p11, p8, p7, p10, p6] [p0, p1, p2, p3, p4, p5, p9, p8, p11, p7, p10, p6] :=
    List.Perm.append_left [p0, p1, p2, p3, p4, p5, p9] (List.Perm.swap p8 p11 [p7, p10, p6])
  have sq1 : List.Perm [p0, p1, p2, p3, p4, p5, p9, p8, p11, p7, p10, p6] [p0, p1, p2, p3, p4, p5, p9, p8, p7, p11, p10, p6] :=
    List.Perm.append_left [p0, p1, p2, p3, p4, p5, p9, p8] (List.Perm.swap p7 p11 [p10, p6])
  have sq2 : List.Perm [p0, p1, p2, p3, p4, p5, p9, p8, p7, p11, p10, p6] [p0, p1, p2, p3, p4, p5, p9, p8, p7, p10, p11, p6] :=
    List.Perm.append_left [p0, p1, p2, p3, p4, p5, p9, p8, p7] (List.Perm.swap p10 p11 [p6])
  have sq3 : List.Perm [p0, p1, p2, p3, p4, p5, p9, p8, p7, p10, p11, p6] [p0, p1, p2, p3, p4, p5, p9, p8, p7, p10, p6, p11] :=
    List.Perm.append_left [p0, p1, p2, p3, p4, p5, p9, p8, p7, p10] (List.Perm.swap p6 p11 [])
  have sq4 : List.Perm [p0, p1, p2, p3, p4, p5, p9, p8, p7, p10, p6, p11] [p0, p1, p2, p3, p4, p5, p8, p9, p7, p10, p6, p11] :=
    List.Perm.append_left [p0, p1, p2, p3, p4, p5] (List.Perm.swap p8 p9 [p7, p10, p6, p11])
  have sq5 : List.Perm [p0, p1, p2, p3, p4, p5, p8, p9, p7, p10, p6, p11] [p0, p1, p2, p3, p4, p5, p8, p7, p9, p10, p6, p11] :=
    List.Perm.append_left [p0, p1, p2, p3, p4, p5, p8] (List.Perm.swap p7 p9 [p10, p6, p11])
  have sq6 : List.Perm [p0, p1, p2, p3, p4, p5, p8, p7, p9, p10, p6, p11] [p0, p1, p2, p3, p4, p5, p8, p7, p9, p6, p10, p11] :=
    List.Perm.append_left [p0, p1, p2, p3, p4, p5, p8, p7, p9] (List.Perm.swap p6 p10 [p11])
  have sq7 : List.Perm [p0, p1, p2, p3, p4, p5, p8, p7, p9, p6, p10, p11] [p0, p1, p2, p3, p4, p5, p7, p8, p9, p6, p10, p11] :=
    List.Perm.append_left [p0, p1, p2, p3, p4, p5] (List.Perm.swap p7 p8 [p9, p6, p10, p11])
  have sq8 : List.Perm [p0, p1, p2, p3, p4, p5, p7, p8, p9, p6, p10, p11] [p0, p1, p2, p3, p4, p5, p7, p8, p6, p9, p10, p11] :=
    List.Perm.append_left [p0, p1, p2, p3, p4, p5, p7, p8] (List.Perm.swap p6 p9 [p10, p11])
  have sq9 : List.Perm [p0, p1, p2, p3, p4, p5, p7, p8, p6, p9, p10, p11] [p0, p1, p2, p3, p4, p5, p7, p6, p8, p9, p10, p11] :=
    List.Perm.append_left [p0, p1, p2, p3, p4, p5, p7] (List.Perm.swap p6 p8 [p9, p10, p11])
  have sq10 : List.Perm [p0, p1, p2, p3, p4, p5, p7, p6, p8, p9, p10, p11] [p0, p1, p2, p3, p4, p5, p6, p7, p8, p9, p10, p11] :=
    List.Perm.append_left [p0, p1, p2, p3, p4, p5] (List.Perm.swap p6 p7 [p8, p9, p10, p11])
  refine ⟨((sq0.trans (sq1.trans (sq2.trans (sq3.trans (sq4.trans (sq5.trans (sq6.trans (sq7.trans (sq8.trans (sq9.trans sq10))))))))))).trans hp, ?_⟩
  omega


theorem cposStepD {p0 p1 p2 p3 p4 p5 p6 p7 : Nat}
    (hp : List.Perm [p0, p1, p2, p3, p4, p5, p6, p7] (List.range 8)) :
    List.Perm [p0, p1, p3, p7, p4, p5, p2, p6] (List.range 8) ∧
    invCount [p0, p1, p3, p7, p4, p5, p2, p6] % 2 = (invCount [p0, p1, p2, p3, p4, p5, p6, p7] + 1) % 2 := by
  have hnd := hp.symm.nodup (List.nodup_range 8)
  simp only [List.nodup_cons, List.mem_cons, List.not_mem_nil, not_or, List.nodup_nil,
    and_true, or_false] at hnd
  obtain ⟨⟨n0x1,n0x2,n0x3,n0x4,n0x5,n0x6,n0x7⟩, ⟨n1x2,n1x3,n1x4,n1x5,n1x6,n1x7⟩, ⟨n2x3,n2x4,n2x5,n2x6,n2x7⟩, ⟨n3x4,n3x5,n3x6,n3x7⟩, ⟨n4x5,n4x6,n4x7⟩, ⟨n5x6,n5x7⟩, n6x7, _⟩ := hnd
  have sp0 : invCount [p0, p1, p3, p7, p4, p5, p2, p6] % 2 = (invCount [p0, p1, p3, p4, p7, p5, p2, p6] + 1) % 2 :=
    invCount_swap_adj [p0, p1, p3] [p5, p2, p6] p7 p4 (Ne.symm n4x7)
  have sp1 : invCount [p0, p1, p3, p4, p7, p5, p2, p6] % 2 = (invCount [p0, p1, p3, p4, p5, p7, p2, p6] + 1) % 2 :=
    invCount_swap_adj [p0, p1, p3, p4] [p2, p6] p7 p5 (Ne.symm n5x7)
  have sp2 : invCount [p0, p1, p3, p4, p5, p7, p2, p6] % 2 = (invCount [p0, p1, p3, p4, p5, p2, p7, p6] + 1) % 2 :=
    invCount_swap_adj [p0, p1, p3, p4, p5] [p6] p7 p2 (Ne.symm n2x7)
  have sp3 : invCount [p0, p1, p3, p4, p5, p2, p7, p6] % 2 = (invCount [p0, p1, p3, p4, p5, p2, p6, p7] + 1) % 2 :=
    invCount_swap_adj [p0, p1, p3, p4, p5, p2] [] p7 p6 (Ne.symm n6x7)
  have sp4 : invCount [p0, p1, p3, p4, p5, p2, p6, p7] % 2 = (invCount [p0, p1, p3, p4, p2, p5, p6, p7] + 1) % 2 :=
    invCount_swap_adj [p0, p1, p3, p4] [p6, p7] p5 p2 (Ne.symm n2x5)
  have sp5 : invCount [p0, p1, p3, p4, p2, p5, p6, p7] % 2 = (invCount [p0, p1, p3, p2, p4, p5, p6, p7] + 1) % 2 :=
    invCount_swap_adj [p0, p1, p3] [p5, p6, p7] p4 p2 (Ne.symm n2x4)
  have sp6 : invCount [p0, p1, p3, p2, p4, p5, p6, p7] % 2 = (invCount [p0, p1, p2, p3, p4, p5, p6, p7] + 1) % 2 :=
    invCount_swap_adj [p0, p1] [p4, p5, p6, p7] p3 p2 (Ne.symm n2x3)
  have sq0 : List.Perm [p0, p1, p3, p7, p4, p5, p2, p6] [p0, p1, p3, p4, p7, p5, p2, p6] :=
    List.Perm.append_left [p0, p1, p3] (List.Perm.swap p4 p7 [p5, p2, p6])
  have sq1 : List.Perm [p0, p1, p3, p4, p7, p5, p2, p6] [p0, p1, p3, p4, p5, p7, p2, p6] :=
    List.Perm.append_left [p0, p1, p3, p4] (List.Perm.swap p5 p7 [p2, p6])
  have sq2 : List.Perm [p0, p1, p3, p4, p5, p7, p2, p6] [p0, p1, p3, p4, p5, p2, p7, p6] :=
    List.Perm.append_left [p0, p1, p3, p4, p5] (List.Perm.swap p2 p7 [p6])
  have sq3 : List.Perm [p0, p1, p3, p4, p5, p2, p7, p6] [p0, p1, p3, p4, p5, p2, p6, p7] :=
    List.Perm.append_left [p0, p1, p3, p4, p5, p2] (List.Perm.swap p6 p7 [])
  have sq4 : List.Perm [p0, p1, p3, p4, p5, p2, p6, p7] [p0, p1, p3, p4, p2, p5, p6, p7] :=
    List.Perm.append_left [p0, p1, p3, p4] (List.Perm.swap p2 p5 [p6, p7])
  have sq5 : List.Perm [p0, p1, p3, p4, p2, p5, p6, p7] [p0, p1, p3, p2, p4, p5, p6, p7] :=
    List.Perm.append_left [p0, p1, p3] (List.Perm.swap p2 p4 [p5, p6, p7])
  have sq6 : List.Perm [p0, p1, p3, p2, p4, p5, p6, p7] [p0, p1, p2, p3, p4, p5, p6, p7] :=
    List.Perm.append_left [p0, p1] (List.Perm.swap p2 p3 [p4, p5, p6, p7])
  refine ⟨((sq0.trans (sq1.trans (sq2.trans (sq3.trans (sq4.trans (sq5.trans sq6))))))).trans hp, ?_⟩
  omega


theorem eposStepD {p0 p1 p2 p3 p4 p5 p6 p7 p8 p9 p10 p11 : Nat}
    (hp : List.Perm [p0, p1, p2, p3, p4, p5, p6, p7, p8, p9, p10, p11] (List.range 12)) :
    List.Perm [p0, p11, p2, p10, p4, p5, p6, p7, p8, p9, p1, p3] (List.range 12) ∧
    invCount [p0, p11, p2, p10, p4, p5, p6, p7, p8, p9, p1, p3] % 2 = (invCount [p0, p1, p2, p3, p4, p5, p6, p7, p8, p9, p10, p11] + 1) % 2 := by
  have hnd := hp.symm.nodup (List.nodup_range 12)
  simp only [List.nodup_cons, List.mem_cons, List.not_mem_nil, not_or, List.nodup_nil,
    and_true, or_false] at hnd
  obtain ⟨⟨n0x1,n0x2,n0x3,n0x4,n0x5,n0x6,n0x7,n0x8,n0x9,n0x10,n0x11⟩, ⟨n1x2,n1x3,n1x4,n1x5,n1x6,n1x7,n1x8,n1x9,n1x10,n1x11⟩, ⟨n2x3,n2x4,n2x5,n2x6,n2x7,n2x8,n2x9,n2x10,n2x11⟩, ⟨n3x4,n3x5,n3x6,n3x7,n3x8,n3x9,n3x10,n3x11⟩, ⟨n4x5,n4x6,n4x7,n4x8,n4x9,n4x10,n4x11⟩, ⟨n5x6,n5x7,n5x8,n5x9,n5x10,n5x11⟩, ⟨n6x7,n6x8,n6x9,n6x10,n6x11⟩, ⟨n7x8,n7x9,n7x10,n7x11⟩, ⟨n8x9,n8x10,n8x11⟩, ⟨n9x10,n9x11⟩, n10x11, _⟩ := hnd
  have sp0 : invCount [p0, p11, p2, p10, p4, p5, p6, p7, p8, p9, p1, p3] % 2 = (invCount [p0, p2, p11, p10, p4, p5, p6, p7, p8, p9, p1, p3] + 1) % 2 :=
    invCount_swap_adj [p0] [p10, p4, p5, p6, p7, p8, p9, p1, p3] p11 p2 (Ne.symm n2x11)
  have sp1 : invCount [p0, p2, p11, p10, p4, p5, p6, p7, p8, p9, p1, p3] % 2 = (invCount [p0, p2, p10, p11, p4, p5, p6, p7, p8, p9, p1, p3] + 1) % 2 :=
    invCount_swap_adj [p0, p2] [p4, p5, p6, p7, p8, p9, p1, p3] p11 p10 (Ne.symm n10x11)
  have sp2 : invCount [p0, p2, p10, p11, p4, p5, p6, p7, p8, p9, p1, p3] % 2 = (invCount [p0, p2, p10, p4, p11, p5, p6, p7, p8, p9, p1, p3] + 1) % 2 :=
    invCount_swap_adj [p0, p2, p10] [p5, p6, p7, p8, p9, p1, p3] p11 p4 (Ne.symm n4x11)
  have sp3 : invCount [p0, p2, p10, p4, p11, p5, p6, p7, p8, p9, p1, p3] % 2 = (invCount [p0, p2, p10, p4, p5, p11, p6, p7, p8, p9, p1, p3] + 1) % 2 :=
    invCount_swap_adj [p0, p2, p10, p4] [p6, p7, p8, p9, p1, p3] p11 p5 (Ne.symm n5x11)
  have sp4 : invCount [p0, p2, p10, p4, p5, p11, p6, p7, p8, p9, p1, p3] % 2 = (invCount [p0, p2, p10, p4, p5, p6, p11, p7, p8, p9, p1, p3] + 1) % 2 :=
    invCount_swap_adj [p0, p2, p10, p4, p5] [p7, p8, p9, p1, p3] p11 p6 (Ne.symm n6x11)
  have sp5 : invCount [p0, p2, p10, p4, p5, p6, p11, p7, p8, p9, p1, p3] % 2 = (invCount [p0, p2, p10, p4, p5, p6, p7, p11, p8, p9, p1, p3] + 1) % 2 :=
    invCount_swap_adj [p0, p2, p10, p4, p5, p6] [p8, p9, p1, p3] p11 p7 (Ne.symm n7x11)
  have sp6 : invCount [p0, p2, p10, p4, p5, p6, p7, p11, p8, p9, p1, p3] % 2 = (invCount [p0, p2, p10, p4, p5, p6, p7, p8, p11, p9, p1, p3] + 1) % 2 :=
    invCount_swap_adj [p0, p2, p10, p4, p5, p6, p7] [p9, p1, p3] p11 p8 (Ne.symm n8x11)
  have sp7 : invCount [p0, p2, p10, p4, p5, p6, p7, p8, p11, p9, p1, p3] % 2 = (invCount [p0, p2, p10, p4, p5, p6, p7, p8, p9, p11, p1, p3] + 1) % 2 :=
    invCount_swap_adj [p0, p2, p10, p4, p5, p6, p7, p8] [p1, p3] p11 p9 (Ne.symm n9x11)
  have sp8 : invCount [p0, p2, p10, p4, p5, p6, p7, p8, p9, p11, p1, p3] % 2 = (invCount [p0, p2, p10, p4, p5, p6, p7, p8, p9, p1, p11, p3] + 1) % 2 :=
    invCount_swap_adj [p0, p2, p10, p4, p5, p6, p7, p8, p9] [p3] p11 p1 (Ne.symm n1x11)
  have sp9 : invCount [p0, p2, p10, p4, p5, p6, p7, p8, p9, p1, p11, p3] % 2 = (invCount [p0, p2, p10, p4, p5, p6, p7, p8, p9, p1, p3, p11] + 1) % 2 :=
    invCount_swap_adj [p0, p2, p10, p4, p5, p6, p7, p8, p9, p1] [] p11 p3 (Ne.symm n3x11)
  have sp10 : invCount [p0, p2, p10, p4, p5, p6, p7, p8, p9, p1, p3, p11] % 2 = (invCount [p0, p2, p4, p10, p5, p6, p7, p8, p9, p1, p3, p11] + 1) % 2 :=
    invCount_swap_adj [p0, p2] [p5, p6, p7, p8, p9, p1, p3, p11] p10 p4 (Ne.symm n4x10)
  have sp11 : invCount [p0, p2, p4, p10, p5, p6, p7, p8, p9, p1, p3, p11] % 2 = (invCount [p0, p2, p4, p5, p10, p6, p7, p8, p9, p1, p3, p11] + 1) % 2 :=
    invCount_swap_adj [p0, p2, p4] [p6, p7, p8, p9, p1, p3, p11] p10 p5 (Ne.symm n5x10)
  have sp12 : invCount [p0, p2, p4, p5, p10, p6, p7, p8, p9, p1, p3, p11] % 2 = (invCount [p0, p2, p4, p5, p6, p10, p7, p8, p9, p1, p3, p11] + 1) % 2 :=
    invCount_swap_adj [p0, p2, p4, p5] [p7, p8, p9, p1, p3, p11] p10 p6 (Ne.symm n6x10)
  have sp13 : invCount [p0, p2, p4, p5, p6, p10, p7, p8, p9, p1, p3, p11] % 2 = (invCount [p0, p2, p4, p5, p6, p7, p10, p8, p9, p1, p3, p11] + 1) % 2 :=
    invCount_swap_adj [p0, p2, p4, p5, p6] [p8, p9, p1, p3, p11] p10 p7 (Ne.symm n7x10)
  have sp14 : invCount [p0, p2, p4, p5, p6, p7, p10, p8, p9, p1, p3, p11] % 2 = (invCount [p0, p2, p4, p5, p6, p7, p8, p10, p9, p1, p3, p11] + 1) % 2 :=
    invCount_swap_adj [p0, p2, p4, p5, p6, p7] [p9, p1, p3, p11] p10 p8 (Ne.symm n8x10)
  have sp15 : invCount [p0, p2, p4, p5, p6, p7, p8, p10, p9, p1, p3, p11] % 2 = (invCount [p0, p2, p4, p5, p6, p7, p8, p9, p10, p1, p3, p11] + 1) % 2 :=
    invCount_swap_adj [p0, p2, p4, p5, p6, p7, p8] [p1, p3, p11] p10 p9 (Ne.symm n9x10)
  have sp16 : invCount [p0, p2, p4, p5, p6, p7, p8, p9, p10, p1, p3, p11] % 2 = (invCount [p0, p2, p4, p5, p6, p7, p8, p9, p1, p10, p3, p11] + 1) % 2 :=
    invCount_swap_adj [p0, p2, p4, p5, p6, p7, p8, p9] [p3, p11] p10 p1 (Ne.symm n1x10)
  have sp17 : invCount [p0, p2, p4, p5, p6, p7, p8, p9, p1, p10, p3, p11] % 2 = (invCount [p0, p2, p4, p5, p6, p7, p8, p9, p1, p3, p10, p11] + 1) % 2 :=
    invCount_swap_adj [p0, p2, p4, p5, p6, p7, p8, p9, p1] [p11] p10 p3 (Ne.symm n3x10)
  have sp18 : invCount [p0, p2, p4, p5, p6, p7, p8, p9, p1, p3, p10, p11] % 2 = (invCount [p0, p2, p4, p5, p6, p7, p8, p1, p9, p3, p10, p11] + 1) % 2 :=
    invCount_swap_adj [p0, p2, p4, p5, p6, p7, p8] [p3, p10, p11] p9 p1 (Ne.symm n1x9)
  have sp19 : invCount [p0, p2, p4, p5, p6, p7, p8, p1, p9, p3, p10, p11] % 2 = (invCount [p0, p2, p4, p5, p6, p7, p8, p1, p3, p9, p10, p11] + 1) % 2 :=
    invCount_swap_adj [p0, p2, p4, p5, p6, p7, p8, p1] [p10, p11] p9 p3 (Ne.symm n3x9)
  have sp20 : invCount [p0, p2, p4, p5, p6, p7, p8, p1, p3, p9, p10, p11] % 2 = (invCount [p0, p2, p4, p5, p6, p7, p1, p8, p3, p9, p10, p11] + 1) % 2 :=
    invCount_swap_adj [p0, p2, p4, p5, p6, p7] [p3, p9, p10, p11] p8 p1 (Ne.symm n1x8)
  have sp21 : invCount [p0, p2, p4, p5, p6, p7, p1, p8, p3, p9, p10, p11] % 2 = (invCount [p0, p2, p4, p5, p6, p7, p1, p3, p8, p9, p10, p11] + 1) % 2 :=
    invCount_swap_adj [p0, p2, p4, p5, p6, p7, p1] [p9, p10, p11] p8 p3 (Ne.symm n3x8)
  have sp22 : invCount [p0, p2, p4, p5, p6, p7, p1, p3, p8, p9, p10, p11] % 2 = (invCount [p0, p2, p4, p5, p6, p1, p7, p3, p8, p9, p10, p11] + 1) % 2 :=
    invCount_swap_adj [p0, p2, p4, p5, p6] [p3, p8, p9, p10, p11] p7 p1 (Ne.symm n1x7)
  have sp23 : invCount [p0, p2, p4, p5, p6, p1, p7, p3, p8, p9, p10, p11] % 2 = (invCount [p0, p2, p4, p5, p6, p1, p3, p7, p8, p9, p10, p11] + 1) % 2 :=
    invCount_swap_adj [p0, p2, p4, p5, p6, p1] [p8, p9, p10, p11] p7 p3 (Ne.symm n3x7)
  have sp24 : invCount [p0, p2, p4, p5, p6, p1, p3, p7, p8, p9, p10, p11] % 2 = (invCount [p0, p2, p4, p5, p1, p6, p3, p7, p8, p9, p10, p11] + 1) % 2 :=
    invCount_swap_adj [p0, p2, p4, p5] [p3, p7, p8, p9, p10, p11] p6 p1 (Ne.symm n1x6)
  have sp25 : invCount [p0, p2, p4, p5, p1, p6, p3, p7, p8, p9, p10, p11] % 2 = (invCount [p0, p2, p4, p5, p1, p3, p6, p7, p8, p9, p10, p11] + 1) % 2 :=
    invCount_swap_adj [p0, p2, p4, p5, p1] [p7, p8, p9, p10, p11] p6 p3 (Ne.symm n3x6)
  have sp26 : invCount [p0, p2, p4, p5, p1, p3, p6, p7, p8, p9, p10, p11] % 2 = (invCount [p0, p2, p4, p1, p5, p3, p6, p7, p8, p9, p10, p11] + 1) % 2 :=
    invCount_swap_adj [p0, p2, p4] [p3, p6, p7, p8, p9, p10, p11] p5 p1 (Ne.symm n1x5)
  have sp27 : invCount [p0, p2, p4, p1, p5, p3, p6, p7, p8, p9, p10, p11] % 2 = (invCount [p0, p2, p4, p1, p3, p5, p6, p7, p8, p9, p10, p11] + 1) % 2 :=
    invCount_swap_adj [p0, p2, p4, p1] [p6, p7, p8, p9, p10, p11] p5 p3 (Ne.symm n3x5)
  have sp28 : invCount [p0, p2, p4, p1, p3, p5, p6, p7, p8, p9, p10, p11] % 2 = (invCount [p0, p2, p1, p4, p3, p5, p6, p7, p8, p9, p10, p11] + 1) % 2 :=
    invCount_swap_adj [p0, p2] [p3, p5, p6, p7, p8, p9, p10, p11] p4 p1 (Ne.symm n1x4)
  have sp29 : invCount [p0, p2, p1, p4, p3, p5, p6, p7, p8, p9, p10, p11] % 2 = (invCount [p0, p2, p1, p3, p4, p5, p6, p7, p8, p9, p10, p11] + 1) % 2 :=
    invCount_swap_adj [p0, p2, p1] [p5, p6, p7, p8, p9, p10, p11] p4 p3 (Ne.symm n3x4)
  have sp30 : invCount [p0, p2, p1, p3, p4, p5, p6, p7, p8, p9, p10, p11] % 2 = (invCount [p0, p1, p2, p3, p4, p5, p6, p7, p8, p9, p10, p11] + 1) % 2 :=
    invCount_swap_adj [p0] [p3, p4, p5, p6, p7, p8, p9, p10, p11] p2 p1 (Ne.symm n1x2)
  have sq0 : List.Perm [p0, p11, p2, p10, p4, p5, p6, p7, p8, p9, p1, p3] [p0, p2, p11, p10, p4, p5, p6, p7, p8, p9, p1, p3] :=
    List.Perm.append_left [p0] (List.Perm.swap p2 p11 [p10, p4, p5, p6, p7, p8, p9, p1, p3])
  have sq1 : List.Perm [p0, p2, p11, p10, p4, p5, p6, p7, p8, p9, p1, p3] [p0, p2, p10, p11, p4, p5, p6, p7, p8, p9, p1, p3] :=
    List.Perm.append_left [p0, p2] (List.Perm.swap p10 p11 [p4, p5, p6, p7, p8, p9, p1, p3])
  have sq2 : List.Perm [p0, p2, p10, p11, p4, p5, p6, p7, p8, p9, p1, p3] [p0, p2, p10, p4, p11, p5, p6, p7, p8, p9, p1, p3] :=
    List.Perm.append_left [p0, p2, p10] (List.Perm.swap p4 p11 [p5, p6, p7, p8, p9, p1, p3])
  have sq3 : List.Perm [p0, p2, p10, p4, p11, p5, p6, p7, p8, p9, p1, p3] [p0, p2, p10, p4, p5, p11, p6, p7, p8, p9, p1, p3] :=
    List.Perm.append_left [p0, p2, p10, p4] (List.Perm.swap p5 p11 [p6, p7, p8, p9, p1, p3])
  have sq4 : List.Perm [p0, p2, p10, p4, p5, p11, p6, p7, p8, p9, p1, p3] [p0, p2, p10, p4, p5, p6, p11, p7, p8, p9, p1, p3] :=
    List.Perm.append_left [p0, p2, p10, p4, p5] (List.Perm.swap p6 p11 [p7, p8, p9, p1, p3])
  have sq5 : List.Perm [p0, p2, p10, p4, p5, p6, p11, p7, p8, p9, p1, p3] [p0, p2, p10, p4, p5, p6, p7, p11, p8, p9, p1, p3] :=
    List.Perm.append_left [p0, p2, p10, p4, p5, p6] (List.Perm.swap p7 p11 [p8, p9, p1, p3])
  have sq6 : List.Perm [p0, p2, p10, p4, p5, p6, p7, p11, p8, p9, p1, p3] [p0, p2, p10, p4, p5, p6, p7, p8, p11, p9, p1, p3] :=
    List.Perm.append_left [p0, p2, p10, p4, p5, p6, p7] (List.Perm.swap p8 p11 [p9, p1, p3])
  have sq7 : List.Perm [p0, p2, p10, p4, p5, p6, p7, p8, p11, p9, p1, p3] [p0, p2, p10, p4, p5, p6, p7, p8, p9, p11, p1, p3] :=
    List.Perm.append_left [p0, p2, p10, p4, p5, p6, p7, p8] (List.Perm.swap p9 p11 [p1, p3])
  have sq8 : List.Perm [p0, p2, p10, p4, p5, p6, p7, p8, p9, p11, p1, p3] [p0, p2, p10, p4, p5, p6, p7, p8, p9, p1, p11, p3] :=
    List.Perm.append_left [p0, p2, p10, p4, p5, p6, p7, p8, p9] (List.Perm.swap p1 p11 [p3])
  have sq9 : List.Perm [p0, p2, p10, p4, p5, p6, p7, p8, p9, p1, p11, p3] [p0, p2, p10, p4, p5, p6, p7, p8, p9, p1, p3, p11] :=
    List.Perm.append_left [p0, p2, p10, p4, p5, p6, p7, p8, p9, p1] (List.Perm.swap p3 p11 [])
  have sq10 : List.Perm [p0, p2, p10, p4, p5, p6, p7, p8, p9, p1, p3, p11] [p0, p2, p4, p10, p5, p6, p7, p8, p9, p1, p3, p11] :=
    List.Perm.append_left [p0, p2] (List.Perm.swap p4 p10 [p5, p6, p7, p8, p9, p1, p3, p11])
  have sq11 : List.Perm [p0, p2, p4, p10, p5, p6, p7, p8, p9, p1, p3, p11] [p0, p2, p4, p5, p10, p6, p7, p8, p9, p1, p3, p11] :=
    List.Perm.append_left [p0, p2, p4] (List.Perm.swap p5 p10 [p6, p7, p8, p9, p1, p3, p11])
  have sq12 : List.Perm [p0, p2, p4, p5, p10, p6, p7, p8, p9, p1, p3, p11] [p0, p2, p4, p5, p6, p10, p7, p8, p9, p1, p3, p11] :=
    List.Perm.append_left [p0, p2, p4, p5] (List.Perm.swap p6 p10 [p7, p8, p9, p1, p3, p11])
  have sq13 : List.Perm [p0, p2, p4, p5, p6, p10, p7, p8, p9, p1, p3, p11] [p0, p2, p4, p5, p6, p7, p10, p8, p9, p1, p3, p11] :=
    List.Perm.append_left [p0, p2, p4, p5, p6] (List.Perm.swap p7 p10 [p8, p9, p1, p3, p11])
  have sq14 : List.Perm [p0, p2, p4, p5, p6, p7, p10, p8, p9, p1, p3, p11] [p0, p2, p4, p5, p6, p7, p8, p10, p9, p1, p3, p11] :=
    List.Perm.append_left [p0, p2, p4, p5, p6, p7] (List.Perm.swap p8 p10 [p9, p1, p3, p11])
  have sq15 : List.Perm [p0, p2, p4, p5, p6, p7, p8, p10, p9, p1, p3, p11] [p0, p2, p4, p5, p6, p7, p8, p9, p10, p1, p3, p11] :=
    List.Perm.append_left [p0, p2, p4, p5, p6, p7, p8] (List.Perm.swap p9 p10 [p1, p3, p11])
  have sq16 : List.Perm [p0, p2, p4, p5, p6, p7, p8, p9, p10, p1, p3, p11] [p0, p2, p4, p5, p6, p7, p8, p9, p1, p10, p3, p11] :=
    List.Perm.append_left [p0, p2, p4, p5, p6, p7, p8, p9] (List.Perm.swap p1 p10 [p3, p11])
  have sq17 : List.Perm [p0, p2, p4, p5, p6, p7, p8, p9, p1, p10, p3, p11] [p0, p2, p4, p5, p6, p7, p8, p9, p1, p3, p10, p11] :=
    List.Perm.append_left [p0, p2, p4, p5, p6, p7, p8, p9, p1] (List.Perm.swap p3 p10 [p11])
  have sq18 : List.Perm [p0, p2, p4, p5, p6, p7, p8, p9, p1, p3, p10, p11] [p0, p2, p4, p5, p6, p7, p8, p1, p9, p3, p10, p11] :=
    List.Perm.append_left [p0, p2, p4, p5, p6, p7, p8] (List.Perm.swap p1 p9 [p3, p10, p11])
  have sq19 : List.Perm [p0, p2, p4, p5, p6, p7, p8, p1, p9, p3, p10, p11] [p0, p2, p4, p5, p6, p7, p8, p1, p3, p9, p10, p11] :=
    List.Perm.append_left [p0, p2, p4, p5, p6, p7, p8, p1] (List.Perm.swap p3 p9 [p10, p11])
  have sq20 : List.Perm [p0, p2, p4, p5, p6, p7, p8, p1, p3, p9, p10, p11] [p0, p2, p4, p5, p6, p7, p1, p8, p3, p9, p10, p11] :=
    List.Perm.append_left [p0, p2, p4, p5, p6, p7] (List.Perm.swap p1 p8 [p3, p9, p10, p11])
  have sq21 : List.Perm [p0, p2, p4, p5, p6, p7, p1, p8, p3, p9, p10, p11] [p0, p2, p4, p5, p6, p7, p1, p3, p8, p9, p10, p11] :=
    List.Perm.append_left [p0, p2, p4, p5, p6, p7, p1] (List.Perm.swap p3 p8 [p9, p10, p11])
  have sq22 : List.Perm [p0, p2, p4, p5, p6, p7, p1, p3, p8, p9, p10, p11] [p0, p2, p4, p5, p6, p1, p7, p3, p8, p9, p10, p11] :=
    List.Perm.append_left [p0, p2, p4, p5, p6] (List.Perm.swap p1 p7 [p3, p8, p9, p10, p11])
  have sq23 : List.Perm [p0, p2, p4, p5, p6, p1, p7, p3, p8, p9, p10, p11] [p0, p2, p4, p5, p6, p1, p3, p7, p8, p9, p10, p11] :=
    List.Perm.append_left [p0, p2, p4, p5, p6, p1] (List.Perm.swap p3 p7 [p8, p9, p10, p11])
  have sq24 : List.Perm [p0, p2, p4, p5, p6, p1, p3, p7, p8, p9, p10, p11] [p0, p2, p4, p5, p1, p6, p3, p7, p8, p9, p10, p11] :=
    List.Perm.append_left [p0, p2, p4, p5] (List.Perm.swap p1 p6 [p3, p7, p8, p9, p10, p11])
  have sq25 : List.Perm [p0, p2, p4, p5, p1, p6, p3, p7, p8, p9, p10, p11] [p0, p2, p4, p5, p1, p3, p6, p7, p8, p9, p10, p11] :=
    List.Perm.append_left [p0, p2, p4, p5, p1] (List.Perm.swap p3 p6 [p7, p8, p9, p10, p11])
  have sq26 : List.Perm [p0, p2, p4, p5, p1, p3, p6, p7, p8, p9, p10, p11] [p0, p2, p4, p1, p5, p3, p6, p7, p8, p9, p10, p11] :=
    List.Perm.append_left [p0, p2, p4] (List.Perm.swap p1 p5 [p3, p6, p7, p8, p9, p10, p11])
  have sq27 : List.Perm [p0, p2, p4, p1, p5, p3, p6, p7, p8, p9, p10, p11] [p0, p2, p4, p1, p3, p5, p6, p7, p8, p9, p10, p11] :=
    List.Perm.append_left [p0, p2, p4, p1] (List.Perm.swap p3 p5 [p6, p7, p8, p9, p10, p11])
  have sq28 : List.Perm [p0, p2, p4, p1, p3, p5, p6, p7, p8, p9, p10, p11] [p0, p2, p1, p4, p3, p5, p6, p7, p8, p9, p10, p11] :=
    List.Perm.append_left [p0, p2] (List.Perm.swap p1 p4 [p3, p5, p6, p7, p8, p9, p10, p11])
  have sq29 : List.Perm [p0, p2, p1, p4, p3, p5, p6, p7, p8, p9, p10, p11] [p0, p2, p1, p3, p4, p5, p6, p7, p8, p9, p10, p11] :=
    List.Perm.append_left [p0, p2, p1] (List.Perm.swap p3 p4 [p5, p6, p7, p8, p9, p10, p11])
  have sq30 : List.Perm [p0, p2, p1, p3, p4, p5, p6, p7, p8, p9, p10, p11] [p0, p1, p2, p3, p4, p5, p6, p7, p8, p9, p10, p11] :=
    List.Perm.append_left [p0] (List.Perm.swap p1 p2 [p3, p4, p5, p6, p7, p8, p9, p10, p11])
  refine ⟨((sq0.trans (sq1.trans (sq2.trans (sq3.trans (sq4.trans (sq5.trans (sq6.trans (sq7.trans (sq8.trans (sq9.trans (sq10.trans (sq11.trans (sq12.trans (sq13.trans (sq14.trans (sq15.trans (sq16.trans (sq17.trans (sq18.trans (sq19.trans (sq20.trans (sq21.trans (sq22.trans (sq23.trans (sq24.trans (sq25.trans (sq26.trans (sq27.trans (sq28.trans (sq29.trans sq30))))))))))))))))))))))))))))))).trans hp, ?_⟩
  omega


theorem cposStepB {p0 p1 p2 p3 p4 p5 p6 p7 : Nat}
    (hp : List.Perm [p0, p1, p2, p3, p4, p5, p6, p7] (List.range 8)) :
    List.Perm [p0, p1, p2, p3, p6, p4, p7, p5] (List.range 8) ∧
    invCount [p0, p1, p2, p3, p6, p4, p7, p5] % 2 = (invCount [p0, p1, p2, p3, p4, p5, p6, p7] + 1) % 2 := by
  have hnd := hp.symm.nodup (List.nodup_range 8)
  simp only [List.nodup_cons, List.mem_cons, List.not_mem_nil, not_or, List.nodup_nil,
    and_true, or_false] at hnd
  obtain ⟨⟨n0x1,n0x2,n0x3,n0x4,n0x5,n0x6,n0x7⟩, ⟨n1x2,n1x3,n1x4,n1x5,n1x6,n1x7⟩, ⟨n2x3,n2x4,n2x5,n2x6,n2x7⟩, ⟨n3x4,n3x5,n3x6,n3x7⟩, ⟨n4x5,n4x6,n4x7⟩, ⟨n5x6,n5x7⟩, n6x7, _⟩ := hnd
  have sp0 : invCount [p0, p1, p2, p3, p6, p4, p7, p5] % 2 = (invCount [p0, p1, p2, p3, p4, p6, p7, p5] + 1) % 2 :=
    invCount_swap_adj [p0, p1, p2, p3] [p7, p5] p6 p4 (Ne.symm n4x6)
  have sp1 : invCount [p0, p1, p2, p3, p4, p6, p7, p5] % 2 = (invCount [p0, p1, p2, p3, p4, p6, p5, p7] + 1) % 2 :=
    invCount_swap_adj [p0, p1, p2, p3, p4, p6] [] p7 p5 (Ne.symm n5x7)
  have sp2 : invCount [p0, p1, p2, p3, p4, p6, p5, p7] % 2 = (invCount [p0, p1, p2, p3, p4, p5, p6, p7] + 1) % 2 :=
    invCount_swap_adj [p0, p1, p2, p3, p4] [p7] p6 p5 (Ne.symm n5x6)
  have sq0 : List.Perm [p0, p1, p2, p3, p6, p4, p7, p5] [p0, p1, p2, p3, p4, p6, p7, p5] :=
    List.Perm.append_left [p0, p1, p2, p3] (List.Perm.swap p4 p6 [p7, p5])
  have sq1 : List.Perm [p0, p1, p2, p3, p4, p6, p7, p5] [p0, p1, p2, p3, p4, p6, p5, p7] :=
    List.Perm.append_left [p0, p1, p2, p3, p4, p6] (List.Perm.swap p5 p7 [])
  have sq2 : List.Perm [p0, p1, p2, p3, p4, p6, p5, p7] [p0, p1, p2, p3, p4, p5, p6, p7] :=
    List.Perm.append_left [p0, p1, p2, p3, p4] (List.Perm.swap p5 p6 [p7])
  refine ⟨((sq0.trans (sq1.trans sq2))).trans hp, ?_⟩
  omega


theorem eposStepB {p0 p1 p2 p3 p4 p5 p6 p7 p8 p9 p10 p11 : Nat}
    (hp : List.Perm [p0, p1, p2, p3, p4, p5, p6, p7, p8, p9, p10, p11] (List.range 12)) :
    List.Perm [p0, p1, p5, p7, p4, p3, p6, p2, p8, p9, p10, p11] (List.range 12) ∧
    invCount [p0, p1, p5, p7, p4, p3, p6, p2, p8, p9, p10, p11] % 2 = (invCount [p0, p1, p2, p3, p4, p5, p6, p7, p8, p9, p10, p11] + 1) % 2 := by
  have hnd := hp.symm.nodup (List.nodup_range 12)
  simp only [List.nodup_cons, List.mem_cons, List.not_mem_nil, not_or, List.nodup_nil,
    and_true, or_false] at hnd
  obtain ⟨⟨n0x1,n0x2,n0x3,n0x4,n0x5,n0x6,n0x7,n0x8,n0x9,n0x10,n0x11⟩, ⟨n1x2,n1x3,n1x4,n1x5,n1x6,n1x7,n1x8,n1x9,n1x10,n1x11⟩, ⟨n2x3,n2x4,n2x5,n2x6,n2x7,n2x8,n2x9,n2x10,n2x11⟩, ⟨n3x4,n3x5,n3x6,n3x7,n3x8,n3x9,n3x10,n3x11⟩, ⟨n4x5,n4x6,n4x7,n4x8,n4x9,n4x10,n4x11⟩, ⟨n5x6,n5x7,n5x8,n5x9,n5x10,n5x11⟩, ⟨n6x7,n6x8,n6x9,n6x10,n6x11⟩, ⟨n7x8,n7x9,n7x10,n7x11⟩, ⟨n8x9,n8x10,n8x11⟩, ⟨n9x10,n9x11⟩, n10x11, _⟩ := hnd
  have sp0 : invCount [p0, p1, p5, p7, p4, p3, p6, p2, p8, p9, p10, p11] % 2 = (invCount [p0, p1, p5, p4, p7, p3, p6, p2, p8, p9, p10, p11] + 1) % 2 :=
    invCount_swap_adj [p0, p1, p5] [p3, p6, p2, p8, p9, p10, p11] p7 p4 (Ne.symm n4x7)
  have sp1 : invCount [p0, p1, p5, p4, p7, p3, p6, p2, p8, p9, p10, p11] % 2 = (invCount [p0, p1, p5, p4, p3, p7, p6, p2, p8, p9, p10, p11] + 1) % 2 :=
    invCount_swap_adj [p0, p1, p5, p4] [p6, p2, p8, p9, p10, p11] p7 p3 (Ne.symm n3x7)
  have sp2 : invCount [p0, p1, p5, p4, p3, p7, p6, p2, p8, p9, p10, p11] % 2 = (invCount [p0, p1, p5, p4, p3, p6, p7, p2, p8, p9, p10, p11] + 1) % 2 :=
    invCount_swap_adj [p0, p1, p5, p4, p3] [p2, p8, p9, p10, p11] p7 p6 (Ne.symm n6x7)
  have sp3 : invCount [p0, p1, p5, p4, p3, p6, p7, p2, p8, p9, p10, p11] % 2 = (invCount [p0, p1, p5, p4, p3, p6, p2, p7, p8, p9, p10, p11] + 1) % 2 :=
    invCount_swap_adj [p0, p1, p5, p4, p3, p6] [p8, p9, p10, p11] p7 p2 (Ne.symm n2x7)
  have sp4 : invCount [p0, p1, p5, p4, p3, p6, p2, p7, p8, p9, p10, p11] % 2 = (invCount [p0, p1, p4, p5, p3, p6, p2, p7, p8, p9, p10, p11] + 1) % 2 :=
    invCount_swap_adj [p0, p1] [p3, p6, p2, p7, p8, p9, p10, p11] p5 p4 (Ne.symm n4x5)
  have sp5 : invCount [p0, p1, p4, p5, p3, p6, p2, p7, p8, p9, p10, p11] % 2 = (invCount [p0, p1, p4, p3, p5, p6, p2, p7, p8, p9, p10, p11] + 1) % 2 :=
    invCount_swap_adj [p0, p1, p4] [p6, p2, p7, p8, p9, p10, p11] p5 p3 (Ne.symm n3x5)
  have sp6 : invCount [p0, p1, p4, p3, p5, p6, p2, p7, p8, p9, p10, p11] % 2 = (invCount [p0, p1, p4, p3, p5, p2, p6, p7, p8, p9, p10, p11] + 1) % 2 :=
    invCount_swap_adj [p0, p1, p4, p3, p5] [p7, p8, p9, p10, p11] p6 p2 (Ne.symm n2x6)
  have sp7 : invCount [p0, p1, p4, p3, p5, p2, p6, p7, p8, p9, p10, p11] % 2 = (invCount [p0, p1, p3, p4, p5, p2, p6, p7, p8, p9, p10, p11] + 1) % 2 :=
    invCount_swap_adj [p0, p1] [p5, p2, p6, p7, p8, p9, p10, p11] p4 p3 (Ne.symm n3x4)
  have sp8 : invCount [p0, p1, p3, p4, p5, p2, p6, p7, p8, p9, p10, p11] % 2 = (invCount [p0, p1, p3, p4, p2, p5, p6, p7, p8, p9, p10, p11] + 1) % 2 :=
    invCount_swap_adj [p0, p1, p3, p4] [p6, p7, p8, p9, p10, p11] p5 p2 (Ne.symm n2x5)
  have sp9 : invCount [p0, p1, p3, p4, p2, p5, p6, p7, p8, p9, p10, p11] % 2 = (invCount [p0, p1, p3, p2, p4, p5, p6, p7, p8, p9, p10, p11] + 1) % 2 :=
    invCount_swap_adj [p0, p1, p3] [p5, p6, p7, p8, p9, p10, p11] p4 p2 (Ne.symm n2x4)
  have sp10 : invCount [p0, p1, p3, p2, p4, p5, p6, p7, p8, p9, p10, p11] % 2 = (invCount [p0, p1, p2, p3, p4, p5, p6, p7, p8, p9, p10, p11] + 1) % 2 :=
    invCount_swap_adj [p0, p1] [p4, p5, p6, p7, p8, p9, p10, p11] p3 p2 (Ne.symm n2x3)
  have sq0 : List.Perm [p0, p1, p5, p7, p4, p3, p6, p2, p8, p9, p10, p11] [p0, p1, p5, p4, p7, p3, p6, p2, p8, p9, p10, p11] :=
    List.Perm.append_left [p0, p1, p5] (List.Perm.swap p4 p7 [p3, p6, p2, p8, p9, p10, p11])
  have sq1 : List.Perm [p0, p1, p5, p4, p7, p3, p6, p2, p8, p9, p10, p11] [p0, p1, p5, p4, p3, p7, p6, p2, p8, p9, p10, p11] :=
    List.Perm.append_left [p0, p1, p5, p4] (List.Perm.swap p3 p7 [p6, p2, p8, p9, p10, p11])
  have sq2 : List.Perm [p0, p1, p5, p4, p3, p7, p6, p2, p8, p9, p10, p11] [p0, p1, p5, p4, p3, p6, p7, p2, p8, p9, p10, p11] :=
    List.Perm.append_left [p0, p1, p5, p4, p3] (List.Perm.swap p6 p7 [p2, p8, p9, p10, p11])
  have sq3 : List.Perm [p0, p1, p5, p4, p3, p6, p7, p2, p8, p9, p10, p11] [p0, p1, p5, p4, p3, p6, p2, p7, p8, p9, p10, p11] :=
    List.Perm.append_left [p0, p1, p5, p4, p3, p6] (List.Perm.swap p2 p7 [p8, p9, p10, p11])
  have sq4 : List.Perm [p0, p1, p5, p4, p3, p6, p2, p7, p8, p9, p10, p11] [p0, p1, p4, p5, p3, p6, p2, p7, p8, p9, p10, p11] :=
    List.Perm.append_left [p0, p1] (List.Perm.swap p4 p5 [p3, p6, p2, p7, p8, p9, p10, p11])
  have sq5 : List.Perm [p0, p1, p4, p5, p3, p6, p2, p7, p8, p9, p10, p11] [p0, p1, p4, p3, p5, p6, p2, p7, p8, p9, p10, p11] :=
    List.Perm.append_left [p0, p1, p4] (List.Perm.swap p3 p5 [p6, p2, p7, p8, p9, p10, p11])
  have sq6 : List.Perm [p0, p1, p4, p3, p5, p6, p2, p7, p8, p9, p10, p11] [p0, p1, p4, p3, p5, p2, p6, p7, p8, p9, p10, p11] :=
    List.Perm.append_left [p0, p1, p4, p3, p5] (List.Perm.swap p2 p6 [p7, p8, p9, p10, p11])
  have sq7 : List.Perm [p0, p1, p4, p3, p5, p2, p6, p7, p8, p9, p10, p11] [p0, p1, p3, p4, p5, p2, p6, p7, p8, p9, p10, p11] :=
    List.Perm.append_left [p0, p1] (List.Perm.swap p3 p4 [p5, p2, p6, p7, p8, p9, p10, p11])
  have sq8 : List.Perm [p0, p1, p3, p4, p5, p2, p6, p7, p8, p9, p10, p11] [p0, p1, p3, p4, p2, p5, p6, p7, p8, p9, p10, p11] :=
    List.Perm.append_left [p0, p1, p3, p4] (List.Perm.swap p2 p5 [p6, p7, p8, p9, p10, p11])
  have sq9 : List.Perm [p0, p1, p3, p4, p2, p5, p6, p7, p8, p9, p10, p11] [p0, p1, p3, p2, p4, p5, p6, p7, p8, p9, p10, p11] :=
    List.Perm.append_left [p0, p1, p3] (List.Perm.swap p2 p4 [p5, p6, p7, p8, p9, p10, p11])
  have sq10 : List.Perm [p0, p1, p3, p2, p4, p5, p6, p7, p8, p9, p10, p11] [p0, p1, p2, p3, p4, p5, p6, p7, p8, p9, p10, p11] :=
    List.Perm.append_left [p0, p1] (List.Perm.swap p2 p3 [p4, p5, p6, p7, p8, p9, p10, p11])
  refine ⟨((sq0.trans (sq1.trans (sq2.trans (sq3.trans (sq4.trans (sq5.trans (sq6.trans (sq7.trans (sq8.trans (sq9.trans sq10))))))))))).trans hp, ?_⟩
  omega


theorem c3_step_R (c : Cube) (hv : c.Valid) (hi : CubeInv c) :
    (c.movSingle mR).Valid ∧ CubeInv (c.movSingle mR) := by
  obtain ⟨cor, ed⟩ := c
  obtain ⟨h8, h12, hc, he⟩ := hv
  obtain ⟨c0,c1,c2,c3,c4,c5,c6,c7, rfl⟩ := exists_list8 cor h8
  obtain ⟨e0,e1,e2,e3,e4,e5,e6,e7,e8,e9,e10,e11, rfl⟩ := exists_list12 ed h12
  obtain ⟨b0,b1,b2,b3,b4,b5,b6,b7⟩ := corner_bounds hc
  obtain ⟨q0,q1,q2,q3,q4,q5,q6,q7,q8,q9,q10,q11⟩ := edge_bounds he
  simp only [CubeInv, cornerPositions, edgePositions, List.map_cons, List.map_nil,
    List.sum_cons, List.sum_nil] at hi
  obtain ⟨hs3, hs2, hpc, hpe, hpar⟩ := hi
  have mc0 : ((c2 + 16) % 24) &&& 7 = c2 &&& 7 := by
    rw [and7_eq, and7_eq]; omega
  have mc2 : ((c6 + 8) % 24) &&& 7 = c6 &&& 7 := by
    rw [and7_eq, and7_eq]; omega
  have mc4 : ((c0 + 8) % 24) &&& 7 = c0 &&& 7 := by
    rw [and7_eq, and7_eq]; omega
  have mc6 : ((c4 + 16) % 24) &&& 7 = c4 &&& 7 := by
    rw [and7_eq, and7_eq]; omega
  simp only [Cube.movSingle]
  rw [cornerNF_R, edgeNF_R]
  simp only [Nat.xor_zero]
  refine ⟨⟨rfl, rfl, ?_, ?_⟩, ?_, ?_, ?_, ?_, ?_⟩
  · exact (forall_mem_list8 (P := CornerOk)).2 (by omega)
  · exact (forall_mem_list12 (P := EdgeOk)).2 ⟨q0, q1, q2, q3, q10, q8, q6, q7, q4, q9, q5, q11⟩
  · simp only [List.map_cons, List.map_nil, List.sum_cons, List.sum_nil,
      shr3_eq, and3_eq] at hs3 ⊢
    omega
  · simp only [List.map_cons, List.map_nil, List.sum_cons, List.sum_nil,
      shr4_eq, and1_eq] at hs2 ⊢
    omega
  · simp only [cornerPositions, List.map_cons, List.map_nil]
    rw [mc0, mc2, mc4, mc6]
    exact (cposStepR hpc).1
  · simp only [edgePositions, List.map_cons, List.map_nil]
    exact (eposStepR hpe).1
  · simp only [cornerPositions, edgePositions, List.map_cons, List.map_nil]
    rw [mc0, mc2, mc4, mc6]
    have hc2 := (cposStepR hpc).2
    have he2 := (eposStepR hpe).2
    omega


theorem c3_step_U (c : Cube) (hv : c.Valid) (hi : CubeInv c) :
    (c.movSingle mU).Valid ∧ CubeInv (c.movSingle mU) := by
  obtain ⟨cor, ed⟩ := c
  obtain ⟨h8, h12, hc, he⟩ := hv
  obtain ⟨c0,c1,c2,c3,c4,c5,c6,c7, rfl⟩ := exists_list8 cor h8
  obtain ⟨e0,e1,e2,e3,e4,e5,e6,e7,e8,e9,e10,e11, rfl⟩ := exists_list12 ed h12
  obtain ⟨b0,b1,b2,b3,b4,b5,b6,b7⟩ := corner_bounds hc
  obtain ⟨q0,q1,q2,q3,q4,q5,q6,q7,q8,q9,q10,q11⟩ := edge_bounds he
  simp only [CubeInv, cornerPositions, edgePositions, List.map_cons, List.map_nil,
    List.sum_cons, List.sum_nil] at hi
  obtain ⟨hs3, hs2, hpc, hpe, hpar⟩ := hi
  have mc0 : (c4 % 24) &&& 7 = c4 &&& 7 := by
    rw [and7_eq, and7_eq]; omega
  have mc1 : (c0 % 24) &&& 7 = c0 &&& 7 := by
    rw [and7_eq, and7_eq]; omega
  have mc4 : (c5 % 24) &&& 7 = c5 &&& 7 := by
    rw [and7_eq, and7_eq]; omega
  have mc5 : (c1 % 24) &&& 7 = c1 &&& 7 := by
    rw [and7_eq, and7_eq]; omega
  simp only [Cube.movSingle]
  rw [cornerNF_U, edgeNF_U]
  simp only [Nat.xor_zero]
  refine ⟨⟨rfl, rfl, ?_, ?_⟩, ?_, ?_, ?_, ?_, ?_⟩
  · exact (forall_mem_list8 (P := CornerOk)).2 (by omega)
  · exact (forall_mem_list12 (P := EdgeOk)).2 ⟨q8, q1, q9, q3, q4, q5, q6, q7, q2, q0, q10, q11⟩
  · simp only [List.map_cons, List.map_nil, List.sum_cons, List.sum_nil,
      shr3_eq, and3_eq] at hs3 ⊢
    omega
  · simp only [List.map_cons, List.map_nil, List.sum_cons, List.sum_nil,
      shr4_eq, and1_eq] at hs2 ⊢
    omega
  · simp only [cornerPositions, List.map_cons, List.map_nil]
    rw [mc0, mc1, mc4, mc5]
    exact (cposStepU hpc).1
  · simp only [edgePositions, List.map_cons, List.map_nil]
    exact (eposStepU hpe).1
  · simp only [cornerPositions, edgePositions, List.map_cons, List.map_nil]
    rw [mc0, mc1, mc4, mc5]
    have hc2 := (cposStepU hpc).2
    have he2 := (eposStepU hpe).2
    omega


theorem c3_step_F (c : Cube) (hv : c.Valid) (hi : CubeInv c) :
    (c.movSingle mF).Valid ∧ CubeInv (c.movSingle mF) := by
  obtain ⟨cor, ed⟩ := c
  obtain ⟨h8, h12, hc, he⟩ := hv
  obtain ⟨c0,c1,c2,c3,c4,c5,c6,c7, rfl⟩ := exists_list8 cor h8
  obtain ⟨e0,e1,e2,e3,e4,e5,e6,e7,e8,e9,e10,e11, rfl⟩ := exists_list12 ed h12
  obtain ⟨b0,b1,b2,b3,b4,b5,b6,b7⟩ := corner_bounds hc
  obtain ⟨q0,q1,q2,q3,q4,q5,q6,q7,q8,q9,q10,q11⟩ := edge_bounds he
  simp only [CubeInv, cornerPositions, edgePositions, List.map_cons, List.map_nil,
    List.sum_cons, List.sum_nil] at hi
  obtain ⟨hs3, hs2, hpc, hpe, hpar⟩ := hi
  have mc0 : ((c1 + 8) % 24) &&& 7 = c1 &&& 7 := by
    rw [and7_eq, and7_eq]; omega
  have mc1 : ((c3 + 16) % 24) &&& 7 = c3 &&& 7 := by
    rw [and7_eq, and7_eq]; omega
  have mc2 : ((c0 + 16) % 24) &&& 7 = c0 &&& 7 := by
    rw [and7_eq, and7_eq]; omega
  have mc3 : ((c2 + 8) % 24) &&& 7 = c2 &&& 7 := by
    rw [and7_eq, and7_eq]; omega
  simp only [Cube.movSingle]
  rw [cornerNF_F, edgeNF_F]
  refine ⟨⟨rfl, rfl, ?_, ?_⟩, ?_, ?_, ?_, ?_, ?_⟩
  · exact (forall_mem_list8 (P := CornerOk)).2 (by omega)
  · exact (forall_mem_list12 (P := EdgeOk)).2 ⟨edgeOk_xor16 q6, edgeOk_xor16 q4, q2, q3, edgeOk_xor16 q0, q5, edgeOk_xor16 q1, q7, q8, q9, q10, q11⟩
  · simp only [List.map_cons, List.map_nil, List.sum_cons, List.sum_nil,
      shr3_eq, and3_eq] at hs3 ⊢
    omega
  · simp only [List.map_cons, List.map_nil, List.sum_cons, List.sum_nil,
      shr4_eq, and1_eq] at hs2 ⊢
    rw [(xor16_facts e6 q6.1).2.2, (xor16_facts e4 q4.1).2.2, (xor16_facts e0 q0.1).2.2, (xor16_facts e1 q1.1).2.2]
    omega
  · simp only [cornerPositions, List.map_cons, List.map_nil]
    rw [mc0, mc1, mc2, mc3]
    exact (cposStepF hpc).1
  · simp only [edgePositions, List.map_cons, List.map_nil]
    rw [xor16_and15 e6, xor16_and15 e4, xor16_and15 e0, xor16_and15 e1]
    exact (eposStepF hpe).1
  · simp only [cornerPositions, edgePositions, List.map_cons, List.map_nil]
    rw [mc0, mc1, mc2, mc3]
    rw [xor16_and15 e6, xor16_and15 e4, xor16_and15 e0, xor16_and15 e1]
    have hc2 := (cposStepF hpc).2
    have he2 := (eposStepF hpe).2
    omega


theorem c3_step_L (c : Cube) (hv : c.Valid) (hi : CubeInv c) :
    (c.movSingle mL).Valid ∧ CubeInv (c.movSingle mL) := by
  obtain ⟨cor, ed⟩ := c
  obtain ⟨h8, h12, hc, he⟩ := hv
  obtain ⟨c0,c1,c2,c3,c4,c5,c6,c7, rfl⟩ := exists_list8 cor h8
  obtain ⟨e0,e1,e2,e3,e4,e5,e6,e7,e8,e9,e10,e11, rfl⟩ := exists_list12 ed h12
  obtain ⟨b0,b1,b2,b3,b4,b5,b6,b7⟩ := corner_bounds hc
  obtain ⟨q0,q1,q2,q3,q4,q5,q6,q7,q8,q9,q10,q11⟩ := edge_bounds he
  simp only [CubeInv, cornerPositions, edgePositions, List.map_cons, List.map_nil,
    List.sum_cons, List.sum_nil] at hi
  obtain ⟨hs3, hs2, hpc, hpe, hpar⟩ := hi
  have mc1 : ((c5 + 8) % 24) &&& 7 = c5 &&& 7 := by
    rw [and7_eq, and7_eq]; omega
  have mc3 : ((c1 + 16) % 24) &&& 7 = c1 &&& 7 := by
    rw [and7_eq, and7_eq]; omega
  have mc5 : ((c7 + 16) % 24) &&& 7 = c7 &&& 7 := by
    rw [and7_eq, and7_eq]; omega
  have mc7 : ((c3 + 8) % 24) &&& 7 = c3 &&& 7 := by
    rw [and7_eq, and7_eq]; omega
  simp only [Cube.movSingle]
  rw [cornerNF_L, edgeNF_L]
  simp only [Nat.xor_zero]
  refine ⟨⟨rfl, rfl, ?_, ?_⟩, ?_, ?_, ?_, ?_, ?_⟩
  · exact (forall_mem_list8 (P := CornerOk)).2 (by omega)
  · exact (forall_mem_list12 (P := EdgeOk)).2 ⟨q0, q1, q2, q3, q4, q5, q9, q11, q8, q7, q10, q6⟩
  · simp only [List.map_cons, List.map_nil, List.sum_cons, List.sum_nil,
      shr3_eq, and3_eq] at hs3 ⊢
    omega
  · simp only [List.map_cons, List.map_nil, List.sum_cons, List.sum_nil,
      shr4_eq, and1_eq] at hs2 ⊢
    omega
  · simp only [cornerPositions, List.map_cons, List.map_nil]
    rw [mc1, mc3, mc5, mc7]
    exact (cposStepL hpc).1
  · simp only [edgePositions, List.map_cons, List.map_nil]
    exact (eposStepL hpe).1
  · simp only [cornerPositions, edgePositions, List.map_cons, List.map_nil]
    rw [mc1, mc3, mc5, mc7]
    have hc2 := (cposStepL hpc).2
    have he2 := (eposStepL hpe).2
    omega


theorem c3_step_D (c : Cube) (hv : c.Valid) (hi : CubeInv c) :
    (c.movSingle mD).Valid ∧ CubeInv (c.movSingle mD) := by
  obtain ⟨cor, ed⟩ := c
  obtain ⟨h8, h12, hc, he⟩ := hv
  obtain ⟨c0,c1,c2,c3,c4,c5,c6,c7, rfl⟩ := exists_list8 cor h8
  obtain ⟨e0,e1,e2,e3,e4,e5,e6,e7,e8,e9,e10,e11, rfl⟩ := exists_list12 ed h12
  obtain ⟨b0,b1,b2,b3,b4,b5,b6,b7⟩ := corner_bounds hc
  obtain ⟨q0,q1,q2,q3,q4,q5,q6,q7,q8,q9,q10,q11⟩ := edge_bounds he
  simp only [CubeInv, cornerPositions, edgePositions, List.map_cons, List.map_nil,
    List.sum_cons, List.sum_nil] at hi
  obtain ⟨hs3, hs2, hpc, hpe, hpar⟩ := hi
  have mc2 : (c3 % 24) &&& 7 = c3 &&& 7 := by
    rw [and7_eq, and7_eq]; omega
  have mc3 : (c7 % 24) &&& 7 = c7 &&& 7 := by
    rw [and7_eq, and7_eq]; omega
  have mc6 : (c2 % 24) &&& 7 = c2 &&& 7 := by
    rw [and7_eq, and7_eq]; omega
  have mc7 : (c6 % 24) &&& 7 = c6 &&& 7 := by
    rw [and7_eq, and7_eq]; omega
  simp only [Cube.movSingle]
  rw [cornerNF_D, edgeNF_D]
  simp only [Nat.xor_zero]
  refine ⟨⟨rfl, rfl, ?_, ?_⟩, ?_, ?_, ?_, ?_, ?_⟩
  · exact (forall_mem_list8 (P := CornerOk)).2 (by omega)
  · exact (forall_mem_list12 (P := EdgeOk)).2 ⟨q0, q11, q2, q10, q4, q5, q6, q7, q8, q9, q1, q3⟩
  · simp only [List.map_cons, List.map_nil, List.sum_cons, List.sum_nil,
      shr3_eq, and3_eq] at hs3 ⊢
    omega
  · simp only [List.map_cons, List.map_nil, List.sum_cons, List.sum_nil,
      shr4_eq, and1_eq] at hs2 ⊢
    omega
  · simp only [cornerPositions, List.map_cons, List.map_nil]
    rw [mc2, mc3, mc6, mc7]
    exact (cposStepD hpc).1
  · simp only [edgePositions, List.map_cons, List.map_nil]
    exact (eposStepD hpe).1
  · simp only [cornerPositions, edgePositions, List.map_cons, List.map_nil]
    rw [mc2, mc3, mc6, mc7]
    have hc2 := (cposStepD hpc).2
    have he2 := (eposStepD hpe).2
    omega


theorem c3_step_B (c : Cube) (hv : c.Valid) (hi : CubeInv c) :
    (c.movSingle mB).Valid ∧ CubeInv (c.movSingle mB) := by
  obtain ⟨cor, ed⟩ := c
  obtain ⟨h8, h12, hc, he⟩ := hv
  obtain ⟨c0,c1,c2,c3,c4,c5,c6,c7, rfl⟩ := exists_list8 cor h8
  obtain ⟨e0,e1,e2,e3,e4,e5,e6,e7,e8,e9,e10,e11, rfl⟩ := exists_list12 ed h12
  obtain ⟨b0,b1,b2,b3,b4,b5,b6,b7⟩ := corner_bounds hc
  obtain ⟨q0,q1,q2,q3,q4,q5,q6,q7,q8,q9,q10,q11⟩ := edge_bounds he
  simp only [CubeInv, cornerPositions, edgePositions, List.map_cons, List.map_nil,
    List.sum_cons, List.sum_nil] at hi
  obtain ⟨hs3, hs2, hpc, hpe, hpar⟩ := hi
  have mc4 : ((c6 + 16) % 24) &&& 7 = c6 &&& 7 := by
    rw [and7_eq, and7_eq]; omega
  have mc5 : ((c4 + 8) % 24) &&& 7 = c4 &&& 7 := by
    rw [and7_eq, and7_eq]; omega
  have mc6 : ((c7 + 8) % 24) &&& 7 = c7 &&& 7 := by
    rw [and7_eq, and7_eq]; omega
  have mc7 : ((c5 + 16) % 24) &&& 7 = c5 &&& 7 := by
    rw [and7_eq, and7_eq]; omega
  simp only [Cube.movSingle]
  rw [cornerNF_B, edgeNF_B]
  refine ⟨⟨rfl, rfl, ?_, ?_⟩, ?_, ?_, ?_, ?_, ?_⟩
  · exact (forall_mem_list8 (P := CornerOk)).2 (by omega)
  · exact (forall_mem_list12 (P := EdgeOk)).2 ⟨q0, q1, edgeOk_xor16 q5, edgeOk_xor16 q7, q4, edgeOk_xor16 q3, q6, edgeOk_xor16 q2, q8, q9, q10, q11⟩
  · simp only [List.map_cons, List.map_nil, List.sum_cons, List.sum_nil,
      shr3_eq, and3_eq] at hs3 ⊢
    omega
  · simp only [List.map_cons, List.map_nil, List.sum_cons, List.sum_nil,
      shr4_eq, and1_eq] at hs2 ⊢
    rw [(xor16_facts e5 q5.1).2.2, (xor16_facts e7 q7.1).2.2, (xor16_facts e3 q3.1).2.2, (xor16_facts e2 q2.1).2.2]
    omega
  · simp only [cornerPositions, List.map_cons, List.map_nil]
    rw [mc4, mc5, mc6, mc7]
    exact (cposStepB hpc).1
  · simp only [edgePositions, List.map_cons, List.map_nil]
    rw [xor16_and15 e5, xor16_and15 e7, xor16_and15 e3, xor16_and15 e2]
    exact (eposStepB hpe).1
  · simp only [cornerPositions, edgePositions, List.map_cons, List.map_nil]
    rw [mc4, mc5, mc6, mc7]
    rw [xor16_and15 e5, xor16_and15 e7, xor16_and15 e3, xor16_and15 e2]
    have hc2 := (cposStepB hpc).2
    have he2 := (eposStepB hpe).2
    omega

theorem c3_double_R (c : Cube) (hv : c.Valid) :
    c.movSingle mR2 = (c.movSingle mR).movSingle mR := by
  obtain ⟨cor, ed⟩ := c
  obtain ⟨h8, h12, hc, he⟩ := hv
  obtain ⟨c0,c1,c2,c3,c4,c5,c6,c7, rfl⟩ := exists_list8 cor h8
  obtain ⟨e0,e1,e2,e3,e4,e5,e6,e7,e8,e9,e10,e11, rfl⟩ := exists_list12 ed h12
  obtain ⟨b0,b1,b2,b3,b4,b5,b6,b7⟩ := corner_bounds hc
  simp only [Cube.movSingle]
  rw [cornerNF_R2, edgeNF_R2, cornerNF_R, edgeNF_R,
    cornerNF_R, edgeNF_R]
  simp only [Nat.xor_zero]
  simp only [Cube.mk.injEq, List.cons.injEq, and_true, true_and]
  omega

theorem c3_rev_R (c : Cube) (hv : c.Valid) :
    c.movSingle mRP = ((c.movSingle mR).movSingle mR).movSingle mR := by
  obtain ⟨cor, ed⟩ := c
  obtain ⟨h8, h12, hc, he⟩ := hv
  obtain ⟨c0,c1,c2,c3,c4,c5,c6,c7, rfl⟩ := exists_list8 cor h8
  obtain ⟨e0,e1,e2,e3,e4,e5,e6,e7,e8,e9,e10,e11, rfl⟩ := exists_list12 ed h12
  obtain ⟨b0,b1,b2,b3,b4,b5,b6,b7⟩ := corner_bounds hc
  simp only [Cube.movSingle]
  rw [cornerNF_RP, edgeNF_RP, cornerNF_R, edgeNF_R,
    cornerNF_R, edgeNF_R, cornerNF_R, edgeNF_R]
  simp only [Nat.xor_zero]
  simp only [Cube.mk.injEq, List.cons.injEq, and_true, true_and]
  omega

theorem c3_double_U (c : Cube) (hv : c.Valid) :
    c.movSingle mU2 = (c.movSingle mU).movSingle mU := by
  obtain ⟨cor, ed⟩ := c
  obtain ⟨h8, h12, hc, he⟩ := hv
  obtain ⟨c0,c1,c2,c3,c4,c5,c6,c7, rfl⟩ := exists_list8 cor h8
  obtain ⟨e0,e1,e2,e3,e4,e5,e6,e7,e8,e9,e10,e11, rfl⟩ := exists_list12 ed h12
  obtain ⟨b0,b1,b2,b3,b4,b5,b6,b7⟩ := corner_bounds hc
  simp only [Cube.movSingle]
  rw [cornerNF_U2, edgeNF_U2, cornerNF_U, edgeNF_U,
    cornerNF_U, edgeNF_U]
  simp only [Nat.xor_zero]
  simp only [Cube.mk.injEq, List.cons.injEq, and_true, true_and]
  omega

theorem c3_rev_U (c : Cube) (hv : c.Valid) :
    c.movSingle mUP = ((c.movSingle mU).movSingle mU).movSingle mU := by
  obtain ⟨cor, ed⟩ := c
  obtain ⟨h8, h12, hc, he⟩ := hv
  obtain ⟨c0,c1,c2,c3,c4,c5,c6,c7, rfl⟩ := exists_list8 cor h8
  obtain ⟨e0,e1,e2,e3,e4,e5,e6,e7,e8,e9,e10,e11, rfl⟩ := exists_list12 ed h12
  obtain ⟨b0,b1,b2,b3,b4,b5,b6,b7⟩ := corner_bounds hc
  simp only [Cube.movSingle]
  rw [cornerNF_UP, edgeNF_UP, cornerNF_U, edgeNF_U,
    cornerNF_U, edgeNF_U, cornerNF_U, edgeNF_U]
  simp only [Nat.xor_zero]
  simp only [Cube.mk.injEq, List.cons.injEq, and_true, true_and]
  omega

theorem c3_double_F (c : Cube) (hv : c.Valid) :
    c.movSingle mF2 = (c.movSingle mF).movSingle mF := by
  obtain ⟨cor, ed⟩ := c
  obtain ⟨h8, h12, hc, he⟩ := hv
  obtain ⟨c0,c1,c2,c3,c4,c5,c6,c7, rfl⟩ := exists_list8 cor h8
  obtain ⟨e0,e1,e2,e3,e4,e5,e6,e7,e8,e9,e10,e11, rfl⟩ := exists_list12 ed h12
  obtain ⟨b0,b1,b2,b3,b4,b5,b6,b7⟩ := corner_bounds hc
  simp only [Cube.movSingle]
  rw [cornerNF_F2, edgeNF_F2, cornerNF_F, edgeNF_F,
    cornerNF_F, edgeNF_F]
  simp only [Nat.xor_assoc, Nat.xor_self, Nat.xor_zero]
  simp only [Cube.mk.injEq, List.cons.injEq, and_true, true_and]
  omega

theorem c3_rev_F (c : Cube) (hv : c.Valid) :
    c.movSingle mFP = ((c.movSingle mF).movSingle mF).movSingle mF := by
  obtain ⟨cor, ed⟩ := c
  obtain ⟨h8, h12, hc, he⟩ := hv
  obtain ⟨c0,c1,c2,c3,c4,c5,c6,c7, rfl⟩ := exists_list8 cor h8
  obtain ⟨e0,e1,e2,e3,e4,e5,e6,e7,e8,e9,e10,e11, rfl⟩ := exists_list12 ed h12
  obtain ⟨b0,b1,b2,b3,b4,b5,b6,b7⟩ := corner_bounds hc
  simp only [Cube.movSingle]
  rw [cornerNF_FP, edgeNF_FP, cornerNF_F, edgeNF_F,
    cornerNF_F, edgeNF_F, cornerNF_F, edgeNF_F]
  simp only [Nat.xor_assoc, Nat.xor_self, Nat.xor_zero]
  simp only [Cube.mk.injEq, List.cons.injEq, and_true, true_and]
  omega

theorem c3_double_L (c : Cube) (hv : c.Valid) :
    c.movSingle mL2 = (c.movSingle mL).movSingle mL := by
  obtain ⟨cor, ed⟩ := c
  obtain ⟨h8, h12, hc, he⟩ := hv
  obtain ⟨c0,c1,c2,c3,c4,c5,c6,c7, rfl⟩ := exists_list8 cor h8
  obtain ⟨e0,e1,e2,e3,e4,e5,e6,e7,e8,e9,e10,e11, rfl⟩ := exists_list12 ed h12
  obtain ⟨b0,b1,b2,b3,b4,b5,b6,b7⟩ := corner_bounds hc
  simp only [Cube.movSingle]
  rw [cornerNF_L2, edgeNF_L2, cornerNF_L, edgeNF_L,
    cornerNF_L, edgeNF_L]
  simp only [Nat.xor_zero]
  simp only [Cube.mk.injEq, List.cons.injEq, and_true, true_and]
  omega

theorem c3_rev_L (c : Cube) (hv : c.Valid) :
    c.movSingle mLP = ((c.movSingle mL).movSingle mL).movSingle mL := by
  obtain ⟨cor, ed⟩ := c
  obtain ⟨h8, h12, hc, he⟩ := hv
  obtain ⟨c0,c1,c2,c3,c4,c5,c6,c7, rfl⟩ := exists_list8 cor h8
  obtain ⟨e0,e1,e2,e3,e4,e5,e6,e7,e8,e9,e10,e11, rfl⟩ := exists_list12 ed h12
  obtain ⟨b0,b1,b2,b3,b4,b5,b6,b7⟩ := corner_bounds hc
  simp only [Cube.movSingle]
  rw [cornerNF_LP, edgeNF_LP, cornerNF_L, edgeNF_L,
    cornerNF_L, edgeNF_L, cornerNF_L, edgeNF_L]
  simp only [Nat.xor_zero]
  simp only [Cube.mk.injEq, List.cons.injEq, and_true, true_and]
  omega

theorem c3_double_D (c : Cube) (hv : c.Valid) :
    c.movSingle mD2 = (c.movSingle mD).movSingle mD := by
  obtain ⟨cor, ed⟩ := c
  obtain ⟨h8, h12, hc, he⟩ := hv
  obtain ⟨c0,c1,c2,c3,c4,c5,c6,c7, rfl⟩ := exists_list8 cor h8
  obtain ⟨e0,e1,e2,e3,e4,e5,e6,e7,e8,e9,e10,e11, rfl⟩ := exists_list12 ed h12
  obtain ⟨b0,b1,b2,b3,b4,b5,b6,b7⟩ := corner_bounds hc
  simp only [Cube.movSingle]
  rw [cornerNF_D2, edgeNF_D2, cornerNF_D, edgeNF_D,
    cornerNF_D, edgeNF_D]
  simp only [Nat.xor_zero]
  simp only [Cube.mk.injEq, List.cons.injEq, and_true, true_and]
  omega

theorem c3_rev_D (c : Cube) (hv : c.Valid) :
    c.movSingle mDP = ((c.movSingle mD).movSingle mD).movSingle mD := by
  obtain ⟨cor, ed⟩ := c
  obtain ⟨h8, h12, hc, he⟩ := hv
  obtain ⟨c0,c1,c2,c3,c4,c5,c6,c7, rfl⟩ := exists_list8 cor h8
  obtain ⟨e0,e1,e2,e3,e4,e5,e6,e7,e8,e9,e10,e11, rfl⟩ := exists_list12 ed h12
  obtain ⟨b0,b1,b2,b3,b4,b5,b6,b7⟩ := corner_bounds hc
  simp only [Cube.movSingle]
  rw [cornerNF_DP, edgeNF_DP, cornerNF_D, edgeNF_D,
    cornerNF_D, edgeNF_D, cornerNF_D, edgeNF_D]
  simp only [Nat.xor_zero]
  simp only [Cube.mk.injEq, List.cons.injEq, and_true, true_and]
  omega

theorem c3_double_B (c : Cube) (hv : c.Valid) :
    c.movSingle mB2 = (c.movSingle mB).movSingle mB := by
  obtain ⟨cor, ed⟩ := c
  obtain ⟨h8, h12, hc, he⟩ := hv
  obtain ⟨c0,c1,c2,c3,c4,c5,c6,c7, rfl⟩ := exists_list8 cor h8
  obtain ⟨e0,e1,e2,e3,e4,e5,e6,e7,e8,e9,e10,e11, rfl⟩ := exists_list12 ed h12
  obtain ⟨b0,b1,b2,b3,b4,b5,b6,b7⟩ := corner_bounds hc
  simp only [Cube.movSingle]
  rw [cornerNF_B2, edgeNF_B2, cornerNF_B, edgeNF_B,
    cornerNF_B, edgeNF_B]
  simp only [Nat.xor_assoc, Nat.xor_self, Nat.xor_zero]
  simp only [Cube.mk.injEq, List.cons.injEq, and_true, true_and]
  omega

theorem c3_rev_B (c : Cube) (hv : c.Valid) :
    c.movSingle mBP = ((c.movSingle mB).movSingle mB).movSingle mB := by
  obtain ⟨cor, ed⟩ := c
  obtain ⟨h8, h12, hc, he⟩ := hv
  obtain ⟨c0,c1,c2,c3,c4,c5,c6,c7, rfl⟩ := exists_list8 cor h8
  obtain ⟨e0,e1,e2,e3,e4,e5,e6,e7,e8,e9,e10,e11, rfl⟩ := exists_list12 ed h12
  obtain ⟨b0,b1,b2,b3,b4,b5,b6,b7⟩ := corner_bounds hc
  simp only [Cube.movSingle]
  rw [cornerNF_BP, edgeNF_BP, cornerNF_B, edgeNF_B,
    cornerNF_B, edgeNF_B, cornerNF_B, edgeNF_B]
  simp only [Nat.xor_assoc, Nat.xor_self, Nat.xor_zero]
  simp only [Cube.mk.injEq, List.cons.injEq, and_true, true_and]
  omega

/-- C3: `Cube::mov_single` preserves the cube invariants: for every structurally
valid cube state satisfying the invariants (corner-orientation sum divisible by
3, edge-orientation sum even, corner and edge positions each a permutation of
the home positions, and corner permutation parity equal to edge permutation
parity) and every one of the 18 moves, the resulting state is again valid and
satisfies all the invariants. -/
theorem c3_move_preserves_invariants (c : Cube) (hv : c.Valid) (hi : CubeInv c)
    (m : Nat) (hm : m ∈ Move.ALL) :
    (c.movSingle m).Valid ∧ CubeInv (c.movSingle m) := by
  fin_cases hm
  · exact c3_step_R c hv hi
  · rw [c3_double_R c hv]
    have h1 := c3_step_R c hv hi
    exact c3_step_R _ h1.1 h1.2
  · rw [c3_rev_R c hv]
    have h1 := c3_step_R c hv hi
    have h2 := c3_step_R _ h1.1 h1.2
    exact c3_step_R _ h2.1 h2.2
  · exact c3_step_U c hv hi
  · rw [c3_double_U c hv]
    have h1 := c3_step_U c hv hi
    exact c3_step_U _ h1.1 h1.2
  · rw [c3_rev_U c hv]
    have h1 := c3_step_U c hv hi
    have h2 := c3_step_U _ h1.1 h1.2
    exact c3_step_U _ h2.1 h2.2
  · exact c3_step_F c hv hi
  · rw [c3_double_F c hv]
    have h1 := c3_step_F c hv hi
    exact c3_step_F _ h1.1 h1.2
  · rw [c3_rev_F c hv]
    have h1 := c3_step_F c hv hi
    have h2 := c3_step_F _ h1.1 h1.2
    exact c3_step_F _ h2.1 h2.2
  · exact c3_step_L c hv hi
  · rw [c3_double_L c hv]
    have h1 := c3_step_L c hv hi
    exact c3_step_L _ h1.1 h1.2
  · rw [c3_rev_L c hv]
    have h1 := c3_step_L c hv hi
    have h2 := c3_step_L _ h1.1 h1.2
    exact c3_step_L _ h2.1 h2.2
  · exact c3_step_D c hv hi
  · rw [c3_double_D c hv]
    have h1 := c3_step_D c hv hi
    exact c3_step_D _ h1.1 h1.2
  · rw [c3_rev_D c hv]
    have h1 := c3_step_D c hv hi
    have h2 := c3_step_D _ h1.1 h1.2
    exact c3_step_D _ h2.1 h2.2
  · exact c3_step_B c hv hi
  · rw [c3_double_B c hv]
    have h1 := c3_step_B c hv hi
    exact c3_step_B _ h1.1 h1.2
  · rw [c3_rev_B c hv]
    have h1 := c3_step_B c hv hi
    have h2 := c3_step_B _ h1.1 h1.2
    exact c3_step_B _ h2.1 h2.2

theorem c3_move_preserves_invariants_witness :
    (Cube.SOLVED.movSingle mR).Valid ∧ CubeInv (Cube.SOLVED.movSingle mR) :=
  c3_move_preserves_invariants Cube.SOLVED ⟨rfl, rfl, by decide, by decide⟩
    ⟨by decide, by decide, by decide, by decide, by decide⟩ mR (by decide)

/-! Infrastructure for claim C4: the six coordinate subtables of
`PruneTable` and the roundtrip `index (from_index i) = i`. -/

/-- The common decode step of `CORNER_POSITION.from_index`,
`Y_SLICE_POSITION.from_index` and `NON_Y_SLICE_POSITION.from_index`
(prune_table.rs lines 271-285, 309-330, 354-371): the reverse loop writes
`arr[i] = index % (n - i)` and then increments every later entry that is
`>= arr[i]`.  Processing the digits from the last one backwards, each step
prepends its digit and bumps the already-placed entries, which is this
recursion applied to the digit list (most significant digit first, final digit
0 for the slot the loop never writes). -/
def lehmerBuild : List Nat → List Nat
  | [] => []
  | d :: rest => d :: (lehmerBuild rest).map (fun x => if d ≤ x then x + 1 else x)

/-- Digit bounds for a Lehmer digit list: each digit is at most the number of
digits after it. -/
def digitsOk : List Nat → Prop
  | [] => True
  | d :: rest => d ≤ rest.length ∧ digitsOk rest

/-- For each entry, how many later entries are smaller: the quantity the
`index` closures accumulate. -/
def laterSmallerCounts : List Nat → List Nat
  | [] => []
  | x :: rest => rest.countP (fun y => y < x) :: laterSmallerCounts rest

theorem countP_lt_range (d n : Nat) :
    (List.range n).countP (fun y => y < d) = min d n := by
  induction n with
  | zero => simp
  | succ n ih =>
    rw [List.range_succ, List.countP_append, ih]
    simp only [List.countP_cons, List.countP_nil]
    by_cases h : n < d <;> simp [h] <;> omega

theorem map_bump_range_id (d : Nat) :
    (List.range d).map (fun x => if d ≤ x then x + 1 else x) = List.range d := by
  have h : ∀ x ∈ List.range d, (fun x => if d ≤ x then x + 1 else x) x = id x := by
    intro x hx
    have := List.mem_range.1 hx
    simp only [id]
    exact if_neg (by omega)
  exact (List.map_congr_left h).trans (List.map_id _)

theorem cons_bump_perm (d : Nat) : ∀ n : Nat, d ≤ n →
    List.Perm (d :: (List.range n).map (fun x => if d ≤ x then x + 1 else x))
      (List.range (n + 1)) := by
  intro n h
  induction n, h using Nat.le_induction with
  | base =>
    rw [map_bump_range_id, List.range_succ]
    exact (List.perm_append_singleton d (List.range d)).symm
  | succ n hdn ih =>
    have h1 : List.range (n + 1) = List.range n ++ [n] := List.range_succ n
    have h2 : List.range (n + 1 + 1) = List.range (n + 1) ++ [n + 1] := List.range_succ (n + 1)
    have h3 : List.Perm (List.range (n + 1) ++ [n + 1]) (List.range (n + 1 + 1)) := by
      rw [h2]
    conv_lhs => rw [h1]
    rw [List.map_append, List.map_cons, List.map_nil, if_pos hdn]
    show List.Perm
      ((d :: (List.range n).map (fun x => if d ≤ x then x + 1 else x)) ++ [n + 1])
      (List.range (n + 1 + 1))
    exact (ih.append_right [n + 1]).trans h3

/-- A Lehmer decode with in-range digits is a permutation of `0, ..., n-1`. -/
theorem lehmerBuild_perm : ∀ ds : List Nat, digitsOk ds →
    List.Perm (lehmerBuild ds) (List.range ds.length) := by
  intro ds h
  induction ds with
  | nil => exact List.Perm.refl _
  | cons d rest ih =>
    obtain ⟨hd, hrest⟩ := h
    have hp := (ih hrest).map (fun x => if d ≤ x then x + 1 else x)
    exact (List.Perm.cons d hp).trans (cons_bump_perm d rest.length hd)

theorem counts_map_bump (d : Nat) : ∀ l : List Nat,
    laterSmallerCounts (l.map (fun x => if d ≤ x then x + 1 else x)) = laterSmallerCounts l := by
  intro l
  induction l with
  | nil => rfl
  | cons x rest ih =>
    simp only [List.map_cons, laterSmallerCounts, List.countP_map, List.cons.injEq]
    refine ⟨?_, ih⟩
    apply List.countP_congr
    intro a _
    simp only [Function.comp_apply, decide_eq_true_eq]
    split <;> split <;> omega

theorem head_count_build (d : Nat) (l : List Nat) (n : Nat)
    (hp : List.Perm l (List.range n)) (hd : d ≤ n) :
    (l.map (fun x => if d ≤ x then x + 1 else x)).countP (fun y => y < d) = d := by
  rw [List.countP_map]
  have h1 : l.countP ((fun y => decide (y < d)) ∘ (fun x => if d ≤ x then x + 1 else x))
      = l.countP (fun y => y < d) := by
    apply List.countP_congr
    intro a _
    simp only [Function.comp_apply, decide_eq_true_eq]
    split <;> omega
  rw [h1, hp.countP_eq, countP_lt_range]
  omega

/-- The Lehmer decode inverts the later-smaller counts: decoding a digit list
and re-counting gives back the digits. -/
theorem counts_build : ∀ ds : List Nat, digitsOk ds →
    laterSmallerCounts (lehmerBuild ds) = ds := by
  intro ds h
  induction ds with
  | nil => rfl
  | cons d rest ih =>
    obtain ⟨hd, hrest⟩ := h
    simp only [lehmerBuild, laterSmallerCounts, List.cons.injEq]
    refine ⟨?_, ?_⟩
    · have hp := lehmerBuild_perm rest hrest
      exact head_count_build d (lehmerBuild rest) rest.length hp hd
    · rw [counts_map_bump, ih hrest]

/-- `CORNER_POSITION.from_index` (prune_table.rs lines 271-285): the reverse
loop extracts digits `index % 2, index / 2 % 3, ..., index / 5040 % 8` for
slots 6 down to 0 (slot 7 keeps 0) and bumps later entries; this is
`lehmerBuild` on the digit list.  `Corner::solved` maps each position to the
identical packed byte. -/
def cornerPositionFromIndex (index : Nat) : List Nat :=
  lehmerBuild [index / 5040 % 8, index / 720 % 7, index / 120 % 6, index / 24 % 5,
    index / 6 % 4, index / 2 % 3, index % 2, 0]

theorem cornerPositionIndex_explicit (x0 x1 x2 x3 x4 x5 x6 x7 : Nat) :
    cornerPositionIndex [x0, x1, x2, x3, x4, x5, x6, x7] =
      ((((((((0 * 8 +
        List.countP (fun c2 => (c2 &&& 7) < (x0 &&& 7)) [x1, x2, x3, x4, x5, x6, x7]) * 7 +
        List.countP (fun c2 => (c2 &&& 7) < (x1 &&& 7)) [x2, x3, x4, x5, x6, x7]) * 6 +
        List.countP (fun c2 => (c2 &&& 7) < (x2 &&& 7)) [x3, x4, x5, x6, x7]) * 5 +
        List.countP (fun c2 => (c2 &&& 7) < (x3 &&& 7)) [x4, x5, x6, x7]) * 4 +
        List.countP (fun c2 => (c2 &&& 7) < (x4 &&& 7)) [x5, x6, x7]) * 3 +
        List.countP (fun c2 => (c2 &&& 7) < (x5 &&& 7)) [x6, x7]) * 2 +
        List.countP (fun c2 => (c2 &&& 7) < (x6 &&& 7)) [x7]) * 1 +
        List.countP (fun c2 => (c2 &&& 7) < (x7 &&& 7)) []) := rfl

theorem lsc_explicit8 (x0 x1 x2 x3 x4 x5 x6 x7 : Nat) :
    laterSmallerCounts [x0, x1, x2, x3, x4, x5, x6, x7] =
      [List.countP (fun y => y < x0) [x1, x2, x3, x4, x5, x6, x7],
       List.countP (fun y => y < x1) [x2, x3, x4, x5, x6, x7],
       List.countP (fun y => y < x2) [x3, x4, x5, x6, x7],
       List.countP (fun y => y < x3) [x4, x5, x6, x7],
       List.countP (fun y => y < x4) [x5, x6, x7],
       List.countP (fun y => y < x5) [x6, x7],
       List.countP (fun y => y < x6) [x7],
       List.countP (fun y => y < x7) []] := rfl

theorem cornerPosition_roundtrip : ∀ i < 40320,
    cornerPositionIndex (cornerPositionFromIndex i) = i := by
  intro i hi
  have hds : digitsOk [i / 5040 % 8, i / 720 % 7, i / 120 % 6, i / 24 % 5,
      i / 6 % 4, i / 2 % 3, i % 2, 0] := by
    refine ⟨?_, ?_, ?_, ?_, ?_, ?_, ?_, ?_, trivial⟩ <;> simp only [List.length_cons,
      List.length_nil] <;> omega
  have hperm := lehmerBuild_perm _ hds
  have hcounts := counts_build _ hds
  have hlen : (lehmerBuild [i / 5040 % 8, i / 720 % 7, i / 120 % 6, i / 24 % 5,
      i / 6 % 4, i / 2 % 3, i % 2, 0]).length = 8 := by
    rw [hperm.length_eq, List.length_range]
    rfl
  obtain ⟨x0, x1, x2, x3, x4, x5, x6, x7, hx⟩ := exists_list8 _ hlen
  have hb : ∀ y ∈ [x0, x1, x2, x3, x4, x5, x6, x7], y < 8 := by
    intro y hy
    exact List.mem_range.1 (hperm.mem_iff.1 (hx ▸ hy))
  obtain ⟨b0, b1, b2, b3, b4, b5, b6, b7⟩ :=
    (forall_mem_list8 (P := fun y => y < 8)).1 hb
  rw [hx] at hcounts
  rw [lsc_explicit8] at hcounts
  simp only [List.cons.injEq, and_true] at hcounts
  obtain ⟨hc0, hc1, hc2, hc3, hc4, hc5, hc6, -⟩ := hcounts
  show cornerPositionIndex (lehmerBuild [i / 5040 % 8, i / 720 % 7, i / 120 % 6, i / 24 % 5,
      i / 6 % 4, i / 2 % 3, i % 2, 0]) = i
  rw [hx, cornerPositionIndex_explicit]
  simp only [List.countP_cons, List.countP_nil, and7_eq,
    Nat.mod_eq_of_lt b0, Nat.mod_eq_of_lt b1, Nat.mod_eq_of_lt b2, Nat.mod_eq_of_lt b3,
    Nat.mod_eq_of_lt b4, Nat.mod_eq_of_lt b5, Nat.mod_eq_of_lt b6, Nat.mod_eq_of_lt b7]
  simp only [List.countP_cons, List.countP_nil] at hc0 hc1 hc2 hc3 hc4 hc5 hc6
  rw [hc0, hc1, hc2, hc3, hc4, hc5, hc6]
  omega

/-- `Y_SLICE_POSITION.from_index` (prune_table.rs lines 309-330): decode 8
Lehmer digits, put the first four results in edge slots 0-3 and the last four
in slots 8-11; slots 4-7 keep the solved edges `4, 5, 6, 7`. -/
def ySlicePositionFromIndex (index : Nat) : List Nat :=
  let e := lehmerBuild [index / 5040 % 8, index / 720 % 7, index / 120 % 6, index / 24 % 5,
    index / 6 % 4, index / 2 % 3, index % 2, 0]
  e.take 4 ++ [4, 5, 6, 7] ++ e.drop 4

theorem ySlicePositionIndex_explicit (a0 a1 a2 a3 a4 a5 a6 a7 a8 a9 a10 a11 : Nat) :
    ySlicePositionIndex [a0, a1, a2, a3, a4, a5, a6, a7, a8, a9, a10, a11] =
      ((((((((0 * 8 +
        List.countP (fun e2 => (e2 &&& 15) < (a0 &&& 15)) [a1, a2, a3, a8, a9, a10, a11]) * 7 +
        List.countP (fun e2 => (e2 &&& 15) < (a1 &&& 15)) [a2, a3, a8, a9, a10, a11]) * 6 +
        List.countP (fun e2 => (e2 &&& 15) < (a2 &&& 15)) [a3, a8, a9, a10, a11]) * 5 +
        List.countP (fun e2 => (e2 &&& 15) < (a3 &&& 15)) [a8, a9, a10, a11]) * 4 +
        List.countP (fun e2 => (e2 &&& 15) < (a8 &&& 15)) [a9, a10, a11]) * 3 +
        List.countP (fun e2 => (e2 &&& 15) < (a9 &&& 15)) [a10, a11]) * 2 +
        List.countP (fun e2 => (e2 &&& 15) < (a10 &&& 15)) [a11]) * 1 +
        List.countP (fun e2 => (e2 &&& 15) < (a11 &&& 15)) []) := rfl

theorem ySlicePosition_roundtrip : ∀ i < 40320,
    ySlicePositionIndex (ySlicePositionFromIndex i) = i := by
  intro i hi
  have hds : digitsOk [i / 5040 % 8, i / 720 % 7, i / 120 % 6, i / 24 % 5,
      i / 6 % 4, i / 2 % 3, i % 2, 0] := by
    refine ⟨?_, ?_, ?_, ?_, ?_, ?_, ?_, ?_, trivial⟩ <;> simp only [List.length_cons,
      List.length_nil] <;> omega
  have hperm := lehmerBuild_perm _ hds
  have hcounts := counts_build _ hds
  have hlen : (lehmerBuild [i / 5040 % 8, i / 720 % 7, i / 120 % 6, i / 24 % 5,
      i / 6 % 4, i / 2 % 3, i % 2, 0]).length = 8 := by
    rw [hperm.length_eq, List.length_range]
    rfl
  obtain ⟨x0, x1, x2, x3, x4, x5, x6, x7, hx⟩ := exists_list8 _ hlen
  have hb : ∀ y ∈ [x0, x1, x2, x3, x4, x5, x6, x7], y < 8 := by
    intro y hy
    exact List.mem_range.1 (hperm.mem_iff.1 (hx ▸ hy))
  obtain ⟨b0, b1, b2, b3, b4, b5, b6, b7⟩ :=
    (forall_mem_list8 (P := fun y => y < 8)).1 hb
  have c0 : x0 < 16 := by omega
  have c1 : x1 < 16 := by omega
  have c2 : x2 < 16 := by omega
  have c3 : x3 < 16 := by omega
  have c4 : x4 < 16 := by omega
  have c5 : x5 < 16 := by omega
  have c6 : x6 < 16 := by omega
  have c7 : x7 < 16 := by omega
  rw [hx] at hcounts
  rw [lsc_explicit8] at hcounts
  simp only [List.cons.injEq, and_true] at hcounts
  obtain ⟨hc0, hc1, hc2, hc3, hc4, hc5, hc6, -⟩ := hcounts
  show ySlicePositionIndex
    ((lehmerBuild [i / 5040 % 8, i / 720 % 7, i / 120 % 6, i / 24 % 5,
      i / 6 % 4, i / 2 % 3, i % 2, 0]).take 4 ++ [4, 5, 6, 7] ++
     (lehmerBuild [i / 5040 % 8, i / 720 % 7, i / 120 % 6, i / 24 % 5,
      i / 6 % 4, i / 2 % 3, i % 2, 0]).drop 4) = i
  rw [hx]
  show ySlicePositionIndex [x0, x1, x2, x3, 4, 5, 6, 7, x4, x5, x6, x7] = i
  rw [ySlicePositionIndex_explicit]
  simp only [List.countP_cons, List.countP_nil, and15_eq,
    Nat.mod_eq_of_lt c0, Nat.mod_eq_of_lt c1, Nat.mod_eq_of_lt c2, Nat.mod_eq_of_lt c3,
    Nat.mod_eq_of_lt c4, Nat.mod_eq_of_lt c5, Nat.mod_eq_of_lt c6, Nat.mod_eq_of_lt c7]
  simp only [List.countP_cons, List.countP_nil] at hc0 hc1 hc2 hc3 hc4 hc5 hc6
  rw [hc0, hc1, hc2, hc3, hc4, hc5, hc6]
  omega

/-- `Corner::set_orientation` (corner.rs line 73):
`data = data & 0b00111 ^ (orientation << 3)`. -/
def Corner.set_orientation (d o : Nat) : Nat := (d &&& 7) ^^^ (o <<< 3)

/-- `CORNER_ORIENTATION.index` (prune_table.rs lines 137-145): base-3 value of
the first seven corners' orientations, corner 0 most significant. -/
def cornerOrientationIndex (corners : List Nat) : Nat :=
  (corners.take 7).foldl (fun index c => index * 3 + ((c >>> 3) &&& 3)) 0

/-- `CORNER_ORIENTATION.from_index` (prune_table.rs lines 146-158): the loop
over corners 6 down to 0 assigns orientation `index % 3` then divides, so
corner `k` gets `index / 3 ^ (6 - k) % 3` (unrolled here); corner 7 is set so
the total is 0 mod 3 via `Axis::from_i8_mod3(-(sum))` = `(-sum).rem_euclid(3)`. -/
def cornerOrientationFromIndex (index : Nat) : List Nat :=
  [Corner.set_orientation 0 (index / 729 % 3), Corner.set_orientation 1 (index / 243 % 3),
   Corner.set_orientation 2 (index / 81 % 3), Corner.set_orientation 3 (index / 27 % 3),
   Corner.set_orientation 4 (index / 9 % 3), Corner.set_orientation 5 (index / 3 % 3),
   Corner.set_orientation 6 (index % 3),
   Corner.set_orientation 7
     (((-((index % 3 + index / 3 % 3 + index / 9 % 3 + index / 27 % 3 + index / 81 % 3
        + index / 243 % 3 + index / 729 % 3 : Nat) : Int)).emod 3).toNat)]

theorem orient_extract : ∀ k < 8, ∀ o < 3,
    ((Corner.set_orientation k o) >>> 3) &&& 3 = o := by decide

theorem coIndex_explicit (a0 a1 a2 a3 a4 a5 a6 a7 : Nat) :
    cornerOrientationIndex [a0, a1, a2, a3, a4, a5, a6, a7] =
      ((((((0 * 3 + ((a0 >>> 3) &&& 3)) * 3 + ((a1 >>> 3) &&& 3)) * 3 + ((a2 >>> 3) &&& 3)) * 3
        + ((a3 >>> 3) &&& 3)) * 3 + ((a4 >>> 3) &&& 3)) * 3 + ((a5 >>> 3) &&& 3)) * 3
        + ((a6 >>> 3) &&& 3) := rfl

theorem cornerOrientation_roundtrip : ∀ i < 2187,
    cornerOrientationIndex (cornerOrientationFromIndex i) = i := by
  intro i hi
  simp only [cornerOrientationFromIndex]
  rw [coIndex_explicit]
  rw [orient_extract 0 (by decide) _ (Nat.mod_lt _ (by decide)),
      orient_extract 1 (by decide) _ (Nat.mod_lt _ (by decide)),
      orient_extract 2 (by decide) _ (Nat.mod_lt _ (by decide)),
      orient_extract 3 (by decide) _ (Nat.mod_lt _ (by decide)),
      orient_extract 4 (by decide) _ (Nat.mod_lt _ (by decide)),
      orient_extract 5 (by decide) _ (Nat.mod_lt _ (by decide)),
      orient_extract 6 (by decide) _ (Nat.mod_lt _ (by decide))]
  omega

/-- Modelled from the spec: `Edge::set_oriented(b)` writes the edge
orientation bit (bit 4 of the packed byte `---onnba`), clearing it when the
edge is oriented and setting it otherwise; the position bits are kept.  The
method itself is not in the vendored sources (only its callers are), so this
follows the spec's description of the edge byte layout, matching
`is_oriented` (edge.rs lines 61-65): `data & 0b00010000 == 0`. -/
def Edge.set_oriented (d : Nat) (oriented : Bool) : Nat :=
  (d &&& 15) ^^^ (if oriented then 0 else 16)

/-- `EDGE_ORIENTATION.index` (prune_table.rs lines 166-173): base-2 value of
the first eleven edges' orientation bits, edge 0 most significant. -/
def edgeOrientationIndex (edges : List Nat) : Nat :=
  (edges.take 11).foldl (fun output e => output * 2 + (e >>> 4)) 0

/-- `EDGE_ORIENTATION.from_index` (prune_table.rs lines 174-187): the loop
over edges 10 down to 0 sets edge `k` oriented iff bit `10 - k` of the index
is 0 (unrolled here); edge 11 is set oriented iff the number of oriented
edges among the first eleven is even. -/
def edgeOrientationFromIndex (index : Nat) : List Nat :=
  [Edge.set_oriented 0 (index / 1024 % 2 == 0), Edge.set_oriented 1 (index / 512 % 2 == 0),
   Edge.set_oriented 2 (index / 256 % 2 == 0), Edge.set_oriented 3 (index / 128 % 2 == 0),
   Edge.set_oriented 4 (index / 64 % 2 == 0), Edge.set_oriented 5 (index / 32 % 2 == 0),
   Edge.set_oriented 6 (index / 16 % 2 == 0), Edge.set_oriented 7 (index / 8 % 2 == 0),
   Edge.set_oriented 8 (index / 4 % 2 == 0), Edge.set_oriented 9 (index / 2 % 2 == 0),
   Edge.set_oriented 10 (index % 2 == 0),
   Edge.set_oriented 11
     (((if index / 1024 % 2 == 0 then 1 else 0) + (if index / 512 % 2 == 0 then 1 else 0)
      + (if index / 256 % 2 == 0 then 1 else 0) + (if index / 128 % 2 == 0 then 1 else 0)
      + (if index / 64 % 2 == 0 then 1 else 0) + (if index / 32 % 2 == 0 then 1 else 0)
      + (if index / 16 % 2 == 0 then 1 else 0) + (if index / 8 % 2 == 0 then 1 else 0)
      + (if index / 4 % 2 == 0 then 1 else 0) + (if index / 2 % 2 == 0 then 1 else 0)
      + (if index % 2 == 0 then 1 else 0)) % 2 == 0)]

theorem oriented_extract : ∀ k < 16, ∀ b : Bool,
    (Edge.set_oriented k b) >>> 4 = if b then 0 else 1 := by decide

theorem bit_of_beq (n : Nat) : (if (n % 2 == 0) = true then (0 : Nat) else 1) = n % 2 := by
  rcases Nat.mod_two_eq_zero_or_one n with h | h <;> simp [h]

theorem eoIndex_explicit (a0 a1 a2 a3 a4 a5 a6 a7 a8 a9 a10 a11 : Nat) :
    edgeOrientationIndex [a0, a1, a2, a3, a4, a5, a6, a7, a8, a9, a10, a11] =
      ((((((((((0 * 2 + (a0 >>> 4)) * 2 + (a1 >>> 4)) * 2 + (a2 >>> 4)) * 2 + (a3 >>> 4)) * 2
        + (a4 >>> 4)) * 2 + (a5 >>> 4)) * 2 + (a6 >>> 4)) * 2 + (a7 >>> 4)) * 2
        + (a8 >>> 4)) * 2 + (a9 >>> 4)) * 2 + (a10 >>> 4) := rfl

theorem edgeOrientation_roundtrip : ∀ i < 2048,
    edgeOrientationIndex (edgeOrientationFromIndex i) = i := by
  intro i hi
  simp only [edgeOrientationFromIndex]
  rw [eoIndex_explicit]
  rw [oriented_extract 0 (by decide), oriented_extract 1 (by decide),
      oriented_extract 2 (by decide), oriented_extract 3 (by decide),
      oriented_extract 4 (by decide), oriented_extract 5 (by decide),
      oriented_extract 6 (by decide), oriented_extract 7 (by decide),
      oriented_extract 8 (by decide), oriented_extract 9 (by decide),
      oriented_extract 10 (by decide)]
  simp only [bit_of_beq]
  have d1 : i / 2 / 2 = i / 4 := by rw [Nat.div_div_eq_div_mul]
  have d2 : i / 4 / 2 = i / 8 := by rw [Nat.div_div_eq_div_mul]
  have d3 : i / 8 / 2 = i / 16 := by rw [Nat.div_div_eq_div_mul]
  have d4 : i / 16 / 2 = i / 32 := by rw [Nat.div_div_eq_div_mul]
  have d5 : i / 32 / 2 = i / 64 := by rw [Nat.div_div_eq_div_mul]
  have d6 : i / 64 / 2 = i / 128 := by rw [Nat.div_div_eq_div_mul]
  have d7 : i / 128 / 2 = i / 256 := by rw [Nat.div_div_eq_div_mul]
  have d8 : i / 256 / 2 = i / 512 := by rw [Nat.div_div_eq_div_mul]
  have d9 : i / 512 / 2 = i / 1024 := by rw [Nat.div_div_eq_div_mul]
  omega

/-- `calc_combination` (prune_table.rs lines 195-208): the product
`n * (n-1) * ... * (n-r+1)` divided stepwise by `r, r-1, ..., 1`.  `Nat`
subtraction is truncated, but the only calls whose Rust `usize` subtraction
would underflow (`n ≤ r - 2`) are unreachable in `IS_ON_Y_SLICE`. -/
def calc_combination (n r : Nat) : Nat :=
  let output := (List.range r).foldl (fun output i => output * (n - i)) 1
  (List.range r).foldl (fun output i => output / (r - i)) output

/-- `IS_ON_Y_SLICE.index` (prune_table.rs lines 210-228): walk the edges from
slot 11 down, and for each edge whose position's normal is the y axis
(`(data & 15) >> 2 & 0b11 == 1`) add `C(slot, remaining)` and decrement
`remaining` (starting at 4). -/
def isOnYSliceIndex (edges : List Nat) : Nat :=
  ((edges.enum.reverse).foldl
    (fun st p =>
      if (((p.2 &&& 15) >>> 2) &&& 3) == 1 then
        (st.1 + calc_combination p.1 st.2, st.2 - 1)
      else st)
    (0, 4)).1

/-- `IS_ON_Y_SLICE.from_index` (prune_table.rs lines 229-248): walk slots 11
down to 0; if `index >= C(slot, remaining)` place the next y-slice edge
(`Edge::SOLVED[remaining + 3]`), subtract and decrement, otherwise place
`Edge::SOLVED[(slot + 8 - remaining) % 12]`. -/
def isOnYSliceFromIndex (index : Nat) : List Nat :=
  (((List.range 12).reverse).foldl
    (fun st i =>
      if calc_combination i st.2.1 ≤ st.1 then
        (st.1 - calc_combination i st.2.1, st.2.1 - 1, ((st.2.1 + 3) :: st.2.2))
      else (st.1, st.2.1, (((i + 8 - st.2.1) % 12) :: st.2.2)))
    (index, 4, ([] : List Nat))).2.2

set_option maxRecDepth 2000 in
theorem isOnYSlice_roundtrip_lo : ∀ i < 250,
    isOnYSliceIndex (isOnYSliceFromIndex i) = i := by decide

set_option maxRecDepth 2000 in
theorem isOnYSlice_roundtrip_hi : ∀ i < 245,
    isOnYSliceIndex (isOnYSliceFromIndex (250 + i)) = 250 + i := by decide

theorem isOnYSlice_roundtrip : ∀ i < 495,
    isOnYSliceIndex (isOnYSliceFromIndex i) = i := by
  intro i hi
  rcases Nat.lt_or_ge i 250 with h | h
  · exact isOnYSlice_roundtrip_lo i h
  · have := isOnYSlice_roundtrip_hi (i - 250) (by omega)
    rw [show 250 + (i - 250) = i by omega] at this
    exact this

/-- `NON_Y_SLICE_POSITION.from_index` (prune_table.rs lines 354-371): decode
4 Lehmer digits into edge slots 4-7; the other slots keep the solved edges. -/
def nonYSlicePositionFromIndex (index : Nat) : List Nat :=
  [0, 1, 2, 3] ++ lehmerBuild [index / 6 % 4, index / 2 % 3, index % 2, 0] ++ [8, 9, 10, 11]

theorem nonYSlicePosition_roundtrip : ∀ i < 24,
    nonYSlicePositionIndex (nonYSlicePositionFromIndex i) = i := by decide

/-- C4: for each of the six coordinate subtables of the prune table - corner
orientation, edge orientation, y-slice placement, corner permutation,
y-slice edge permutation, and non-y-slice edge permutation - and every index
below that coordinate's cardinality (2187, 2048, 495, 40320, 40320, 24),
`index (from_index i) = i`. -/
theorem c4_subtable_index_roundtrips :
    (∀ i < 2187, cornerOrientationIndex (cornerOrientationFromIndex i) = i) ∧
    (∀ i < 2048, edgeOrientationIndex (edgeOrientationFromIndex i) = i) ∧
    (∀ i < 495, isOnYSliceIndex (isOnYSliceFromIndex i) = i) ∧
    (∀ i < 40320, cornerPositionIndex (cornerPositionFromIndex i) = i) ∧
    (∀ i < 40320, ySlicePositionIndex (ySlicePositionFromIndex i) = i) ∧
    (∀ i < 24, nonYSlicePositionIndex (nonYSlicePositionFromIndex i) = i) :=
  ⟨cornerOrientation_roundtrip, edgeOrientation_roundtrip, isOnYSlice_roundtrip,
   cornerPosition_roundtrip, ySlicePosition_roundtrip, nonYSlicePosition_roundtrip⟩

/-- Witness for C4 at the largest index of each subtable. -/
theorem c4_subtable_index_roundtrips_witness :
    cornerOrientationIndex (cornerOrientationFromIndex 2186) = 2186 ∧
    edgeOrientationIndex (edgeOrientationFromIndex 2047) = 2047 ∧
    isOnYSliceIndex (isOnYSliceFromIndex 494) = 494 ∧
    cornerPositionIndex (cornerPositionFromIndex 40319) = 40319 ∧
    ySlicePositionIndex (ySlicePositionFromIndex 40319) = 40319 ∧
    nonYSlicePositionIndex (nonYSlicePositionFromIndex 23) = 23 :=
  ⟨c4_subtable_index_roundtrips.1 2186 (by decide),
   c4_subtable_index_roundtrips.2.1 2047 (by decide),
   c4_subtable_index_roundtrips.2.2.1 494 (by decide),
   c4_subtable_index_roundtrips.2.2.2.1 40319 (by decide),
   c4_subtable_index_roundtrips.2.2.2.2.1 40319 (by decide),
   c4_subtable_index_roundtrips.2.2.2.2.2 23 (by decide)⟩

end Norcina
